import Mathlib

/-!
# X-Plane panel firmware (PIC18): a shallow embedding and its properties

The firmware's global variables and the special-function registers it touches
are gathered in one record, `State`; every C function becomes a function
`State → State` that follows the C statements in order.

Conventions.
* Machine integers are natural numbers with explicit reduction modulo `2 ^ w`
  where the C type can wrap.  XC8 conventions (see the header of `main.c`):
  plain `char` is unsigned and 8 bits wide, `int` is 16 bits wide, the first
  bit-field of a structure is the least significant bit, multi-byte integers
  are little-endian, structures are not padded.
* A data pointer is an object (an array of the program) and an offset; the
  null pointer is offset 0 of the raw address space.  RAM arrays live in
  `State.mem`, constant tables in `romData`.
* A function pointer is a value of `FnPtr`; `SPIServiceInterrupt` takes the
  code behind function addresses as a parameter, and the definition `call` is
  the table of the firmware itself.
* `State.log` is a ghost trace of the observable actions (fatal-error signal,
  chip-select writes, transmit-register writes, callback invocations); no
  function reads it.
* Hardware that acts between two firmware entries (the SPI peripheral
  finishing a byte, the USB engine completing a transaction) is modelled by the
  separate `spi…` and `sie…` definitions, which only do what the data sheet
  says the peripheral does and then enter the firmware's service routine.

Definitions come first, then the theorems.
-/

namespace XPlanePanel

/-! ## Memory objects and pointers -/

/-- Arrays that the firmware's data pointers can point into.  `absolute` is the
raw address space: the null pointer is offset 0 of it. -/
inductive Object
  | absolute
  | DisplayInitialize_buffer
  | DisplayTerminate_buffer
  | DisplayValues_buffer
  | gReadKeyADebounced
  | callerBuffer
  | gDeviceDescriptor
  | gConfigurationDescriptor
  | gReportDescriptor
  | gStringDescriptor0
  | gStringDescriptorManufacturer
  | gStringDescriptorProduct
  | ep0OutBuffer
  | ep0InBuffer
  | ep1OutBuffer
  | ep1InBuffer
  deriving DecidableEq, Repr

/-- A data pointer: an object and a byte offset into it. -/
structure Ptr where
  obj : Object
  off : Nat
  deriving DecidableEq, Repr

/-- The null pointer. -/
def NULL : Ptr := ⟨Object.absolute, 0⟩

/-- Pointer arithmetic `p + n`. -/
def Ptr.add (p : Ptr) (n : Nat) : Ptr := ⟨p.obj, p.off + n⟩

/-- Addresses of functions that are passed around as `void (*)()`.
`ReadDebouncedKeyA` is the only function of the firmware whose address is
taken; `external` stands for a callback supplied by some other caller of the
SPI engine. -/
inductive FnPtr
  | ReadDebouncedKeyA
  | external (id : Nat)
  deriving DecidableEq, Repr

/-! ## Hardware records -/

/-- Buffer descriptor status register (`BDSTAT` of `USB.h`), one field per bit,
least significant bit first.  In CPU mode the bits are `BC8, BC9, BSTALL,
DTSEN, -, -, DTS, UOWN`; in SIE mode bits 2..5 are read as the token `PID`. -/
structure BDSTAT where
  BC8 : Bool
  BC9 : Bool
  BSTALL : Bool
  DTSEN : Bool
  bit4 : Bool
  bit5 : Bool
  DTS : Bool
  UOWN : Bool
  deriving DecidableEq, Repr

/-- The value written by `STAT.i = 0`. -/
def BDSTAT.zero : BDSTAT := ⟨false, false, false, false, false, false, false, false⟩

/-- The SIE-mode view `STAT.PID`: bits 2..5 of the register. -/
def BDSTAT.PID (b : BDSTAT) : Nat :=
  b.BSTALL.toNat + 2 * b.DTSEN.toNat + 4 * b.bit4.toNat + 8 * b.bit5.toNat

/-- Endpoint buffer descriptor (`BufferDescriptor` of `USB.h`). -/
structure BufferDescriptor where
  STAT : BDSTAT
  CNT : Nat
  ADR : Ptr
  deriving DecidableEq, Repr

/-- Endpoint control register `UEPn`, one field per implemented bit. -/
structure UEP where
  EPSTALL : Bool
  EPINEN : Bool
  EPOUTEN : Bool
  EPCONDIS : Bool
  EPHSHK : Bool
  deriving DecidableEq, Repr

/-- The value written by `UEPn = 0`. -/
def UEP.zero : UEP := ⟨false, false, false, false, false⟩

/-- Observable actions, recorded in program order in `State.log`. -/
inductive Event
  | error
  | chipSelect (level : Bool)
  | transmit (byte : Nat)
  | callback (f : FnPtr)
  deriving DecidableEq, Repr

/-! ## The machine state -/

/-- Global variables of the firmware and the registers it reads or writes. -/
structure State where
  /-- Contents of the RAM arrays (constant tables are read from `romData`). -/
  mem : Object → List Nat
  /-- Ghost: the observable actions so far, oldest first. -/
  log : List Event
  /-- Diagnostic indicator line driven by `Error`. -/
  LATD3 : Bool
  -- SPI peripheral
  /-- Chip-select line: `true` is high (deselected), `false` is low (selected). -/
  LATA5 : Bool
  /-- Receive side of `SSP1BUF`: the byte the firmware reads. -/
  SSP1BUF : Nat
  /-- Transmit side of `SSP1BUF`: the byte last written by the firmware. -/
  SSP1BUF_out : Nat
  /-- Buffer-full flag `SSP1STATbits.BF`: a received byte has not been read. -/
  BF : Bool
  -- SPI.c
  gSPICallback : Option FnPtr
  gSPIData : Ptr
  gSPIDataL : Nat
  -- Display.c
  gValue0 : Nat
  gValue1 : Nat
  INTEDG2 : Bool
  INT2IF : Bool
  INT2IE : Bool
  ANSB2 : Bool
  TRISB2 : Bool
  WPUB2 : Bool
  -- USBEndpoint1.c
  gToggleIN : Nat
  ep1Out : BufferDescriptor
  ep1In : BufferDescriptor
  UEP1 : UEP
  -- USBEndpoint0.c
  ep0Out : BufferDescriptor
  ep0In : BufferDescriptor
  UEP0 : UEP
  gEndpoint0OUTData : Ptr
  gEndpoint0OUTDataL : Nat
  gEndpoint0OUTToggle : Bool
  gEndpoint0INData : Ptr
  gEndpoint0INDataL : Nat
  gEndpoint0INToggle : Bool
  gPendingAddress : Nat
  UADDR : Nat
  PKTDIS : Bool
  /-- Direction bit `USTATbits.DIR` of the transaction being serviced. -/
  USTAT_DIR : Bool

/-! ## Constant tables (`USBEndpoint0.c`) -/

/-- Bytes of `gDeviceDescriptor`. -/
def gDeviceDescriptor : List Nat :=
  [18, 1, 0x00, 0x02, 0x00, 0x00, 0x00, 32, 0x55, 0xF0, 0x34, 0x12, 0x01, 0x00, 1, 2, 0, 1]

/-- Bytes of `gReportDescriptor`: each item is its prefix byte
`size2 | type << 2 | tag << 4` followed by its little-endian value. -/
def gReportDescriptor : List Nat :=
  [0x06, 0xA0, 0xFF,
   0x09, 0x01,
   0xA1, 0x01,
   0x15, 0x00,
   0x27, 0x3F, 0x42, 0x0F, 0x00,
   0x95, 0x02,
   0x75, 0x14,
   0x09, 0x21,
   0x81, 0xA2,
   0x09, 0x22,
   0x91, 0xA2,
   0xC0]

/-- Bytes of `gConfigurationDescriptor`: configuration, interface, HID class
descriptor and the two endpoint descriptors. -/
def gConfigurationDescriptor : List Nat :=
  [9, 2, 41, 0, 1, 1, 0, 0x80, 20,
   9, 4, 0, 0, 2, 3, 0x00, 0x00, 0,
   9, 0x21, 0x11, 0x01, 0, 1, 0x22, 27, 0,
   7, 5, 0x01, 0x03, 5, 0, 100,
   7, 5, 0x81, 0x03, 5, 0, 100]

/-- Bytes of `gStringDescriptor0`. -/
def gStringDescriptor0 : List Nat := [4, 3, 0x09, 0x04]

/-- Little-endian bytes of an array of 16-bit code units. -/
def utf16Bytes (s : List Char) : List Nat :=
  s.flatMap fun c => [c.toNat % 256, c.toNat / 256 % 256]

/-- Bytes of `gStringDescriptorManufacturer`. -/
def gStringDescriptorManufacturer : List Nat :=
  [24, 3] ++ utf16Bytes "Ben Hekster".toList

/-- Bytes of `gStringDescriptorProduct`. -/
def gStringDescriptorProduct : List Nat :=
  [48, 3] ++ utf16Bytes "Simulator Display Panel".toList

/-- Contents of the objects that live in program memory. -/
def romData : Object → Option (List Nat)
  | Object.gDeviceDescriptor => some gDeviceDescriptor
  | Object.gConfigurationDescriptor => some gConfigurationDescriptor
  | Object.gReportDescriptor => some gReportDescriptor
  | Object.gStringDescriptor0 => some gStringDescriptor0
  | Object.gStringDescriptorManufacturer => some gStringDescriptorManufacturer
  | Object.gStringDescriptorProduct => some gStringDescriptorProduct
  | _ => none

/-- Contents of an object in state `s`. -/
def State.contents (s : State) (o : Object) : List Nat :=
  match romData o with
  | some bytes => bytes
  | none => s.mem o

/-- Read `*p` (an 8-bit load).  A read outside the object yields 0. -/
def State.load (s : State) (p : Ptr) : Nat := (s.contents p.obj).getD p.off 0 % 256

/-- Write `*p = v` (an 8-bit store).  A write outside the object is dropped;
a write to a constant table has no effect on what is read from it. -/
def State.store (s : State) (p : Ptr) (v : Nat) : State :=
  { s with mem := Function.update s.mem p.obj ((s.mem p.obj).set p.off (v % 256)) }

/-- Assign every element of the array `o`, element by element:
`o[0] = bytes[0]; o[1] = bytes[1]; ...` (8-bit stores). -/
def State.assign (s : State) (o : Object) (bytes : List Nat) : State :=
  { s with mem := Function.update s.mem o (bytes.map (· % 256)) }

/-! ## `USB.c`: the fatal-error signal -/

/-- `Error()`: drives the indicator line low. -/
def Error (s : State) : State :=
  { s with LATD3 := false, log := s.log ++ [Event.error] }

/-! ## `SPI.c` -/

/-- Write the chip-select line: `LATAbits.LATA5 = level`. -/
def writeLATA5 (level : Bool) (s : State) : State :=
  { s with LATA5 := level, log := s.log ++ [Event.chipSelect level] }

/-- Write the transmit register: `SSP1BUF = byte`. -/
def writeSSP1BUF (byte : Nat) (s : State) : State :=
  { s with SSP1BUF_out := byte, log := s.log ++ [Event.transmit byte] }

/-- `SPIStartExchange(data, dataL, callback)`. -/
def SPIStartExchange (data : Ptr) (dataL : Nat) (callback : Option FnPtr) (s : State) : State :=
  -- should not be an exchange in progress already
  if s.gSPIData ≠ NULL then Error s
  else
    -- we're not optimizing for the special case of a zero-length exchange
    let s := if dataL % 256 = 0 then Error s else s
    -- any previously received data should already have been removed
    let s := if s.BF then Error s else s
    -- data to exchange
    let s := { s with gSPICallback := callback, gSPIData := data, gSPIDataL := dataL % 256 }
    -- enable SPI slave Chip Select
    let s := writeLATA5 false s
    -- send first byte
    writeSSP1BUF (s.load s.gSPIData) s

/-- `SPIServiceInterrupt()`; `call f` is the body of the function at address
`f`.  Reading `SSP1BUF` clears the buffer-full flag. -/
def SPIServiceInterrupt (call : FnPtr → State → State) (s : State) : State :=
  -- store exchanged data in buffer
  let s := { s.store s.gSPIData s.SSP1BUF with BF := false }
  let s := { s with gSPIData := s.gSPIData.add 1, gSPIDataL := (s.gSPIDataL + 255) % 256 }
  -- end of two-byte MAX command?
  let s := if s.gSPIDataL % 2 = 0 then writeLATA5 true s else s
  -- still more data to exchange?
  if s.gSPIDataL ≠ 0 then
    -- will start a new two-byte MAX command?
    let s := if s.gSPIDataL % 2 = 0 then writeLATA5 false s else s
    -- send next byte
    writeSSP1BUF (s.load s.gSPIData) s
  else
    -- no more data to send
    let s := { s with gSPIData := NULL }
    -- notify caller
    match s.gSPICallback with
    | some callback =>
      -- clear global state so the callback can schedule another transfer
      let s := { s with gSPICallback := none }
      call callback { s with log := s.log ++ [Event.callback callback] }
    | none => s

/-! ## `USBEndpoint1.c`, part 1: arming and the report encoder -/

/-- `ArmEndpoint1OUT()`. -/
def ArmEndpoint1OUT (s : State) : State :=
  let s := if s.ep1Out.STAT.UOWN then Error s else s
  -- data to expect in the next OUT transaction
  let s := { s with ep1Out := { s.ep1Out with ADR := ⟨Object.ep1OutBuffer, 0⟩ } }
  let s := { s with ep1Out := { s.ep1Out with CNT := 5 } }
  let s := { s with ep1Out := { s.ep1Out with STAT := BDSTAT.zero } }
  -- 'arm' Endpoint 1 OUT in anticipation of next Data Stage Transaction
  { s with ep1Out := { s.ep1Out with STAT := { s.ep1Out.STAT with UOWN := true } } }

/-- `ArmEndpoint1IN()`. -/
def ArmEndpoint1IN (s : State) : State :=
  let s := if s.ep1In.STAT.UOWN then Error s else s
  -- data to send in the next IN transaction
  let s := { s with ep1In := { s.ep1In with ADR := ⟨Object.ep1InBuffer, 0⟩ } }
  let s := { s with ep1In := { s.ep1In with CNT := 5 } }
  let s := { s with ep1In := { s.ep1In with STAT := BDSTAT.zero } }
  let s := { s with ep1In := { s.ep1In with STAT := { s.ep1In.STAT with DTS := s.gToggleIN % 2 = 1 } } }
  let s := { s with ep1In := { s.ep1In with STAT := { s.ep1In.STAT with DTSEN := true } } }
  -- 'arm' Endpoint 1 IN in anticipation of next Data Stage Transaction
  { s with ep1In := { s.ep1In with STAT := { s.ep1In.STAT with UOWN := true } } }

/-- The union `Report`: five bytes `b[0..4]`, viewed also as the 24-bit
integers `v0` (bytes 0..2) and `v1` (bytes 2..4). -/
structure Report where
  b0 : Nat
  b1 : Nat
  b2 : Nat
  b3 : Nat
  b4 : Nat
  deriving DecidableEq, Repr

/-- Read the member `v0`. -/
def Report.v0 (r : Report) : Nat := r.b0 + r.b1 <<< 8 + r.b2 <<< 16

/-- Read the member `v1`. -/
def Report.v1 (r : Report) : Nat := r.b2 + r.b3 <<< 8 + r.b4 <<< 16

/-- Assign the member `v0` (a `__uint24`). -/
def Report.setV0 (r : Report) (v : Nat) : Report :=
  { r with b0 := v % 256, b1 := v >>> 8 % 256, b2 := v >>> 16 % 256 }

/-- Assign the member `v1` (a `__uint24`). -/
def Report.setV1 (r : Report) (v : Nat) : Report :=
  { r with b2 := v % 256, b3 := v >>> 8 % 256, b4 := v >>> 16 % 256 }

/-- The report that `SendValues(value0, value1)` constructs; `r` is the
uninitialized local it starts from. -/
def SendValues.report (r : Report) (value0 value1 : Nat) : Report :=
  let value0 := value0 % 2 ^ 24
  let value1 := value1 % 2 ^ 24
  -- construct a report from the two 20-bit values
  let r := r.setV0 value0
  let r := r.setV1 (value1 <<< 4 % 2 ^ 24)
  { r with b2 := (value0 >>> 16 ||| (value1 &&& 0x0F) <<< 4) % 256 }

/-- `SendValues(value0, value1)`. -/
def SendValues (value0 value1 : Nat) (s : State) : State :=
  let r := SendValues.report ⟨0, 0, 0, 0, 0⟩ value0 value1
  let s := s.assign Object.ep1InBuffer [r.b0, r.b1, r.b2, r.b3, r.b4]
  -- send report on next IN transaction
  ArmEndpoint1IN s

/-! ## `Display.c` -/

/-- `kRegisterDecodeMode`. -/
def kRegisterDecodeMode : Nat := 0x01
/-- `kRegisterGlobalIntensity`. -/
def kRegisterGlobalIntensity : Nat := 0x02
/-- `kRegisterScanLimit`. -/
def kRegisterScanLimit : Nat := 0x03
/-- `kRegisterConfiguration`. -/
def kRegisterConfiguration : Nat := 0x04
/-- `kRegisterPortConfiguration`. -/
def kRegisterPortConfiguration : Nat := 0x06
/-- `kRegisterKeyAMaskDebounce`. -/
def kRegisterKeyAMaskDebounce : Nat := 0x08
/-- `kRegisterDigitTypeKeyAPressed`. -/
def kRegisterDigitTypeKeyAPressed : Nat := 0x0c
/-- `kRegisterDigit0Plane0`. -/
def kRegisterDigit0Plane0 : Nat := 0x20
/-- `kRegisterDigit0APlane0`. -/
def kRegisterDigit0APlane0 : Nat := 0x28

/-- Initializer of the static `buffer` of `DisplayInitialize`. -/
def DisplayInitialize.buffer : List Nat :=
  [kRegisterScanLimit, 5,
   kRegisterGlobalIntensity, 0,
   kRegisterDigitTypeKeyAPressed, 0x00,
   kRegisterDecodeMode, 0xFF,
   kRegisterConfiguration, 0x01,
   kRegisterPortConfiguration, 0x20,
   kRegisterKeyAMaskDebounce + 0, 1 <<< 0,
   0x80 ||| (kRegisterKeyAMaskDebounce + 0), 0]

/-- Initializer of the static `buffer` of `DisplayTerminate`. -/
def DisplayTerminate.buffer : List Nat :=
  [kRegisterConfiguration, 0x00,
   kRegisterKeyAMaskDebounce + 0, 0]

/-- `DisplayInitialize()`. -/
def DisplayInitialize (s : State) : State :=
  -- transfer MAX 6954 configuration
  let s := SPIStartExchange ⟨Object.DisplayInitialize_buffer, 0⟩ 16 none s
  -- interrupt on falling edge (MAX6954 IRQ output is active low)
  let s := { s with INTEDG2 := false }
  -- clear condition flag
  let s := { s with INT2IF := false }
  -- configure port B2 as digital input INT2
  let s := { s with ANSB2 := false }
  let s := { s with TRISB2 := true }
  let s := { s with WPUB2 := true }
  -- enable INT2 external interrupt
  { s with INT2IE := true }

/-- `DisplayTerminate()`. -/
def DisplayTerminate (s : State) : State :=
  -- disable INT2 external interrupt
  let s := { s with INT2IE := false }
  -- clear condition flag (just in case)
  let s := { s with INT2IF := false }
  -- transfer MAX 6954 configuration
  SPIStartExchange ⟨Object.DisplayTerminate_buffer, 0⟩ 4 none s

/-- The 24 values that `DisplayValues(v0, v1)` assigns to the elements of its
static `buffer`. -/
def DisplayValues.buffer (v0 v1 : Nat) : List Nat :=
  let v0 := v0 % 2 ^ 24
  let v1 := v1 % 2 ^ 24
  let b0 := kRegisterDigit0Plane0 + 5
  let b1 := v0 % 10
  let v0 := v0 / 10
  let b2 := kRegisterDigit0Plane0 + 4
  let b3 := v0 % 10
  let v0 := v0 / 10
  let b4 := kRegisterDigit0Plane0 + 3
  let b5 := v0 % 10
  let v0 := v0 / 10
  let b6 := kRegisterDigit0Plane0 + 2
  let b7 := v0 % 10 ||| 0x80
  let v0 := v0 / 10
  let b8 := kRegisterDigit0Plane0 + 1
  let b9 := v0 % 10
  let v0 := v0 / 10
  let b10 := kRegisterDigit0Plane0 + 0
  let b11 := v0 % 10
  let b12 := kRegisterDigit0APlane0 + 5
  let b13 := v1 % 10
  let v1 := v1 / 10
  let b14 := kRegisterDigit0APlane0 + 4
  let b15 := v1 % 10
  let v1 := v1 / 10
  let b16 := kRegisterDigit0APlane0 + 3
  let b17 := v1 % 10
  let v1 := v1 / 10
  let b18 := kRegisterDigit0APlane0 + 2
  let b19 := v1 % 10 ||| 0x80
  let v1 := v1 / 10
  let b20 := kRegisterDigit0APlane0 + 1
  let b21 := v1 % 10
  let v1 := v1 / 10
  let b22 := kRegisterDigit0APlane0 + 0
  let b23 := v1 % 10
  [b0, b1, b2, b3, b4, b5, b6, b7, b8, b9, b10, b11,
   b12, b13, b14, b15, b16, b17, b18, b19, b20, b21, b22, b23]

/-- `DisplayValues(v0, v1)`. -/
def DisplayValues (v0 v1 : Nat) (s : State) : State :=
  let s := { s with gValue0 := v0 % 2 ^ 24 }
  let s := { s with gValue1 := v1 % 2 ^ 24 }
  let s := s.assign Object.DisplayValues_buffer (DisplayValues.buffer v0 v1)
  -- send SPI commands to MAX 6954 to display
  SPIStartExchange ⟨Object.DisplayValues_buffer, 0⟩ 24 none s

/-- `ReadDebouncedKeyA()`. -/
def ReadDebouncedKeyA (s : State) : State :=
  -- swap the two displayed values
  let s := DisplayValues s.gValue1 s.gValue0 s
  -- send back to host
  SendValues s.gValue0 s.gValue1 s

/-- `ControlsServiceInterrupt()`. -/
def ControlsServiceInterrupt (s : State) : State :=
  -- read Key A debounced
  let s := s.assign Object.gReadKeyADebounced [0x80 ||| (kRegisterKeyAMaskDebounce + 0), 0]
  -- transfer MAX 6954 read commands
  SPIStartExchange ⟨Object.gReadKeyADebounced, 0⟩ 2 (some FnPtr.ReadDebouncedKeyA) s

/-- The code behind each function address. -/
def call : FnPtr → State → State
  | FnPtr.ReadDebouncedKeyA => ReadDebouncedKeyA
  | FnPtr.external _ => id

/-! ## `USBEndpoint1.c`, part 2 -/

/-- `EnableEndpoint1()`. -/
def EnableEndpoint1 (s : State) : State :=
  let s := { s with ep1Out := { s.ep1Out with STAT := BDSTAT.zero } }
  let s := { s with ep1In := { s.ep1In with STAT := BDSTAT.zero } }
  -- be prepared for host to send report
  let s := ArmEndpoint1OUT s
  let s := { s with UEP1 := { s.UEP1 with EPHSHK := true } }
  let s := { s with UEP1 := { s.UEP1 with EPCONDIS := true } }
  let s := { s with UEP1 := { s.UEP1 with EPOUTEN := true } }
  let s := { s with UEP1 := { s.UEP1 with EPINEN := true } }
  -- enable display driver and key scanner
  DisplayInitialize s

/-- `DisableEndpoint1()`. -/
def DisableEndpoint1 (s : State) : State :=
  -- disable display
  let s := DisplayTerminate s
  -- disarm Endpoint 1 OUT
  let s := { s with ep1Out := { s.ep1Out with STAT := { s.ep1Out.STAT with UOWN := false } } }
  -- disarm Endpoint 1 IN
  let s := { s with ep1In := { s.ep1In with STAT := { s.ep1In.STAT with UOWN := false } } }
  -- disable Endpoint 1 transactions
  { s with UEP1 := UEP.zero }

/-- The two values that `HandleEndpoint1OUT` extracts from a report. -/
def HandleEndpoint1OUT.values (r : Report) : Nat × Nat :=
  -- extract the 20-bit values
  let v0 := r.v0 &&& 0x0FFFFF
  let v1 := r.v1 >>> 4
  (v0, v1)

/-- `HandleEndpoint1OUT()`. -/
def HandleEndpoint1OUT (s : State) : State :=
  -- copy the HID report
  let r : Report :=
    ⟨s.load ⟨Object.ep1OutBuffer, 0⟩, s.load ⟨Object.ep1OutBuffer, 1⟩,
     s.load ⟨Object.ep1OutBuffer, 2⟩, s.load ⟨Object.ep1OutBuffer, 3⟩,
     s.load ⟨Object.ep1OutBuffer, 4⟩⟩
  let v := HandleEndpoint1OUT.values r
  -- display the values
  let s := DisplayValues v.1 v.2 s
  -- wait for new OUT transfers
  ArmEndpoint1OUT s

/-- `HandleEndpoint1IN()`. -/
def HandleEndpoint1IN (s : State) : State :=
  -- prepare the data toggle for a next IN transaction
  { s with gToggleIN := if s.gToggleIN = 0 then 1 else 0 }

/-- `HandleUSBTransactionEndpoint1()`. -/
def HandleUSBTransactionEndpoint1 (s : State) : State :=
  if s.USTAT_DIR = false then HandleEndpoint1OUT s else HandleEndpoint1IN s

/-! ## `USBEndpoint0.c` -/

/-- `kEndpoint0MaximumPacketLength`. -/
def kEndpoint0MaximumPacketLength : Nat := 32

/-- `kConfigurationRadioPanel`. -/
def kConfigurationRadioPanel : Nat := 1

/-- `sizeof ep0OutBuffer` and `sizeof ep0InBuffer` (`USB.h`). -/
def sizeofEp0Buffer : Nat := 32

/-- Setup transaction data (`USBSetup` of `USB.h`). -/
structure USBSetup where
  bmRequestType : Nat
  bRequest : Nat
  wValue : Nat
  wIndex : Nat
  wLength : Nat
  deriving DecidableEq, Repr

/-- Member `valueLow`, also `setConfiguration.index` and `getDescriptor.index`. -/
def USBSetup.valueLow (setup : USBSetup) : Nat := setup.wValue % 256

/-- Member `valueHigh`, also `getDescriptor.type`. -/
def USBSetup.valueHigh (setup : USBSetup) : Nat := setup.wValue / 256 % 256

/-- The structure that `(USBSetup*) ep0OutBuffer` points at. -/
def State.setup (s : State) : USBSetup :=
  let b := fun i => s.load ⟨Object.ep0OutBuffer, i⟩
  { bmRequestType := b 0
    bRequest := b 1
    wValue := b 2 + 256 * b 3
    wIndex := b 4 + 256 * b 5
    wLength := b 6 + 256 * b 7 }

/-- `EnableEndpoint0()`. -/
def EnableEndpoint0 (s : State) : State :=
  -- arm Endpoint 0 OUT in anticipation of the Setup Transaction
  let s := { s with ep0Out := { s.ep0Out with ADR := ⟨Object.ep0OutBuffer, 0⟩ } }
  let s := { s with ep0Out := { s.ep0Out with CNT := sizeofEp0Buffer } }
  let s := { s with ep0Out := { s.ep0Out with STAT := BDSTAT.zero } }
  let s := { s with ep0Out := { s.ep0Out with STAT := { s.ep0Out.STAT with DTSEN := true } } }
  let s := { s with ep0Out := { s.ep0Out with STAT := { s.ep0Out.STAT with UOWN := true } } }
  -- disarm Endpoint 0 IN
  let s := { s with ep0In := { s.ep0In with STAT := BDSTAT.zero } }
  let s := { s with UEP0 := { s.UEP0 with EPHSHK := true } }
  let s := { s with UEP0 := { s.UEP0 with EPCONDIS := false } }
  let s := { s with UEP0 := { s.UEP0 with EPOUTEN := true } }
  { s with UEP0 := { s.UEP0 with EPINEN := true } }

/-- `DisableEndpoint0()`. -/
def DisableEndpoint0 (s : State) : State :=
  let s := { s with UEP0 := UEP.zero }
  -- disarm Endpoint 0 OUT
  let s := { s with ep0Out := { s.ep0Out with STAT := { s.ep0Out.STAT with UOWN := false } } }
  -- disarm Endpoint 0 IN
  { s with ep0In := { s.ep0In with STAT := { s.ep0In.STAT with UOWN := false } } }

/-- `ArmEndpoint0INStatus()`. -/
def ArmEndpoint0INStatus (s : State) : State :=
  -- debugging: expect that we own this now
  let s := if s.ep0In.STAT.UOWN then Error s else s
  -- sending ZLP results in ACK
  let s := { s with ep0In := { s.ep0In with STAT := BDSTAT.zero } }
  let s := { s with ep0In := { s.ep0In with ADR := ⟨Object.ep0InBuffer, 0⟩ } }
  let s := { s with ep0In := { s.ep0In with CNT := 0 } }
  let s := { s with ep0In := { s.ep0In with STAT := { s.ep0In.STAT with DTS := true } } }
  let s := { s with ep0In := { s.ep0In with STAT := { s.ep0In.STAT with DTSEN := true } } }
  { s with ep0In := { s.ep0In with STAT := { s.ep0In.STAT with UOWN := true } } }

/-- `ArmEndpoint0OUT()`. -/
def ArmEndpoint0OUT (s : State) : State :=
  let s := if s.ep0Out.STAT.UOWN then Error s else s
  let s := { s with ep0Out := { s.ep0Out with ADR := ⟨Object.ep0OutBuffer, 0⟩ } }
  let s := { s with ep0Out := { s.ep0Out with CNT := sizeofEp0Buffer } }
  let s := { s with ep0Out := { s.ep0Out with STAT := BDSTAT.zero } }
  let s :=
    if (s.gEndpoint0OUTData ≠ NULL ∧ s.gEndpoint0OUTDataL > 0 ∧ s.gEndpoint0OUTToggle = true) ∨
        (s.gEndpoint0INData ≠ NULL ∧ s.gEndpoint0INDataL = 0) then
      -- either 0 or 1 expected next
      { s with ep0Out := { s.ep0Out with STAT := { s.ep0Out.STAT with DTSEN := false } } }
    else
      -- only SETUP0 expected next
      let s := { s with ep0Out := { s.ep0Out with STAT := { s.ep0Out.STAT with DTS := false } } }
      { s with ep0Out := { s.ep0Out with STAT := { s.ep0Out.STAT with DTSEN := true } } }
  { s with ep0Out := { s.ep0Out with STAT := { s.ep0Out.STAT with UOWN := true } } }

/-- The copy loop of `ArmEndpoint0IN`:
`for (i = n; i > 0; i--) *to++ = *gEndpoint0INData++;`, with `dest` for `to`. -/
def ArmEndpoint0IN.copy : Nat → Ptr → State → State
  | 0, _, s => s
  | i + 1, dest, s =>
    let s := s.store dest (s.load s.gEndpoint0INData)
    let s := { s with gEndpoint0INData := s.gEndpoint0INData.add 1 }
    ArmEndpoint0IN.copy i (dest.add 1) s

/-- `ArmEndpoint0IN()`. -/
def ArmEndpoint0IN (s : State) : State :=
  let s := if s.ep0In.STAT.UOWN then Error s else s
  -- how much data to send in the next IN transaction
  let s := { s with ep0In := { s.ep0In with CNT :=
    if s.gEndpoint0INDataL > sizeofEp0Buffer then sizeofEp0Buffer else s.gEndpoint0INDataL } }
  -- copy data into USB memory
  let s := ArmEndpoint0IN.copy s.ep0In.CNT ⟨Object.ep0InBuffer, 0⟩ s
  let s := { s with gEndpoint0INDataL := (s.gEndpoint0INDataL + 256 - s.ep0In.CNT) % 256 }
  -- will send short or zero-length packet?
  let s := if s.ep0In.CNT < sizeofEp0Buffer then { s with gEndpoint0INData := NULL } else s
  -- what data to send
  let s := { s with ep0In := { s.ep0In with ADR := ⟨Object.ep0InBuffer, 0⟩ } }
  let s := { s with ep0In := { s.ep0In with STAT := BDSTAT.zero } }
  -- data toggle
  let s := { s with ep0In := { s.ep0In with STAT := { s.ep0In.STAT with DTS := s.gEndpoint0INToggle } } }
  let s := { s with ep0In := { s.ep0In with STAT := { s.ep0In.STAT with DTSEN := true } } }
  let s := { s with gEndpoint0INToggle := !s.gEndpoint0INToggle }
  -- 'arm' Endpoint 0 IN in anticipation of next Data Stage Transaction
  { s with ep0In := { s.ep0In with STAT := { s.ep0In.STAT with UOWN := true } } }

/-- `ArmEndpoint0INStall()`. -/
def ArmEndpoint0INStall (s : State) : State :=
  -- debugging: expect that we own this now
  let s := if s.ep0In.STAT.UOWN then Error s else s
  -- set endpoint to stall the next Transaction
  let s := { s with ep0In := { s.ep0In with STAT := BDSTAT.zero } }
  let s := { s with ep0In := { s.ep0In with STAT := { s.ep0In.STAT with BSTALL := true } } }
  { s with ep0In := { s.ep0In with STAT := { s.ep0In.STAT with UOWN := true } } }

/-- `HandleGetStringDescriptor(index)`. -/
def HandleGetStringDescriptor (index : Nat) (s : State) : State :=
  match index with
  | 0 =>
    { s with gEndpoint0INData := ⟨Object.gStringDescriptor0, 0⟩,
             gEndpoint0INDataL := gStringDescriptor0.length }
  | 1 =>
    { s with gEndpoint0INData := ⟨Object.gStringDescriptorManufacturer, 0⟩,
             gEndpoint0INDataL := gStringDescriptorManufacturer.length }
  | 2 =>
    { s with gEndpoint0INData := ⟨Object.gStringDescriptorProduct, 0⟩,
             gEndpoint0INDataL := gStringDescriptorProduct.length }
  | _ => Error s

/-- `HandleGetDescriptor(setup)`. -/
def HandleGetDescriptor (setup : USBSetup) (s : State) : State :=
  let s :=
    match setup.valueHigh with
    -- device descriptor?
    | 1 =>
      { s with gEndpoint0INData := ⟨Object.gDeviceDescriptor, 0⟩,
               gEndpoint0INDataL := gDeviceDescriptor.length }
    -- configuration descriptor?
    | 2 =>
      { s with gEndpoint0INData := ⟨Object.gConfigurationDescriptor, 0⟩,
               gEndpoint0INDataL := gConfigurationDescriptor.length }
    -- string descriptor?
    | 3 => HandleGetStringDescriptor setup.valueLow s
    -- device qualifier?
    | 6 => ArmEndpoint0INStall s
    -- HID class Report Descriptor
    | 0x22 =>
      { s with gEndpoint0INData := ⟨Object.gReportDescriptor, 0⟩,
               gEndpoint0INDataL := gReportDescriptor.length }
    | _ => Error s
  -- sending data to host?
  if s.gEndpoint0INData ≠ NULL then
    -- don't send more than requested length
    if s.gEndpoint0INDataL > setup.wLength then
      { s with gEndpoint0INDataL := setup.wLength % 256 }
    else s
  else s

/-- `HandleSetAddress(setup)`. -/
def HandleSetAddress (setup : USBSetup) (s : State) : State :=
  if setup.wValue ≥ 128 ∨ setup.wIndex ≠ 0 ∨ setup.wLength ≠ 0 then Error s
  else
    -- must not assign address until Status Stage is completed
    { s with gPendingAddress := setup.wValue % 256 }

/-- `HandleSetConfiguration(setup)`. -/
def HandleSetConfiguration (setup : USBSetup) (s : State) : State :=
  -- which configuration to apply?
  match setup.valueLow with
  | 0 =>
    -- disable data endpoints
    let s := DisableEndpoint1 s
    Error s
  -- kConfigurationRadioPanel
  | 1 =>
    -- enable the HID data endpoint
    EnableEndpoint1 s
  | _ => Error s

/-- `HandleEndpoint0ToDeviceStandardDevice(setup)`. -/
def HandleEndpoint0ToDeviceStandardDevice (setup : USBSetup) (s : State) : State :=
  let s :=
    match setup.bRequest with
    -- kSetAddress
    | 5 => HandleSetAddress setup s
    -- kSetConfiguration
    | 9 => HandleSetConfiguration setup s
    | _ => Error s
  -- 'arm' Endpoint 0 IN in anticipation of Status Stage Transaction
  ArmEndpoint0INStatus s

/-- `ClearFeatureEndpoint(setup)`. -/
def ClearFeatureEndpoint (setup : USBSetup) (s : State) : State :=
  match setup.wValue with
  -- kFeatureEndpointHalt
  | 0 => s
  | _ => Error s

/-- `HandleEndpoint0ToDeviceStandardEndpoint(setup)`. -/
def HandleEndpoint0ToDeviceStandardEndpoint (setup : USBSetup) (s : State) : State :=
  match setup.bRequest with
  -- kClearFeature
  | 1 => ClearFeatureEndpoint setup s
  | _ => Error s

/-- `HandleHIDGetReport(setup)`. -/
def HandleHIDGetReport (_setup : USBSetup) (s : State) : State := Error s

/-- `HandleHIDSetReport(setup)`. -/
def HandleHIDSetReport (setup : USBSetup) (s : State) : State :=
  -- on report type
  match setup.valueHigh with
  | 2 =>
    -- prepare to receive the output Report
    { s with gEndpoint0OUTData := ⟨Object.ep0OutBuffer, 0⟩,
             gEndpoint0OUTDataL := sizeofEp0Buffer }
  | _ => Error s

/-- `HandleHIDSetIdle(setup)`. -/
def HandleHIDSetIdle (_setup : USBSetup) (s : State) : State := s

/-- `HandleEndpoint0ToHostClassInterface(setup)`. -/
def HandleEndpoint0ToHostClassInterface (setup : USBSetup) (s : State) : State :=
  let s :=
    match setup.bRequest with
    -- kGetReport
    | 1 => HandleHIDGetReport setup s
    | _ => Error s
  -- 'arm' Endpoint 0 IN in anticipation of Status Stage Transaction
  ArmEndpoint0INStatus s

/-- `HandleEndpoint0ToDeviceClassInterface(setup)`. -/
def HandleEndpoint0ToDeviceClassInterface (setup : USBSetup) (s : State) : State :=
  let s :=
    match setup.bRequest with
    -- kSetReport
    | 9 => HandleHIDSetReport setup s
    -- kSetIdle
    | 10 => HandleHIDSetIdle setup s
    | _ => Error s
  -- 'arm' Endpoint 0 IN in anticipation of eventual Status Stage Transaction
  let s := ArmEndpoint0INStatus s
  -- expect to receive data on Control Write Transfer?
  if s.gEndpoint0OUTData ≠ NULL then
    -- DATA1 expected first
    { s with gEndpoint0OUTToggle := true }
  else s

/-- `HandleEndpoint0ToHostStandardDevice(setup)`. -/
def HandleEndpoint0ToHostStandardDevice (setup : USBSetup) (s : State) : State :=
  let s :=
    match setup.bRequest with
    -- kGetDescriptor
    | 6 => HandleGetDescriptor setup s
    | _ => Error s
  -- need to send data on Control Read Transfer?
  if s.gEndpoint0INData ≠ NULL then
    -- Data 1 packet expected first
    let s := { s with gEndpoint0INToggle := true }
    ArmEndpoint0IN s
  else s

/-- `HandleEndpoint0ToHostStandardInterface(setup)`. -/
def HandleEndpoint0ToHostStandardInterface (setup : USBSetup) (s : State) : State :=
  let s :=
    match setup.bRequest with
    -- kGetDescriptor
    | 6 => HandleGetDescriptor setup s
    | _ => Error s
  -- need to send data on Control Read Transfer?
  if s.gEndpoint0INData ≠ NULL then ArmEndpoint0IN s else s

/-- `HandleEndpoint0SETUP()`.  The packet `setup` points at is read once: no
statement of the handlers writes to `ep0OutBuffer`. -/
def HandleEndpoint0SETUP (s : State) : State :=
  let setup := s.setup
  -- cancel any previously in progress Control Read or Write Transfers
  let s := { s with ep0In := { s.ep0In with STAT := { s.ep0In.STAT with UOWN := false } } }
  let s := { s with gEndpoint0INData := NULL }
  let s := { s with gEndpoint0OUTData := NULL }
  let s :=
    match setup.bmRequestType with
    -- host-to-device, Standard, Device?
    | 0x00 => HandleEndpoint0ToDeviceStandardDevice setup s
    | 0x02 => HandleEndpoint0ToDeviceStandardEndpoint setup s
    -- host-to-device, Class, Interface?
    | 0x21 => HandleEndpoint0ToDeviceClassInterface setup s
    -- device-to-host, Standard, Device?
    | 0x80 => HandleEndpoint0ToHostStandardDevice setup s
    | 0x81 => HandleEndpoint0ToHostStandardInterface setup s
    -- device-to-host, Class, Interface?
    | 0xA1 => HandleEndpoint0ToHostClassInterface setup s
    | _ => Error s
  -- resume processing packets again after SETUP
  { s with PKTDIS := false }

/-- `HandleEndpoint0OUT()`. -/
def HandleEndpoint0OUT (s : State) : State :=
  -- Control Write Transfer? (Data Stage)
  if s.gEndpoint0OUTData ≠ NULL then
    let s :=
      if s.ep0Out.CNT = kEndpoint0MaximumPacketLength then
        { s with gEndpoint0OUTToggle := !s.gEndpoint0OUTToggle }
      else s
    let s := { s with gEndpoint0INData := s.gEndpoint0INData.add s.ep0Out.CNT }
    { s with gEndpoint0OUTDataL := (s.gEndpoint0OUTDataL + 256 - s.ep0Out.CNT % 256) % 256 }
  else
    -- no more data expected
    let s := { s with gEndpoint0OUTData := NULL }
    -- arm Endpoint 0 IN for Status Stage
    ArmEndpoint0INStatus s

/-- `HandleEndpoint0IN()`. -/
def HandleEndpoint0IN (s : State) : State :=
  -- Handshake of Control Write SetAddress?
  let s :=
    if s.gPendingAddress ≠ 0 then
      -- apply USB address to peripheral
      let s := { s with UADDR := s.gPendingAddress }
      -- no longer any SetAddress pending
      { s with gPendingAddress := 0 }
    else s
  -- Status Stage of Control Write Transfer?
  if s.gEndpoint0OUTData ≠ NULL then s
  -- must have been in response to a Control Read Transfer
  else
    -- need to send more data?
    if s.gEndpoint0INData ≠ NULL then
      -- arm Endpoint 0 IN to send more data
      ArmEndpoint0IN s
    else s

/-- `HandleUSBTransactionEndpoint0()`. -/
def HandleUSBTransactionEndpoint0 (s : State) : State :=
  -- Endpoint in stalled condition?
  let s := if s.UEP0.EPSTALL then { s with UEP0 := { s.UEP0 with EPSTALL := false } } else s
  let s :=
    if s.USTAT_DIR = false then
      match s.ep0Out.STAT.PID with
      -- OUT? (e.g., Handshake Transaction/Status Phase)
      | 0b0001 => HandleEndpoint0OUT s
      -- SETUP? (first Transaction of Control Transfer)
      | 0b1101 => HandleEndpoint0SETUP s
      | _ => Error s
    else
      match s.ep0In.STAT.PID with
      -- IN?
      | 0b1001 => HandleEndpoint0IN s
      | _ => Error s
  -- arm Endpoint 0 OUT for the Status Stage of the Control Read, or an early SETUP
  ArmEndpoint0OUT s

/-! ## Environment: the SPI peripheral -/

/-- The SPI peripheral has shifted one byte out and one byte, `r`, in: it
latches `r` in `SSP1BUF`, sets `BF`, and the interrupt dispatcher (`ISR` of
`main.c`) calls `SPIServiceInterrupt`. -/
def spiByteComplete (call : FnPtr → State → State) (s : State) (r : Nat) : State :=
  SPIServiceInterrupt call { s with SSP1BUF := r % 256, BF := true }

/-- A run of byte-complete events, one per received byte. -/
def spiBytesComplete (call : FnPtr → State → State) (s : State) (rs : List Nat) : State :=
  rs.foldl (spiByteComplete call) s

/-- The chip-select and transmit events of the byte-complete interrupts of an
exchange, given the bytes that are still waiting to be sent. -/
def serviceEvents : List Nat → List Event
  | [] => [Event.chipSelect true]
  | x :: rest =>
    (if (rest.length + 1) % 2 = 0 then [Event.chipSelect true, Event.chipSelect false] else [])
      ++ Event.transmit x :: serviceEvents rest


/-- The last act of `SPIServiceInterrupt` when an exchange is complete: if a
callback is stored, clear it and call it. -/
def notifyCaller (call : FnPtr → State → State) (s : State) : State :=
  match s.gSPICallback with
  | some callback =>
    call callback { s with gSPICallback := none, log := s.log ++ [Event.callback callback] }
  | none => s


/-- Number of times chip-select was asserted (driven low) in a log. -/
def chipSelectAsserts (log : List Event) : Nat := log.count (Event.chipSelect false)

/-- Number of callback invocations in a log. -/
def callbackCalls (log : List Event) : Nat :=
  (log.filter fun e => match e with
    | Event.callback _ => true
    | _ => false).length

/-- The bytes written to the transmit register, in order. -/
def transmitted (log : List Event) : List Nat :=
  log.filterMap fun e => match e with
    | Event.transmit b => some b
    | _ => none

/-- The contract of claim C3 for one exchange: the buffer is object `o`, its
length is the number of received bytes `rs`, the callback is `cb`. -/
def ExchangeContract (call : FnPtr → State → State) (s : State) (o : Object) (cb : FnPtr)
    (rs : List Nat) : Prop :=
  let after := fun k =>
    spiBytesComplete call (SPIStartExchange ⟨o, 0⟩ rs.length (some cb) s) (rs.take k)
  (after rs.length).gSPIData = NULL ∧
  chipSelectAsserts (after rs.length).log = chipSelectAsserts s.log + rs.length / 2 ∧
  callbackCalls (after rs.length).log = callbackCalls s.log + 1 ∧
  ∀ k, k < rs.length → callbackCalls (after k).log = callbackCalls s.log

/-- A callback that does not use the SPI engine: it leaves the engine's buffer
pointer as it finds it, does not drive chip-select low and calls no callback. -/
def LeavesEngineAlone (call : FnPtr → State → State) (cb : FnPtr) : Prop :=
  ∀ t, (call cb t).gSPIData = t.gSPIData ∧
    chipSelectAsserts (call cb t).log = chipSelectAsserts t.log ∧
    callbackCalls (call cb t).log = callbackCalls t.log

/-! ## Reading a command buffer as the display chip does -/

/-- The register bytes of a buffer of two-byte (register, data) commands. -/
def registers : List Nat → List Nat
  | r :: _ :: rest => r :: registers rest
  | _ => []

/-- The data byte that a buffer of (register, data) commands writes to `reg`. -/
def writtenTo (reg : Nat) : List Nat → Option Nat
  | r :: d :: rest => if r = reg then some d else writtenTo reg rest
  | _ => none

/-- The number shown on the six digits whose registers start at `base`
(`base + 0` is the most significant digit), reading the low 7 bits of each
data byte as the digit. -/
def shownValue (base : Nat) (cmds : List Nat) : Nat :=
  (List.range 6).foldl (fun acc k => 10 * acc + (writtenTo (base + k) cmds).getD 0 % 128) 0

/-- The registers whose data byte has the decimal-point bit `0x80` set. -/
def decimalPoints : List Nat → List Nat
  | r :: d :: rest => if d.testBit 7 then r :: decimalPoints rest else decimalPoints rest
  | _ => []

/-! ## Reference states -/

/-- All globals zero or as statically initialized, all registers clear. -/
def State.reset : State where
  mem := fun o =>
    match o with
    | Object.DisplayInitialize_buffer => DisplayInitialize.buffer
    | Object.DisplayTerminate_buffer => DisplayTerminate.buffer
    | Object.DisplayValues_buffer => List.replicate 24 0
    | Object.gReadKeyADebounced => List.replicate 2 0
    | Object.ep0OutBuffer => List.replicate 32 0
    | Object.ep0InBuffer => List.replicate 32 0
    | Object.ep1OutBuffer => List.replicate 5 0
    | Object.ep1InBuffer => List.replicate 5 0
    | _ => []
  log := []
  LATD3 := false
  LATA5 := false
  SSP1BUF := 0
  SSP1BUF_out := 0
  BF := false
  gSPICallback := none
  gSPIData := NULL
  gSPIDataL := 0
  gValue0 := 0
  gValue1 := 0
  INTEDG2 := false
  INT2IF := false
  INT2IE := false
  ANSB2 := false
  TRISB2 := false
  WPUB2 := false
  gToggleIN := 0
  ep1Out := ⟨BDSTAT.zero, 0, NULL⟩
  ep1In := ⟨BDSTAT.zero, 0, NULL⟩
  UEP1 := UEP.zero
  ep0Out := ⟨BDSTAT.zero, 0, NULL⟩
  ep0In := ⟨BDSTAT.zero, 0, NULL⟩
  UEP0 := UEP.zero
  gEndpoint0OUTData := NULL
  gEndpoint0OUTDataL := 0
  gEndpoint0OUTToggle := false
  gEndpoint0INData := NULL
  gEndpoint0INDataL := 0
  gEndpoint0INToggle := false
  gPendingAddress := 0
  UADDR := 0
  PKTDIS := false
  USTAT_DIR := false

/-- The state in which `main` enables interrupts: chip-select high
(`SPIInitialize`), indicator on (`LEDInitialize`), address 0 and Endpoint 0
enabled (`USBInitialize`). -/
def State.initial : State :=
  EnableEndpoint0 { State.reset with LATA5 := true, LATD3 := true, UADDR := 0 }

/-! ## Environment: the USB serial interface engine on Endpoint 0 -/

/-- The SIE hands a buffer descriptor back after a transaction: it clears
`UOWN` and writes the token `pid` into bits 2..5 of the status register. -/
def BDSTAT.sieToken (b : BDSTAT) (pid : Nat) : BDSTAT :=
  { b with
    UOWN := false
    BSTALL := pid.testBit 0
    DTSEN := pid.testBit 1
    bit4 := pid.testBit 2
    bit5 := pid.testBit 3 }

/-- The SIE has completed an IN transaction on Endpoint 0. -/
def sieCompleteEp0IN (s : State) : State :=
  { s with ep0In := { s.ep0In with STAT := s.ep0In.STAT.sieToken 0b1001 }, USTAT_DIR := true }

/-- The SIE has received a Setup transaction on Endpoint 0: the packet is in
the first bytes of `ep0OutBuffer`, packet processing is disabled until the
firmware clears `PKTDIS`. -/
def sieCompleteEp0SETUP (packet : List Nat) (s : State) : State :=
  { s with
    mem := Function.update s.mem Object.ep0OutBuffer
      (packet.map (· % 256) ++ (s.mem Object.ep0OutBuffer).drop packet.length)
    ep0Out := { s.ep0Out with STAT := s.ep0Out.STAT.sieToken 0b1101, CNT := packet.length }
    PKTDIS := true
    USTAT_DIR := false }

/-- The state after `n` further IN transactions on Endpoint 0 have completed
and been serviced. -/
def afterInCompletions : Nat → State → State
  | 0, s => s
  | n + 1, s => afterInCompletions n (HandleUSBTransactionEndpoint0 (sieCompleteEp0IN s))

/-- The data packet that Endpoint 0 IN is armed with, if it is armed with one:
`CNT` bytes at `ADR`, when the descriptor is handed to the SIE without stall. -/
def ep0InPacket (s : State) : Option (List Nat) :=
  if s.ep0In.STAT.UOWN = true ∧ s.ep0In.STAT.BSTALL = false then
    some (((s.contents s.ep0In.ADR.obj).drop s.ep0In.ADR.off).take s.ep0In.CNT)
  else none

/-- The host issues one IN token on Endpoint 0.  If a data packet is armed the
SIE sends it, completes the transaction and the firmware services it; if not,
the host gets no data and the firmware sees nothing. -/
def hostIN (s : State) : State × List Nat :=
  match ep0InPacket s with
  | some data => (HandleUSBTransactionEndpoint0 (sieCompleteEp0IN s), data)
  | none => (s, [])

/-- The bytes the host collects with `n` successive IN tokens on Endpoint 0. -/
def controlReadData : Nat → State → List Nat
  | 0, _ => []
  | n + 1, s => (hostIN s).2 ++ controlReadData n (hostIN s).1

/-- The descriptor that a GetDescriptor request with this `wValue` names, among
those the device returns: Device, Configuration, String 0, 1, 2, HID Report. -/
def returnedDescriptor (wValue : Nat) : Option (List Nat) :=
  match wValue / 256 % 256, wValue % 256 with
  | 1, _ => some gDeviceDescriptor
  | 2, _ => some gConfigurationDescriptor
  | 3, 0 => some gStringDescriptor0
  | 3, 1 => some gStringDescriptorManufacturer
  | 3, 2 => some gStringDescriptorProduct
  | 0x22, _ => some gReportDescriptor
  | _, _ => none

/-- Endpoint 0 IN is armed with the next packet of a control read of the
table `D`: `L` bytes from offset `k` are still to be sent, the first
`min 32 L` of them are in the armed packet. -/
def ControlReadArmed (s : State) (D : List Nat) (k L : Nat) : Prop :=
  s.ep0In.STAT.UOWN = true ∧ s.ep0In.STAT.BSTALL = false ∧
  s.ep0In.ADR = ⟨Object.ep0InBuffer, 0⟩ ∧ s.ep0In.CNT = min 32 L ∧
  (s.mem Object.ep0InBuffer).take (min 32 L) = (D.drop k).take (min 32 L) ∧
  (s.mem Object.ep0InBuffer).length = 32 ∧
  s.gEndpoint0OUTData = NULL ∧
  if L < 32 then s.gEndpoint0INData = NULL
  else ∃ o, romData o = some D ∧ s.gEndpoint0INData = ⟨o, k + 32⟩ ∧ s.gEndpoint0INDataL = L - 32

/-! ## Further vocabulary for the SPI and Endpoint 1 claims -/

/-- Number of invocations of the fatal-error signal `Error()` in a log. -/
def errorCount (log : List Event) : Nat := log.count Event.error

/-- The framed event sequence of a buffer of two-byte commands: for each pair,
assert chip-select, transmit the two bytes, deassert chip-select. -/
def framedEvents : List Nat → List Event
  | b0 :: b1 :: rest =>
    [Event.chipSelect false, Event.transmit b0, Event.transmit b1, Event.chipSelect true]
      ++ framedEvents rest
  | _ => []

/-- Replays a log from chip-select level `level` (`true` is deasserted) and
tells whether every transmit happens while chip-select is asserted. -/
def transmitsSelected : Bool → List Event → Bool
  | _, [] => true
  | _, Event.chipSelect l :: rest => transmitsSelected l rest
  | level, Event.transmit _ :: rest => !level && transmitsSelected level rest
  | level, _ :: rest => transmitsSelected level rest

/-- Claim C13 for one call, as stated: when the engine is idle and the call
fails because the length is 0 or stale received data is present, chip-select
is not asserted, nothing is written to the transmit register and no
transaction becomes active. -/
def FailingStartStartsNothing (s : State) (data : Ptr) (dataL : Nat) (cb : Option FnPtr) :
    Prop :=
  s.gSPIData = NULL → (dataL = 0 ∨ s.BF = true) →
    chipSelectAsserts (SPIStartExchange data dataL cb s).log = chipSelectAsserts s.log ∧
    transmitted (SPIStartExchange data dataL cb s).log = transmitted s.log ∧
    (SPIStartExchange data dataL cb s).gSPIData = NULL

/-- The 40-bit number whose little-endian bytes are the Endpoint 1 OUT buffer. -/
def State.outReport (s : State) : Nat :=
  s.load ⟨Object.ep1OutBuffer, 0⟩ + 2 ^ 8 * s.load ⟨Object.ep1OutBuffer, 1⟩ +
    2 ^ 16 * s.load ⟨Object.ep1OutBuffer, 2⟩ + 2 ^ 24 * s.load ⟨Object.ep1OutBuffer, 3⟩ +
    2 ^ 32 * s.load ⟨Object.ep1OutBuffer, 4⟩

/-- Claim C16 for one call, as stated: the stored values are the low and high
20 bits of the report, the display exchange for them is started (chip-select
asserted once, first command byte transmitted, the display buffer active with
24 bytes to go), and Endpoint 1 OUT is re-armed. -/
def ReportHandled (s : State) : Prop :=
  (HandleEndpoint1OUT s).gValue0 = s.outReport % 2 ^ 20 ∧
  (HandleEndpoint1OUT s).gValue1 = s.outReport / 2 ^ 20 ∧
  (HandleEndpoint1OUT s).mem Object.DisplayValues_buffer =
    (DisplayValues.buffer (s.outReport % 2 ^ 20) (s.outReport / 2 ^ 20)).map (· % 256) ∧
  chipSelectAsserts (HandleEndpoint1OUT s).log = chipSelectAsserts s.log + 1 ∧
  transmitted (HandleEndpoint1OUT s).log = transmitted s.log ++ [0x25] ∧
  (HandleEndpoint1OUT s).gSPIData = ⟨Object.DisplayValues_buffer, 0⟩ ∧
  (HandleEndpoint1OUT s).gSPIDataL = 24 ∧
  (HandleEndpoint1OUT s).ep1Out.STAT.UOWN = true ∧
  (HandleEndpoint1OUT s).ep1Out.CNT = 5 ∧
  (HandleEndpoint1OUT s).ep1Out.ADR = ⟨Object.ep1OutBuffer, 0⟩

/-- A control read of the table `D` is unfinished: either Endpoint 0 IN is
still armed with a packet of `D`, or `L > 0` bytes of `D` from offset `k` are
still to be copied into a packet. -/
def ControlReadUnfinished (s : State) (D : List Nat) (k L : Nat) : Prop :=
  ControlReadArmed s D k L ∨
    ((s.mem Object.ep0InBuffer).length = 32 ∧
      ∃ o, romData o = some D ∧ s.gEndpoint0INData = ⟨o, k⟩ ∧ s.gEndpoint0INDataL = L ∧ 0 < L)

/-- Endpoint 0 IN is handed to the hardware to stall the next transaction. -/
def Ep0InStalled (s : State) : Prop :=
  s.ep0In.STAT.UOWN = true ∧ s.ep0In.STAT.BSTALL = true

instance Ep0InStalled.decidable (s : State) : Decidable (Ep0InStalled s) :=
  inferInstanceAs (Decidable (_ ∧ _))


/-! ## Further vocabulary for the control-transfer claims -/

/-- The SIE has received an OUT data packet on Endpoint 0: the bytes are in
the first bytes of `ep0OutBuffer`, the descriptor is handed back with the
token OUT and the byte count received. -/
def sieCompleteEp0OUT (data : List Nat) (s : State) : State :=
  { s with
    mem := Function.update s.mem Object.ep0OutBuffer
      (data.map (· % 256) ++ (s.mem Object.ep0OutBuffer).drop data.length)
    ep0Out := { s.ep0Out with STAT := s.ep0Out.STAT.sieToken 0b0001, CNT := data.length }
    USTAT_DIR := false }

/-- The control transfer is in the data stage of a control write: the write
cursor is set and bytes are still expected. -/
def InWriteDataStage (s : State) : Prop :=
  s.gEndpoint0OUTData ≠ NULL ∧ 0 < s.gEndpoint0OUTDataL

instance InWriteDataStage.decidable (s : State) : Decidable (InWriteDataStage s) :=
  inferInstanceAs (Decidable (_ ∧ _))

/-- The control transfer has a single direction: the read cursor and the
write cursor are not both set. -/
def SingleDirection (s : State) : Prop :=
  ¬ (s.gEndpoint0INData ≠ NULL ∧ s.gEndpoint0OUTData ≠ NULL)

instance SingleDirection.decidable (s : State) : Decidable (SingleDirection s) :=
  inferInstanceAs (Decidable (¬ _))

/-- A SetAddress request is malformed. -/
def MalformedSetAddress (setup : USBSetup) : Prop :=
  setup.wValue ≥ 128 ∨ setup.wIndex ≠ 0 ∨ setup.wLength ≠ 0

instance MalformedSetAddress.decidable (setup : USBSetup) :
    Decidable (MalformedSetAddress setup) :=
  inferInstanceAs (Decidable (_ ∨ _))

/-- Claim C23 for one call, as stated: with the SPI engine idle,
`HandleSetConfiguration(setup)` invokes the fatal-error signal if and only if
the configuration value is neither 0 nor 1. -/
def SetConfigurationErrorAsClaimed (setup : USBSetup) (s : State) : Prop :=
  s.gSPIData = NULL →
    (errorCount s.log < errorCount (HandleSetConfiguration setup s).log ↔
      setup.valueLow ≠ 0 ∧ setup.valueLow ≠ 1)

/-! ## Environment: Endpoint 1 OUT, and reference scenarios -/

/-- The SIE has received an OUT report on Endpoint 1: the bytes are in
`ep1OutBuffer`, the descriptor is handed back with the token OUT. -/
def sieCompleteEp1OUT (data : List Nat) (s : State) : State :=
  { s with
    mem := Function.update s.mem Object.ep1OutBuffer
      (data.map (· % 256) ++ (s.mem Object.ep1OutBuffer).drop data.length)
    ep1Out := { s.ep1Out with STAT := s.ep1Out.STAT.sieToken 0b0001, CNT := data.length }
    USTAT_DIR := false }

/-- The configured device: from the initial state, the Setup of
SetConfiguration(1) has been serviced and the 16 bytes of the display
configuration exchange have completed (the chip returning zeros). -/
def State.configured : State :=
  spiBytesComplete call
    (HandleUSBTransactionEndpoint0
      (sieCompleteEp0SETUP [0x00, 9, 1, 0, 0, 0, 0, 0] State.initial))
    (List.replicate 16 0)

/-- The configured device showing (123, 456): the OUT report
`[123, 0, 128, 28, 0]` has been serviced and its 24-byte display exchange has
completed. -/
def State.showing : State :=
  spiBytesComplete call
    (HandleUSBTransactionEndpoint1 (sieCompleteEp1OUT [123, 0, 128, 28, 0] State.configured))
    (List.replicate 24 0)

/-- A key press serviced to the end: the key-scan interrupt, the two bytes of
the debounce read, the callback, and the 24 bytes of the display exchange the
callback starts (the chip returning zeros); the host issues no IN token on
Endpoint 1 meanwhile. -/
def keyPress (s : State) : State :=
  spiBytesComplete call (ControlsServiceInterrupt s) (List.replicate 26 0)

/-! ## Further vocabulary: descriptor walk, Endpoint 1 IN, event runs -/

/-- Walks a descriptor bundle by the `bLength` byte that starts each
sub-descriptor; `none` when a length is zero or overruns the bundle. -/
def walkDescriptors : Nat → List Nat → Option (List (List Nat))
  | _, [] => some []
  | 0, _ :: _ => none
  | fuel + 1, len :: rest =>
    if len = 0 ∨ (len :: rest).length < len then none
    else (walkDescriptors fuel ((len :: rest).drop len)).map
      (fun ds => (len :: rest).take len :: ds)

/-- The 16-bit little-endian field at offset `i` of a descriptor. -/
def field16 (d : List Nat) (i : Nat) : Nat := d.getD i 0 + 256 * d.getD (i + 1) 0

/-- The SIE has completed an IN transaction on Endpoint 1. -/
def sieCompleteEp1IN (s : State) : State :=
  { s with ep1In := { s.ep1In with STAT := s.ep1In.STAT.sieToken 0b1001 }, USTAT_DIR := true }

/-- The events that reach the display state: an Endpoint 1 OUT report with
arbitrary bytes, the completion of an Endpoint 1 IN report, the key-scan
interrupt, and an SPI byte-complete interrupt with an arbitrary received
byte (the last one of a debounce read runs the swap callback). -/
inductive DisplayEvent where
  | outReport (data : List Nat)
  | inComplete
  | keyInterrupt
  | spiByte (r : Nat)
  deriving DecidableEq, Repr

/-- The firmware's reaction to one event. -/
def DisplayEvent.apply (s : State) : DisplayEvent → State
  | DisplayEvent.outReport data => HandleUSBTransactionEndpoint1 (sieCompleteEp1OUT data s)
  | DisplayEvent.inComplete => HandleUSBTransactionEndpoint1 (sieCompleteEp1IN s)
  | DisplayEvent.keyInterrupt => ControlsServiceInterrupt s
  | DisplayEvent.spiByte r => spiByteComplete call s r

/-- The state after a sequence of events. -/
def runEvents (s : State) (es : List DisplayEvent) : State :=
  es.foldl DisplayEvent.apply s

/-! ## Write traces of the arm operations

The arm operations once more, statement by statement as in the source, each
returning next to the state the sequence of its writes to the buffer
descriptors and to the endpoint buffers. -/

/-- The four endpoint buffer descriptors. -/
inductive BD where
  | ep0Out
  | ep0In
  | ep1Out
  | ep1In
  deriving DecidableEq, Repr

/-- One write of the software to a buffer descriptor or to memory:
`d.ADR = p`, `d.CNT = n`, `d.STAT.i = v` (the whole status register), a write
of one status bit, or a store `*p = v`. -/
inductive Write where
  | ADR (d : BD) (p : Ptr)
  | CNT (d : BD) (n : Nat)
  | STAT_i (d : BD) (v : Nat)
  | BSTALL (d : BD) (b : Bool)
  | DTSEN (d : BD) (b : Bool)
  | DTS (d : BD) (b : Bool)
  | UOWN (d : BD) (b : Bool)
  | buffer (p : Ptr) (v : Nat)
  deriving DecidableEq, Repr

/-- The descriptor a write belongs to: the descriptor written, or the one whose
buffer is stored into. -/
def Write.target : Write → Option BD
  | Write.ADR d _ => some d
  | Write.CNT d _ => some d
  | Write.STAT_i d _ => some d
  | Write.BSTALL d _ => some d
  | Write.DTSEN d _ => some d
  | Write.DTS d _ => some d
  | Write.UOWN d _ => some d
  | Write.buffer p _ =>
    match p.obj with
    | Object.ep0OutBuffer => some BD.ep0Out
    | Object.ep0InBuffer => some BD.ep0In
    | Object.ep1OutBuffer => some BD.ep1Out
    | Object.ep1InBuffer => some BD.ep1In
    | _ => none

/-- Whether a write hands the descriptor `d` to the hardware: it sets the
`UOWN` bit of `d`, alone or as bit 7 of the whole status register. -/
def Write.grants (d : BD) : Write → Bool
  | Write.UOWN d' b => decide (d' = d) && b
  | Write.STAT_i d' v => decide (d' = d) && v.testBit 7
  | _ => false

/-- In a sequence of writes the descriptor `d` is handed to the hardware by a
write of the `UOWN` bit alone, no earlier write hands it over, and no later
write touches the descriptor or its buffer. -/
def HandsOffLast (d : BD) (ws : List Write) : Prop :=
  ∃ before after, ws = before ++ Write.UOWN d true :: after ∧
    (∀ w ∈ before, w.grants d = false) ∧ (∀ w ∈ after, w.target ≠ some d)

/-- `EnableEndpoint0()` with its writes. -/
def EnableEndpoint0.traced (s : State) : State × List Write :=
  -- arm Endpoint 0 OUT in anticipation of the Setup Transaction
  let s := { s with ep0Out := { s.ep0Out with ADR := ⟨Object.ep0OutBuffer, 0⟩ } }
  let t := [Write.ADR BD.ep0Out ⟨Object.ep0OutBuffer, 0⟩]
  let s := { s with ep0Out := { s.ep0Out with CNT := sizeofEp0Buffer } }
  let t := t ++ [Write.CNT BD.ep0Out sizeofEp0Buffer]
  let s := { s with ep0Out := { s.ep0Out with STAT := BDSTAT.zero } }
  let t := t ++ [Write.STAT_i BD.ep0Out 0]
  let s := { s with ep0Out := { s.ep0Out with STAT := { s.ep0Out.STAT with DTSEN := true } } }
  let t := t ++ [Write.DTSEN BD.ep0Out true]
  let s := { s with ep0Out := { s.ep0Out with STAT := { s.ep0Out.STAT with UOWN := true } } }
  let t := t ++ [Write.UOWN BD.ep0Out true]
  -- disarm Endpoint 0 IN
  let s := { s with ep0In := { s.ep0In with STAT := BDSTAT.zero } }
  let t := t ++ [Write.STAT_i BD.ep0In 0]
  let s := { s with UEP0 := { s.UEP0 with EPHSHK := true } }
  let s := { s with UEP0 := { s.UEP0 with EPCONDIS := false } }
  let s := { s with UEP0 := { s.UEP0 with EPOUTEN := true } }
  ({ s with UEP0 := { s.UEP0 with EPINEN := true } }, t)

/-- `ArmEndpoint0INStatus()` with its writes. -/
def ArmEndpoint0INStatus.traced (s : State) : State × List Write :=
  let s := if s.ep0In.STAT.UOWN then Error s else s
  let s := { s with ep0In := { s.ep0In with STAT := BDSTAT.zero } }
  let t := [Write.STAT_i BD.ep0In 0]
  let s := { s with ep0In := { s.ep0In with ADR := ⟨Object.ep0InBuffer, 0⟩ } }
  let t := t ++ [Write.ADR BD.ep0In ⟨Object.ep0InBuffer, 0⟩]
  let s := { s with ep0In := { s.ep0In with CNT := 0 } }
  let t := t ++ [Write.CNT BD.ep0In 0]
  let s := { s with ep0In := { s.ep0In with STAT := { s.ep0In.STAT with DTS := true } } }
  let t := t ++ [Write.DTS BD.ep0In true]
  let s := { s with ep0In := { s.ep0In with STAT := { s.ep0In.STAT with DTSEN := true } } }
  let t := t ++ [Write.DTSEN BD.ep0In true]
  ({ s with ep0In := { s.ep0In with STAT := { s.ep0In.STAT with UOWN := true } } },
    t ++ [Write.UOWN BD.ep0In true])

/-- `ArmEndpoint0OUT()` with its writes. -/
def ArmEndpoint0OUT.traced (s : State) : State × List Write :=
  let s := if s.ep0Out.STAT.UOWN then Error s else s
  let s := { s with ep0Out := { s.ep0Out with ADR := ⟨Object.ep0OutBuffer, 0⟩ } }
  let t := [Write.ADR BD.ep0Out ⟨Object.ep0OutBuffer, 0⟩]
  let s := { s with ep0Out := { s.ep0Out with CNT := sizeofEp0Buffer } }
  let t := t ++ [Write.CNT BD.ep0Out sizeofEp0Buffer]
  let s := { s with ep0Out := { s.ep0Out with STAT := BDSTAT.zero } }
  let t := t ++ [Write.STAT_i BD.ep0Out 0]
  let r : State × List Write :=
    if (s.gEndpoint0OUTData ≠ NULL ∧ s.gEndpoint0OUTDataL > 0 ∧ s.gEndpoint0OUTToggle = true) ∨
        (s.gEndpoint0INData ≠ NULL ∧ s.gEndpoint0INDataL = 0) then
      -- either 0 or 1 expected next
      ({ s with ep0Out := { s.ep0Out with STAT := { s.ep0Out.STAT with DTSEN := false } } },
        t ++ [Write.DTSEN BD.ep0Out false])
    else
      -- only SETUP0 expected next
      let s := { s with ep0Out := { s.ep0Out with STAT := { s.ep0Out.STAT with DTS := false } } }
      let t := t ++ [Write.DTS BD.ep0Out false]
      ({ s with ep0Out := { s.ep0Out with STAT := { s.ep0Out.STAT with DTSEN := true } } },
        t ++ [Write.DTSEN BD.ep0Out true])
  ({ r.1 with ep0Out := { r.1.ep0Out with STAT := { r.1.ep0Out.STAT with UOWN := true } } },
    r.2 ++ [Write.UOWN BD.ep0Out true])

/-- The copy loop of `ArmEndpoint0IN` with its stores. -/
def ArmEndpoint0IN.copyTraced : Nat → Ptr → State → State × List Write
  | 0, _, s => (s, [])
  | i + 1, dest, s =>
    let v := s.load s.gEndpoint0INData
    let s := s.store dest v
    let s := { s with gEndpoint0INData := s.gEndpoint0INData.add 1 }
    let r := ArmEndpoint0IN.copyTraced i (dest.add 1) s
    (r.1, Write.buffer dest v :: r.2)

/-- `ArmEndpoint0IN()` with its writes. -/
def ArmEndpoint0IN.traced (s : State) : State × List Write :=
  let s := if s.ep0In.STAT.UOWN then Error s else s
  -- how much data to send in the next IN transaction
  let s := { s with ep0In := { s.ep0In with CNT :=
    if s.gEndpoint0INDataL > sizeofEp0Buffer then sizeofEp0Buffer else s.gEndpoint0INDataL } }
  let t := [Write.CNT BD.ep0In s.ep0In.CNT]
  -- copy data into USB memory
  let r := ArmEndpoint0IN.copyTraced s.ep0In.CNT ⟨Object.ep0InBuffer, 0⟩ s
  let s := r.1
  let t := t ++ r.2
  let s := { s with gEndpoint0INDataL := (s.gEndpoint0INDataL + 256 - s.ep0In.CNT) % 256 }
  -- will send short or zero-length packet?
  let s := if s.ep0In.CNT < sizeofEp0Buffer then { s with gEndpoint0INData := NULL } else s
  -- what data to send
  let s := { s with ep0In := { s.ep0In with ADR := ⟨Object.ep0InBuffer, 0⟩ } }
  let t := t ++ [Write.ADR BD.ep0In ⟨Object.ep0InBuffer, 0⟩]
  let s := { s with ep0In := { s.ep0In with STAT := BDSTAT.zero } }
  let t := t ++ [Write.STAT_i BD.ep0In 0]
  -- data toggle
  let s := { s with ep0In := { s.ep0In with STAT := { s.ep0In.STAT with DTS := s.gEndpoint0INToggle } } }
  let t := t ++ [Write.DTS BD.ep0In s.gEndpoint0INToggle]
  let s := { s with ep0In := { s.ep0In with STAT := { s.ep0In.STAT with DTSEN := true } } }
  let t := t ++ [Write.DTSEN BD.ep0In true]
  let s := { s with gEndpoint0INToggle := !s.gEndpoint0INToggle }
  -- 'arm' Endpoint 0 IN in anticipation of next Data Stage Transaction
  ({ s with ep0In := { s.ep0In with STAT := { s.ep0In.STAT with UOWN := true } } },
    t ++ [Write.UOWN BD.ep0In true])

/-- `ArmEndpoint0INStall()` with its writes. -/
def ArmEndpoint0INStall.traced (s : State) : State × List Write :=
  let s := if s.ep0In.STAT.UOWN then Error s else s
  -- set endpoint to stall the next Transaction
  let s := { s with ep0In := { s.ep0In with STAT := BDSTAT.zero } }
  let t := [Write.STAT_i BD.ep0In 0]
  let s := { s with ep0In := { s.ep0In with STAT := { s.ep0In.STAT with BSTALL := true } } }
  let t := t ++ [Write.BSTALL BD.ep0In true]
  ({ s with ep0In := { s.ep0In with STAT := { s.ep0In.STAT with UOWN := true } } },
    t ++ [Write.UOWN BD.ep0In true])

/-- `ArmEndpoint1OUT()` with its writes. -/
def ArmEndpoint1OUT.traced (s : State) : State × List Write :=
  let s := if s.ep1Out.STAT.UOWN then Error s else s
  -- data to expect in the next OUT transaction
  let s := { s with ep1Out := { s.ep1Out with ADR := ⟨Object.ep1OutBuffer, 0⟩ } }
  let t := [Write.ADR BD.ep1Out ⟨Object.ep1OutBuffer, 0⟩]
  let s := { s with ep1Out := { s.ep1Out with CNT := 5 } }
  let t := t ++ [Write.CNT BD.ep1Out 5]
  let s := { s with ep1Out := { s.ep1Out with STAT := BDSTAT.zero } }
  let t := t ++ [Write.STAT_i BD.ep1Out 0]
  -- 'arm' Endpoint 1 OUT in anticipation of next Data Stage Transaction
  ({ s with ep1Out := { s.ep1Out with STAT := { s.ep1Out.STAT with UOWN := true } } },
    t ++ [Write.UOWN BD.ep1Out true])

/-- `ArmEndpoint1IN()` with its writes. -/
def ArmEndpoint1IN.traced (s : State) : State × List Write :=
  let s := if s.ep1In.STAT.UOWN then Error s else s
  -- data to send in the next IN transaction
  let s := { s with ep1In := { s.ep1In with ADR := ⟨Object.ep1InBuffer, 0⟩ } }
  let t := [Write.ADR BD.ep1In ⟨Object.ep1InBuffer, 0⟩]
  let s := { s with ep1In := { s.ep1In with CNT := 5 } }
  let t := t ++ [Write.CNT BD.ep1In 5]
  let s := { s with ep1In := { s.ep1In with STAT := BDSTAT.zero } }
  let t := t ++ [Write.STAT_i BD.ep1In 0]
  let s := { s with ep1In := { s.ep1In with STAT := { s.ep1In.STAT with DTS := s.gToggleIN % 2 = 1 } } }
  let t := t ++ [Write.DTS BD.ep1In (s.gToggleIN % 2 = 1)]
  let s := { s with ep1In := { s.ep1In with STAT := { s.ep1In.STAT with DTSEN := true } } }
  let t := t ++ [Write.DTSEN BD.ep1In true]
  -- 'arm' Endpoint 1 IN in anticipation of next Data Stage Transaction
  ({ s with ep1In := { s.ep1In with STAT := { s.ep1In.STAT with UOWN := true } } },
    t ++ [Write.UOWN BD.ep1In true])

/-- `SendValues(value0, value1)` with its writes. -/
def SendValues.traced (value0 value1 : Nat) (s : State) : State × List Write :=
  let r := SendValues.report ⟨0, 0, 0, 0, 0⟩ value0 value1
  let s := s.assign Object.ep1InBuffer [r.b0, r.b1, r.b2, r.b3, r.b4]
  let t := [Write.buffer ⟨Object.ep1InBuffer, 0⟩ (r.b0 % 256),
            Write.buffer ⟨Object.ep1InBuffer, 1⟩ (r.b1 % 256),
            Write.buffer ⟨Object.ep1InBuffer, 2⟩ (r.b2 % 256),
            Write.buffer ⟨Object.ep1InBuffer, 3⟩ (r.b3 % 256),
            Write.buffer ⟨Object.ep1InBuffer, 4⟩ (r.b4 % 256)]
  -- send report on next IN transaction
  let a := ArmEndpoint1IN.traced s
  (a.1, t ++ a.2)

/-! # Theorems -/

/-! ## Bit operations as arithmetic -/

theorem and_0x0F (x : Nat) : x &&& 0x0F = x % 16 :=
  Nat.and_pow_two_sub_one_eq_mod x 4

theorem and_0x0FFFFF (x : Nat) : x &&& 0x0FFFFF = x % 2 ^ 20 :=
  Nat.and_pow_two_sub_one_eq_mod x 20

theorem or_shiftLeft_4 (a b : Nat) (h : a < 16) : a ||| b <<< 4 = a + 16 * b := by
  rw [Nat.shiftLeft_eq, Nat.or_comm, Nat.mul_comm b, ← Nat.mul_add_lt_is_or (i := 4) h b]
  omega

theorem or_0x80 (a : Nat) (h : a < 128) : a ||| 0x80 = a + 128 := by
  have h2 : 128 + a = 128 ||| a := Nat.mul_add_lt_is_or (i := 7) h 1
  rw [Nat.or_comm]
  omega

theorem SendValues_report_bytes (r : Report) (value0 value1 : Nat)
    (h0 : value0 < 2 ^ 20) (h1 : value1 < 2 ^ 20) :
    SendValues.report r value0 value1 =
      ⟨value0 % 256, value0 / 256 % 256, value0 / 65536 + 16 * (value1 % 16),
       value1 / 16 % 256, value1 / 4096⟩ := by
  have e0 : value0 % 2 ^ 24 = value0 := Nat.mod_eq_of_lt (by omega)
  have e1 : value1 % 2 ^ 24 = value1 := Nat.mod_eq_of_lt (by omega)
  simp only [SendValues.report, Report.setV0, Report.setV1, e0, e1, and_0x0F,
    Nat.shiftRight_eq_div_pow]
  rw [or_shiftLeft_4 _ _ (by omega)]
  simp only [Nat.shiftLeft_eq]
  congr 1 <;> omega

theorem HandleEndpoint1OUT_values_eq (r : Report) :
    HandleEndpoint1OUT.values r =
      ((r.b0 + r.b1 * 256 + r.b2 * 65536) % 2 ^ 20, (r.b2 + r.b3 * 256 + r.b4 * 65536) / 16) := by
  simp only [HandleEndpoint1OUT.values, Report.v0, Report.v1, and_0x0FFFFF,
    Nat.shiftRight_eq_div_pow, Nat.shiftLeft_eq]

/-! ### Frame lemmas -/

theorem SPIStartExchange_mem (data : Ptr) (dataL : Nat) (cb : Option FnPtr) (s : State) :
    (SPIStartExchange data dataL cb s).mem = s.mem := by
  simp only [SPIStartExchange, writeLATA5, writeSSP1BUF, Error]
  split_ifs <;> rfl

theorem SPIStartExchange_gValue (data : Ptr) (dataL : Nat) (cb : Option FnPtr) (s : State) :
    (SPIStartExchange data dataL cb s).gValue0 = s.gValue0 ∧
    (SPIStartExchange data dataL cb s).gValue1 = s.gValue1 := by
  simp only [SPIStartExchange, writeLATA5, writeSSP1BUF, Error]
  split_ifs <;> exact ⟨rfl, rfl⟩

theorem ArmEndpoint1OUT_gValue (s : State) :
    (ArmEndpoint1OUT s).gValue0 = s.gValue0 ∧ (ArmEndpoint1OUT s).gValue1 = s.gValue1 := by
  simp only [ArmEndpoint1OUT, Error]
  split_ifs <;> exact ⟨rfl, rfl⟩

theorem ArmEndpoint1IN_mem (s : State) : (ArmEndpoint1IN s).mem = s.mem := by
  simp only [ArmEndpoint1IN, Error]
  split_ifs <;> rfl

theorem DisplayValues_gValue (v0 v1 : Nat) (s : State) :
    (DisplayValues v0 v1 s).gValue0 = v0 % 2 ^ 24 ∧
    (DisplayValues v0 v1 s).gValue1 = v1 % 2 ^ 24 := by
  unfold DisplayValues
  exact ⟨(SPIStartExchange_gValue _ _ _ _).1, (SPIStartExchange_gValue _ _ _ _).2⟩

theorem SendValues_ep1InBuffer (value0 value1 : Nat) (s : State) :
    (SendValues value0 value1 s).mem Object.ep1InBuffer =
      let r := SendValues.report ⟨0, 0, 0, 0, 0⟩ value0 value1
      [r.b0 % 256, r.b1 % 256, r.b2 % 256, r.b3 % 256, r.b4 % 256] := by
  simp [SendValues, ArmEndpoint1IN_mem, State.assign]

theorem HandleEndpoint1OUT_gValue (s : State) :
    ((HandleEndpoint1OUT s).gValue0, (HandleEndpoint1OUT s).gValue1) =
      let v := HandleEndpoint1OUT.values
        ⟨s.load ⟨Object.ep1OutBuffer, 0⟩, s.load ⟨Object.ep1OutBuffer, 1⟩,
         s.load ⟨Object.ep1OutBuffer, 2⟩, s.load ⟨Object.ep1OutBuffer, 3⟩,
         s.load ⟨Object.ep1OutBuffer, 4⟩⟩
      (v.1 % 2 ^ 24, v.2 % 2 ^ 24) := by
  simp only [HandleEndpoint1OUT, (ArmEndpoint1OUT_gValue _).1, (ArmEndpoint1OUT_gValue _).2,
    (DisplayValues_gValue _ _ _).1, (DisplayValues_gValue _ _ _).2]

theorem report_bit_layout_bytes (value0 value1 : Nat) (r : Report)
    (h0 : value0 < 2 ^ 20) (h1 : value1 < 2 ^ 20) :
    SendValues.report r value0 value1 =
      ⟨(value0 + 2 ^ 20 * value1) % 256,
       (value0 + 2 ^ 20 * value1) / 2 ^ 8 % 256,
       (value0 + 2 ^ 20 * value1) / 2 ^ 16 % 256,
       (value0 + 2 ^ 20 * value1) / 2 ^ 24 % 256,
       (value0 + 2 ^ 20 * value1) / 2 ^ 32 % 256⟩ := by
  rw [SendValues_report_bytes r _ _ h0 h1]
  congr 1 <;> omega

/-- C1. HID report round trip: for all `value0, value1 < 2^20`, the report that
`SendValues` constructs decodes, with the extraction of `HandleEndpoint1OUT`, to
`(value0, value1)`; and when the five bytes that `SendValues(value0, value1)`
leaves in the Endpoint 1 IN buffer are the content of the Endpoint 1 OUT
buffer, `HandleEndpoint1OUT` stores exactly `value0` and `value1`. -/
theorem report_round_trip (value0 value1 : Nat) (h0 : value0 < 2 ^ 20) (h1 : value1 < 2 ^ 20)
    (r : Report) (s t : State)
    (hbytes : t.mem Object.ep1OutBuffer = (SendValues value0 value1 s).mem Object.ep1InBuffer) :
    HandleEndpoint1OUT.values (SendValues.report r value0 value1) = (value0, value1) ∧
    (HandleEndpoint1OUT t).gValue0 = value0 ∧ (HandleEndpoint1OUT t).gValue1 = value1 := by
  have hpure : ∀ r0 : Report,
      HandleEndpoint1OUT.values (SendValues.report r0 value0 value1) = (value0, value1) := by
    intro r0
    rw [SendValues_report_bytes r0 _ _ h0 h1, HandleEndpoint1OUT_values_eq]
    simp only [Prod.mk.injEq]
    constructor <;> omega
  refine ⟨hpure r, ?_⟩
  have hv := HandleEndpoint1OUT_gValue t
  rw [SendValues_ep1InBuffer] at hbytes
  have hr := SendValues_report_bytes ⟨0, 0, 0, 0, 0⟩ _ _ h0 h1
  have hload : ∀ i, t.load ⟨Object.ep1OutBuffer, i⟩ =
      (t.mem Object.ep1OutBuffer).getD i 0 % 256 := by
    intro i; simp [State.load, State.contents, romData]
  have e2 : (value0 / 65536 + 16 * (value1 % 16)) % 256 = value0 / 65536 + 16 * (value1 % 16) :=
    Nat.mod_eq_of_lt (by omega)
  have e4 : value1 / 4096 % 256 = value1 / 4096 := Nat.mod_eq_of_lt (by omega)
  simp only [hr, Nat.mod_mod, e2, e4] at hbytes
  simp only [hload, hbytes, HandleEndpoint1OUT_values_eq, Prod.mk.injEq,
    List.getD_cons_zero, List.getD_cons_succ, Nat.mod_mod, e2, e4] at hv
  obtain ⟨hv0, hv1⟩ := hv
  rw [hv0, hv1]
  constructor <;> omega

/-! ## The SPI engine -/

theorem spiByteComplete_more (call : FnPtr → State → State) (s : State) (r : Nat)
    (o : Object) (i n : Nat) (hrom : romData o = none)
    (hp : s.gSPIData = ⟨o, i⟩) (hL : s.gSPIDataL = n + 2) (hn : n + 2 ≤ 255) :
    spiByteComplete call s r =
      { s with
        mem := Function.update s.mem o ((s.mem o).set i (r % 256))
        BF := false
        SSP1BUF := r % 256
        SSP1BUF_out := (s.mem o).getD (i + 1) 0 % 256
        gSPIData := ⟨o, i + 1⟩
        gSPIDataL := n + 1
        LATA5 := if (n + 1) % 2 = 0 then false else s.LATA5
        log := s.log ++
          ((if (n + 1) % 2 = 0 then [Event.chipSelect true, Event.chipSelect false] else [])
            ++ [Event.transmit ((s.mem o).getD (i + 1) 0 % 256)]) } := by
  have h1 : (n + 2 + 255) % 256 = n + 1 := by omega
  have h2 : n + 1 ≠ 0 := by omega
  simp only [spiByteComplete, SPIServiceInterrupt, State.store, hp, hL, h1, Ptr.add,
    writeLATA5, writeSSP1BUF, State.load, State.contents, hrom, Nat.mod_mod]
  by_cases hpar : (n + 1) % 2 = 0
  · simp [hpar, h2, hrom]
  · simp [hpar, h2, hrom]

theorem spiByteComplete_last (call : FnPtr → State → State) (s : State) (r : Nat)
    (o : Object) (i : Nat) (hp : s.gSPIData = ⟨o, i⟩) (hL : s.gSPIDataL = 1) :
    spiByteComplete call s r =
      notifyCaller call
        { s with
          mem := Function.update s.mem o ((s.mem o).set i (r % 256))
          BF := false
          SSP1BUF := r % 256
          gSPIData := NULL
          gSPIDataL := 0
          LATA5 := true
          log := s.log ++ [Event.chipSelect true] } := by
  simp only [spiByteComplete, SPIServiceInterrupt, State.store, hp, hL, Ptr.add,
    writeLATA5, notifyCaller, Nat.mod_mod]
  cases hcb : s.gSPICallback <;> simp

theorem spiBytesComplete_run (call : FnPtr → State → State) (o : Object)
    (hrom : romData o = none) (rs : List Nat) :
    ∀ (s : State) (i : Nat), s.gSPIData = ⟨o, i⟩ → s.gSPIDataL = rs.length →
      1 ≤ rs.length → rs.length ≤ 255 → (s.mem o).length = i + rs.length →
      ∃ rx tx, spiBytesComplete call s rs =
        notifyCaller call
          { s with
            mem := Function.update s.mem o ((s.mem o).take i ++ rs.map (· % 256))
            BF := false
            SSP1BUF := rx
            SSP1BUF_out := tx
            gSPIData := NULL
            gSPIDataL := 0
            LATA5 := true
            log := s.log ++ serviceEvents (((s.mem o).drop (i + 1)).map (· % 256)) } := by
  induction rs with
  | nil => intro s i _ _ h; simp at h
  | cons r rest ih =>
    intro s i hp hL _ hle hlen
    cases rest with
    | nil =>
      refine ⟨r % 256, s.SSP1BUF_out, ?_⟩
      simp only [List.length_singleton] at hL hlen
      have hdrop : (s.mem o).drop (i + 1) = [] := List.drop_eq_nil_of_le (by omega)
      have hset : (s.mem o).set i (r % 256) = (s.mem o).take i ++ [r % 256] := by
        rw [List.set_eq_take_append_cons_drop, if_pos (by omega), hdrop]
      simp only [spiBytesComplete, List.foldl_cons, List.foldl_nil]
      rw [spiByteComplete_last call s r o i hp hL, hset, hdrop]
      simp [serviceEvents]
    | cons r' rest' =>
      simp only [List.length_cons] at hL hle hlen ih
      have hstep := spiByteComplete_more call s r o i rest'.length hrom hp hL hle
      obtain ⟨rx, tx, hrun⟩ := ih (spiByteComplete call s r) (i + 1)
        (by rw [hstep]) (by rw [hstep]) (by omega) (by omega)
        (by rw [hstep]; simp; omega)
      refine ⟨rx, tx, ?_⟩
      have hfold : spiBytesComplete call s (r :: r' :: rest') =
          spiBytesComplete call (spiByteComplete call s r) (r' :: rest') := by
        simp only [spiBytesComplete, List.foldl_cons]
      rw [hfold, hrun, hstep]
      have hi : i < (s.mem o).length := by omega
      have hi1 : i + 1 < (s.mem o).length := by omega
      have htake : ((s.mem o).set i (r % 256)).take (i + 1) = (s.mem o).take i ++ [r % 256] := by
        rw [List.set_eq_take_append_cons_drop, if_pos hi, List.take_append_eq_append_take]
        simp [List.length_take, Nat.min_eq_left (Nat.le_of_lt hi), List.take_of_length_le]
      have hdrop : (s.mem o).drop (i + 1) =
          (s.mem o).getD (i + 1) 0 :: (s.mem o).drop (i + 1 + 1) := by
        rw [List.drop_eq_getElem_cons hi1]
        simp [List.getD_eq_getElem?_getD, List.getElem?_eq_getElem hi1]
      have hlen2 : ((s.mem o).drop (i + 1 + 1)).length = rest'.length := by
        simp; omega
      congr 1
      simp only [Function.update_same, Function.update_idem, htake, List.drop_set,
        hdrop, List.map_cons, serviceEvents, List.length_map, hlen2, List.append_assoc,
        List.singleton_append, List.cons_append, List.nil_append, List.map_cons]
      have hlt : i < i + 1 + 1 := by omega
      simp [hlt, List.map_drop]

theorem SPIStartExchange_idle (data : Ptr) (dataL : Nat) (cb : Option FnPtr) (s : State)
    (hidle : s.gSPIData = NULL) (h1 : 1 ≤ dataL) (h2 : dataL ≤ 255) :
    SPIStartExchange data dataL cb s =
      { (if s.BF then Error s else s) with
        gSPICallback := cb
        gSPIData := data
        gSPIDataL := dataL
        LATA5 := false
        SSP1BUF_out := s.load data
        log := (if s.BF then Error s else s).log ++
          [Event.chipSelect false, Event.transmit (s.load data)] } := by
  have hm : dataL % 256 = dataL := Nat.mod_eq_of_lt (by omega)
  have hz : dataL ≠ 0 := by omega
  simp only [SPIStartExchange, hidle, hm, writeLATA5, writeSSP1BUF, State.load, State.contents]
  by_cases hbf : s.BF = true <;> simp [hbf, hz, Error]

theorem SPIStartExchange_busy (data : Ptr) (dataL : Nat) (cb : Option FnPtr) (s : State)
    (hbusy : s.gSPIData ≠ NULL) :
    SPIStartExchange data dataL cb s = Error s := by
  simp [SPIStartExchange, hbusy]

/-- A whole exchange on a RAM buffer, from an idle engine: the state after the
last byte-complete interrupt is the completion state handed to `notifyCaller`. -/
theorem exchange_run (call : FnPtr → State → State) (o : Object) (cb : Option FnPtr)
    (s : State) (rs : List Nat) (hrom : romData o = none) (hidle : s.gSPIData = NULL)
    (h1 : 1 ≤ rs.length) (h2 : rs.length ≤ 255) (hlen : (s.mem o).length = rs.length) :
    ∃ rx tx, spiBytesComplete call (SPIStartExchange ⟨o, 0⟩ rs.length cb s) rs =
      notifyCaller call
        { (if s.BF then Error s else s) with
          mem := Function.update s.mem o (rs.map (· % 256))
          BF := false
          SSP1BUF := rx
          SSP1BUF_out := tx
          gSPICallback := cb
          gSPIData := NULL
          gSPIDataL := 0
          LATA5 := true
          log := (if s.BF then Error s else s).log ++
            Event.chipSelect false :: Event.transmit ((s.mem o).getD 0 0 % 256) ::
              serviceEvents ((s.mem o).tail.map (· % 256)) } := by
  have hstart := SPIStartExchange_idle ⟨o, 0⟩ rs.length cb s hidle h1 h2
  have hmem : (SPIStartExchange ⟨o, 0⟩ rs.length cb s).mem = s.mem :=
    SPIStartExchange_mem _ _ _ _
  obtain ⟨rx, tx, hrun⟩ := spiBytesComplete_run call o hrom rs
    (SPIStartExchange ⟨o, 0⟩ rs.length cb s) 0
    (by rw [hstart]) (by rw [hstart]) h1 h2 (by rw [hmem]; omega)
  refine ⟨rx, tx, ?_⟩
  rw [hrun, hmem]
  congr 1
  rw [hstart]
  by_cases hbf : s.BF = true <;>
    simp [hbf, Error, State.load, State.contents, hrom, List.drop_one]

/-! ## Claims on the report codec and the digit encoder -/

/-- C1 at `(123, 456)`, with the bytes `[123, 0, 128, 28, 0]` received back. -/
theorem report_round_trip_witness :
    (123 < 2 ^ 20 ∧ 456 < 2 ^ 20 ∧
      (State.initial.assign Object.ep1OutBuffer [123, 0, 128, 28, 0]).mem Object.ep1OutBuffer =
        (SendValues 123 456 State.initial).mem Object.ep1InBuffer) ∧
    HandleEndpoint1OUT.values (SendValues.report ⟨0, 0, 0, 0, 0⟩ 123 456) = (123, 456) ∧
    (HandleEndpoint1OUT (State.initial.assign Object.ep1OutBuffer [123, 0, 128, 28, 0])).gValue0
      = 123 ∧
    (HandleEndpoint1OUT (State.initial.assign Object.ep1OutBuffer [123, 0, 128, 28, 0])).gValue1
      = 456 :=
  ⟨⟨by decide, by decide, by decide⟩,
    report_round_trip 123 456 (by decide) (by decide) ⟨0, 0, 0, 0, 0⟩ State.initial
      (State.initial.assign Object.ep1OutBuffer [123, 0, 128, 28, 0]) (by decide)⟩

/-- C9. Report bit layout: for every 5-byte report `b0..b4`, with
`N = b0 + 2^8*b1 + 2^16*b2 + 2^24*b3 + 2^32*b4` (only `b0, b1 < 256` is used),
`HandleEndpoint1OUT` extracts
`value0 = N mod 2^20` and `value1 = N div 2^20`; and for `value0, value1 < 2^20`
the bytes `SendValues` produces are the little-endian bytes of
`value0 + 2^20*value1`. -/
theorem report_bit_layout (b0 b1 b2 b3 b4 value0 value1 : Nat) (r : Report)
    (hb0 : b0 < 256) (hb1 : b1 < 256)
    (h0 : value0 < 2 ^ 20) (h1 : value1 < 2 ^ 20) :
    HandleEndpoint1OUT.values ⟨b0, b1, b2, b3, b4⟩ =
      ((b0 + 2 ^ 8 * b1 + 2 ^ 16 * b2 + 2 ^ 24 * b3 + 2 ^ 32 * b4) % 2 ^ 20,
       (b0 + 2 ^ 8 * b1 + 2 ^ 16 * b2 + 2 ^ 24 * b3 + 2 ^ 32 * b4) / 2 ^ 20) ∧
    SendValues.report r value0 value1 =
      ⟨(value0 + 2 ^ 20 * value1) % 256,
       (value0 + 2 ^ 20 * value1) / 2 ^ 8 % 256,
       (value0 + 2 ^ 20 * value1) / 2 ^ 16 % 256,
       (value0 + 2 ^ 20 * value1) / 2 ^ 24 % 256,
       (value0 + 2 ^ 20 * value1) / 2 ^ 32 % 256⟩ := by
  constructor
  · rw [HandleEndpoint1OUT_values_eq]
    simp only [Prod.mk.injEq]
    constructor <;> omega
  · exact report_bit_layout_bytes value0 value1 r h0 h1

/-- C9 at the report `[0x21, 0x43, 0x65, 0x87, 0xA9]` and the pair `(123, 456)`. -/
theorem report_bit_layout_witness :
    (0x21 < 256 ∧ 0x43 < 256 ∧ 123 < 2 ^ 20 ∧ 456 < 2 ^ 20) ∧
    HandleEndpoint1OUT.values ⟨0x21, 0x43, 0x65, 0x87, 0xA9⟩ =
      ((0x21 + 2 ^ 8 * 0x43 + 2 ^ 16 * 0x65 + 2 ^ 24 * 0x87 + 2 ^ 32 * 0xA9) % 2 ^ 20,
       (0x21 + 2 ^ 8 * 0x43 + 2 ^ 16 * 0x65 + 2 ^ 24 * 0x87 + 2 ^ 32 * 0xA9) / 2 ^ 20) ∧
    SendValues.report ⟨0, 0, 0, 0, 0⟩ 123 456 =
      ⟨(123 + 2 ^ 20 * 456) % 256,
       (123 + 2 ^ 20 * 456) / 2 ^ 8 % 256,
       (123 + 2 ^ 20 * 456) / 2 ^ 16 % 256,
       (123 + 2 ^ 20 * 456) / 2 ^ 24 % 256,
       (123 + 2 ^ 20 * 456) / 2 ^ 32 % 256⟩ :=
  ⟨by decide,
    report_bit_layout 0x21 0x43 0x65 0x87 0xA9 123 456 ⟨0, 0, 0, 0, 0⟩
      (by decide) (by decide) (by decide) (by decide)⟩

theorem DisplayValues_buffer_eq (v0 v1 : Nat) (s : State)
    (h0 : v0 < 2 ^ 24) (h1 : v1 < 2 ^ 24) :
    (DisplayValues v0 v1 s).mem Object.DisplayValues_buffer =
      [0x25, v0 % 10, 0x24, v0 / 10 % 10, 0x23, v0 / 100 % 10, 0x22, v0 / 1000 % 10 + 128,
       0x21, v0 / 10000 % 10, 0x20, v0 / 100000 % 10,
       0x2D, v1 % 10, 0x2C, v1 / 10 % 10, 0x2B, v1 / 100 % 10, 0x2A, v1 / 1000 % 10 + 128,
       0x29, v1 / 10000 % 10, 0x28, v1 / 100000 % 10] := by
  have e0 : v0 % 2 ^ 24 = v0 := Nat.mod_eq_of_lt h0
  have e1 : v1 % 2 ^ 24 = v1 := Nat.mod_eq_of_lt h1
  have o0 := or_0x80 (v0 / 10 / 10 / 10 % 10) (by omega)
  have o1 := or_0x80 (v1 / 10 / 10 / 10 % 10) (by omega)
  simp only [DisplayValues, SPIStartExchange_mem, State.assign, Function.update_same,
    DisplayValues.buffer, e0, e1, o0, o1, kRegisterDigit0Plane0, kRegisterDigit0APlane0,
    List.map_cons, List.map_nil]
  simp only [List.cons.injEq, and_true]
  repeat' apply And.intro
  all_goals first | trivial | omega

theorem testBit_7_digit (d : Nat) (h : d < 128) :
    d.testBit 7 = false ∧ (d + 128).testBit 7 = true := by
  have h1 : d.testBit 7 = false := Nat.testBit_lt_two_pow (by omega)
  refine ⟨h1, ?_⟩
  have h2 := Nat.testBit_two_pow_add_eq d 7
  rw [h1] at h2
  rw [Nat.add_comm]
  exact h2

/-- C2. BCD round trip: for `v0, v1` in `[0, 999999]` the buffer that
`DisplayValues(v0, v1)` builds is 24 bytes, 12 (register, data) pairs addressed
to registers `0x25..0x20` then `0x2D..0x28`; the low 7 bits of the data byte
written to register `base + k` are the `k`-th most significant of the six
base-10 digits of the value (`base` = `0x20` for `v0`, `0x28` for `v1`), so the
digits reassemble to `v0` and `v1`; and the decimal-point bit `0x80` is set on
the data bytes of registers `0x22` and `0x2A` and on no other. -/
theorem DisplayValues_bcd_round_trip (v0 v1 : Nat) (s : State)
    (h0 : v0 ≤ 999999) (h1 : v1 ≤ 999999) :
    ((DisplayValues v0 v1 s).mem Object.DisplayValues_buffer).length = 24 ∧
    registers ((DisplayValues v0 v1 s).mem Object.DisplayValues_buffer) =
      [0x25, 0x24, 0x23, 0x22, 0x21, 0x20, 0x2D, 0x2C, 0x2B, 0x2A, 0x29, 0x28] ∧
    (∀ k, k < 6 → ∃ d,
      writtenTo (0x20 + k) ((DisplayValues v0 v1 s).mem Object.DisplayValues_buffer) = some d ∧
      d % 128 = v0 / 10 ^ (5 - k) % 10) ∧
    (∀ k, k < 6 → ∃ d,
      writtenTo (0x28 + k) ((DisplayValues v0 v1 s).mem Object.DisplayValues_buffer) = some d ∧
      d % 128 = v1 / 10 ^ (5 - k) % 10) ∧
    shownValue 0x20 ((DisplayValues v0 v1 s).mem Object.DisplayValues_buffer) = v0 ∧
    shownValue 0x28 ((DisplayValues v0 v1 s).mem Object.DisplayValues_buffer) = v1 ∧
    decimalPoints ((DisplayValues v0 v1 s).mem Object.DisplayValues_buffer) = [0x22, 0x2A] := by
  rw [DisplayValues_buffer_eq v0 v1 s (by omega) (by omega)]
  have t0 : ∀ d, (d % 10).testBit 7 = false := fun d => (testBit_7_digit (d % 10) (by omega)).1
  have t1 : ∀ d, (d % 10 + 128).testBit 7 = true :=
    fun d => (testBit_7_digit (d % 10) (by omega)).2
  refine ⟨rfl, rfl, ?_, ?_, ?_, ?_, ?_⟩
  · intro k hk
    interval_cases k <;> simp [writtenTo] <;> omega
  · intro k hk
    interval_cases k <;> simp [writtenTo] <;> omega
  · simp [shownValue, List.range, List.range.loop, writtenTo]
    omega
  · simp [shownValue, List.range, List.range.loop, writtenTo]
    omega
  · simp [decimalPoints, t0, t1]

/-- C2 at `(123456, 999999)`. -/
theorem DisplayValues_bcd_round_trip_witness :
    (123456 ≤ 999999 ∧ 999999 ≤ 999999) ∧
    shownValue 0x20 ((DisplayValues 123456 999999 State.initial).mem Object.DisplayValues_buffer)
      = 123456 ∧
    shownValue 0x28 ((DisplayValues 123456 999999 State.initial).mem Object.DisplayValues_buffer)
      = 999999 :=
  ⟨by decide,
    (DisplayValues_bcd_round_trip 123456 999999 State.initial (by decide) (by decide)).2.2.2.2.1,
    (DisplayValues_bcd_round_trip 123456 999999 State.initial (by decide) (by decide)).2.2.2.2.2.1⟩

/-! ## Claims on the SPI engine -/

theorem chipSelectAsserts_append (l1 l2 : List Event) :
    chipSelectAsserts (l1 ++ l2) = chipSelectAsserts l1 + chipSelectAsserts l2 := by
  simp [chipSelectAsserts, List.count_append]

theorem callbackCalls_append (l1 l2 : List Event) :
    callbackCalls (l1 ++ l2) = callbackCalls l1 + callbackCalls l2 := by
  simp [callbackCalls, List.filter_append]

theorem transmitted_append (l1 l2 : List Event) :
    transmitted (l1 ++ l2) = transmitted l1 ++ transmitted l2 := by
  simp [transmitted, List.filterMap_append]

theorem chipSelectAsserts_serviceEvents (l : List Nat) :
    chipSelectAsserts (serviceEvents l) = l.length / 2 := by
  induction l with
  | nil => simp [serviceEvents, chipSelectAsserts]
  | cons x rest ih =>
    simp only [serviceEvents, chipSelectAsserts_append, List.length_cons]
    have hcons : chipSelectAsserts (Event.transmit x :: serviceEvents rest) =
        chipSelectAsserts (serviceEvents rest) := by
      simp [chipSelectAsserts]
    rw [hcons, ih]
    by_cases hpar : (rest.length + 1) % 2 = 0
    · simp only [hpar, if_true]
      have : chipSelectAsserts [Event.chipSelect true, Event.chipSelect false] = 1 := by decide
      omega
    · simp only [hpar, if_false]
      have : chipSelectAsserts [] = 0 := by decide
      omega

theorem callbackCalls_serviceEvents (l : List Nat) : callbackCalls (serviceEvents l) = 0 := by
  induction l with
  | nil => simp [serviceEvents, callbackCalls]
  | cons x rest ih =>
    simp only [serviceEvents, callbackCalls_append]
    have hcons : callbackCalls (Event.transmit x :: serviceEvents rest) =
        callbackCalls (serviceEvents rest) := by
      simp [callbackCalls]
    rw [hcons, ih]
    by_cases hpar : (rest.length + 1) % 2 = 0 <;> simp [hpar, callbackCalls]

theorem transmitted_serviceEvents (l : List Nat) : transmitted (serviceEvents l) = l := by
  induction l with
  | nil => simp [serviceEvents, transmitted]
  | cons x rest ih =>
    simp only [serviceEvents, transmitted_append]
    have hcons : transmitted (Event.transmit x :: serviceEvents rest) =
        x :: transmitted (serviceEvents rest) := by
      simp [transmitted]
    rw [hcons, ih]
    by_cases hpar : (rest.length + 1) % 2 = 0 <;> simp [hpar, transmitted]

theorem map_mod_256 (l : List Nat) (h : ∀ x ∈ l, x < 256) : l.map (· % 256) = l := by
  induction l with
  | nil => rfl
  | cons x rest ih =>
    simp only [List.map_cons, List.cons.injEq]
    exact ⟨Nat.mod_eq_of_lt (h x (List.mem_cons_self _ _)),
      ih fun y hy => h y (List.mem_cons_of_mem _ hy)⟩

/-- While fewer bytes have completed than the exchange is long, no callback is
called. -/
theorem spiBytesComplete_unfinished (call : FnPtr → State → State) (o : Object)
    (hrom : romData o = none) (rs : List Nat) :
    ∀ (s : State) (i : Nat), s.gSPIData = ⟨o, i⟩ → rs.length < s.gSPIDataL →
      s.gSPIDataL ≤ 255 →
      callbackCalls (spiBytesComplete call s rs).log = callbackCalls s.log := by
  induction rs with
  | nil => intro s i _ _ _; rfl
  | cons r rest ih =>
    intro s i hp hlt hle
    simp only [List.length_cons] at hlt
    have hL : s.gSPIDataL = (s.gSPIDataL - 2) + 2 := by omega
    have hstep := spiByteComplete_more call s r o i (s.gSPIDataL - 2) hrom hp hL (by omega)
    have hfold : spiBytesComplete call s (r :: rest) =
        spiBytesComplete call (spiByteComplete call s r) rest := by
      simp only [spiBytesComplete, List.foldl_cons]
    rw [hfold, ih (spiByteComplete call s r) (i + 1) (by rw [hstep])
      (by rw [hstep]; simp only []; omega) (by rw [hstep]; simp only []; omega), hstep]
    simp only [callbackCalls_append]
    by_cases hpar : (s.gSPIDataL - 2 + 1) % 2 = 0 <;> simp [hpar, callbackCalls]

/-- C3, as stated, fails for the exchange that `ControlsServiceInterrupt`
starts: two bytes with the callback `ReadDebouncedKeyA`.  The callback starts
the 24-byte display exchange, so after the two byte-complete interrupts the
engine is busy and chip-select has been asserted twice, not once. -/
theorem exchange_contract_counterexample :
    ¬ ExchangeContract call (State.initial.assign Object.gReadKeyADebounced [0x88, 0])
        Object.gReadKeyADebounced FnPtr.ReadDebouncedKeyA [0, 0] ∧
    (spiBytesComplete call (ControlsServiceInterrupt State.initial) [0, 0]).gSPIData =
      ⟨Object.DisplayValues_buffer, 0⟩ ∧
    chipSelectAsserts (spiBytesComplete call (ControlsServiceInterrupt State.initial) [0, 0]).log
      = 2 := by
  refine ⟨fun h => absurd h.1 (by decide), by decide, by decide⟩

/-- C3, amended. For every RAM buffer of even nonzero length `L`
(`2 ≤ L ≤ 254`) and every non-null callback that does not itself use the SPI
engine, starting from an idle engine with no stale received byte: after
`SPIStartExchange` and exactly `L` byte-complete interrupts the engine is idle
again, chip-select has been asserted exactly `L/2` times in total, and the
callback has been invoked exactly once, during the `L`-th interrupt and during
no earlier one. -/
theorem exchange_contract (call : FnPtr → State → State) (s : State) (o : Object)
    (cb : FnPtr) (rs : List Nat) (hrom : romData o = none) (hidle : s.gSPIData = NULL)
    (hbf : s.BF = false) (heven : rs.length % 2 = 0) (h2 : 2 ≤ rs.length)
    (h254 : rs.length ≤ 254) (hlen : (s.mem o).length = rs.length)
    (hcb : LeavesEngineAlone call cb) :
    ExchangeContract call s o cb rs := by
  have hstart := SPIStartExchange_idle ⟨o, 0⟩ rs.length (some cb) s hidle (by omega) (by omega)
  simp only [hbf, Bool.false_eq_true, if_false] at hstart
  obtain ⟨rx, tx, hrun⟩ := exchange_run call o (some cb) s rs hrom hidle (by omega) (by omega) hlen
  simp only [hbf, Bool.false_eq_true, if_false, notifyCaller] at hrun
  have htail : (s.mem o).tail.length = rs.length - 1 := by simp [hlen]
  simp only [ExchangeContract, List.take_length]
  refine ⟨?_, ?_, ?_, ?_⟩
  · rw [hrun, (hcb _).1]
  · rw [hrun, (hcb _).2.1]
    simp only [chipSelectAsserts_append]
    have h1 : chipSelectAsserts (Event.chipSelect false ::
        Event.transmit ((s.mem o).getD 0 0 % 256) ::
          serviceEvents ((s.mem o).tail.map (· % 256))) =
        1 + chipSelectAsserts (serviceEvents ((s.mem o).tail.map (· % 256))) := by
      simp [chipSelectAsserts]; omega
    have h2 : chipSelectAsserts [Event.callback cb] = 0 := by simp [chipSelectAsserts]
    rw [h1, h2, chipSelectAsserts_serviceEvents, List.length_map, htail]
    omega
  · rw [hrun, (hcb _).2.2]
    simp only [callbackCalls_append]
    have h1 : callbackCalls (Event.chipSelect false ::
        Event.transmit ((s.mem o).getD 0 0 % 256) ::
          serviceEvents ((s.mem o).tail.map (· % 256))) =
        callbackCalls (serviceEvents ((s.mem o).tail.map (· % 256))) := by
      simp [callbackCalls]
    have h2 : callbackCalls [Event.callback cb] = 1 := by simp [callbackCalls]
    rw [h1, h2, callbackCalls_serviceEvents]
  · intro k hk
    rw [spiBytesComplete_unfinished call o hrom (rs.take k) _ 0 (by rw [hstart])
      (by rw [hstart]; simp only [List.length_take]; omega) (by rw [hstart]; simp only []; omega),
      hstart]
    simp [callbackCalls_append, callbackCalls]

/-- C3 (amended) for a four-byte exchange with an external callback. -/
theorem exchange_contract_witness :
    (romData Object.callerBuffer = none ∧
      (State.initial.assign Object.callerBuffer [1, 2, 3, 4]).gSPIData = NULL ∧
      (State.initial.assign Object.callerBuffer [1, 2, 3, 4]).BF = false ∧
      [5, 6, 7, 8].length % 2 = 0 ∧ 2 ≤ [5, 6, 7, 8].length ∧ [5, 6, 7, 8].length ≤ 254 ∧
      ((State.initial.assign Object.callerBuffer [1, 2, 3, 4]).mem Object.callerBuffer).length
        = [5, 6, 7, 8].length ∧
      LeavesEngineAlone call (FnPtr.external 0)) ∧
    ExchangeContract call (State.initial.assign Object.callerBuffer [1, 2, 3, 4])
      Object.callerBuffer (FnPtr.external 0) [5, 6, 7, 8] :=
  ⟨⟨rfl, rfl, rfl, rfl, by decide, by decide, rfl, fun _ => ⟨rfl, rfl, rfl⟩⟩,
    exchange_contract call (State.initial.assign Object.callerBuffer [1, 2, 3, 4])
      Object.callerBuffer (FnPtr.external 0) [5, 6, 7, 8] rfl rfl rfl rfl (by decide)
      (by decide) rfl (fun _ => ⟨rfl, rfl, rfl⟩)⟩

/-- C4. If `SPIStartExchange` is called while an exchange is active
(`gSPIData` non-null), for any arguments, it invokes `Error()` once and leaves
the active exchange untouched: buffer pointer, remaining length, callback,
chip-select line, transmit register and memory are unchanged and nothing is
transmitted. -/
theorem SPIStartExchange_while_active (data : Ptr) (dataL : Nat) (cb : Option FnPtr)
    (s : State) (hactive : s.gSPIData ≠ NULL) :
    (SPIStartExchange data dataL cb s).log = s.log ++ [Event.error] ∧
    (SPIStartExchange data dataL cb s).LATD3 = false ∧
    (SPIStartExchange data dataL cb s).gSPIData = s.gSPIData ∧
    (SPIStartExchange data dataL cb s).gSPIDataL = s.gSPIDataL ∧
    (SPIStartExchange data dataL cb s).gSPICallback = s.gSPICallback ∧
    (SPIStartExchange data dataL cb s).LATA5 = s.LATA5 ∧
    (SPIStartExchange data dataL cb s).SSP1BUF_out = s.SSP1BUF_out ∧
    (SPIStartExchange data dataL cb s).mem = s.mem := by
  rw [SPIStartExchange_busy data dataL cb s hactive]
  exact ⟨rfl, rfl, rfl, rfl, rfl, rfl, rfl, rfl⟩

/-- C4 when the key-scan interrupt asks for the bus during a display write. -/
theorem SPIStartExchange_while_active_witness :
    (DisplayValues 123 456 State.initial).gSPIData ≠ NULL ∧
    (ControlsServiceInterrupt (DisplayValues 123 456 State.initial)).log =
      (DisplayValues 123 456 State.initial).log ++ [Event.error] ∧
    (ControlsServiceInterrupt (DisplayValues 123 456 State.initial)).gSPIDataL = 24 :=
  ⟨by decide,
    (SPIStartExchange_while_active ⟨Object.gReadKeyADebounced, 0⟩ 2
      (some FnPtr.ReadDebouncedKeyA)
      ((DisplayValues 123 456 State.initial).assign Object.gReadKeyADebounced [0x88, 0])
      (by decide)).1,
    (SPIStartExchange_while_active ⟨Object.gReadKeyADebounced, 0⟩ 2
      (some FnPtr.ReadDebouncedKeyA)
      ((DisplayValues 123 456 State.initial).assign Object.gReadKeyADebounced [0x88, 0])
      (by decide)).2.2.2.1⟩

/-- C10. Full-duplex rotation: for an exchange of length `L ≥ 1` started from
idle on a RAM buffer holding `b0..b(L-1)`, during which the hardware returns
`r0..r(L-1)`, at completion (the state `sC` in which `SPIServiceInterrupt`
notifies the caller) the bytes written to the transmit register since the
start are exactly `b0..b(L-1)` in order and the buffer holds `r0..r(L-1)`;
without a callback that state is the final one. -/
theorem exchange_rotation (call : FnPtr → State → State) (s : State) (o : Object)
    (cb : Option FnPtr) (rs : List Nat) (hrom : romData o = none) (hidle : s.gSPIData = NULL)
    (h1 : 1 ≤ rs.length) (h255 : rs.length ≤ 255) (hlen : (s.mem o).length = rs.length)
    (hb : ∀ x ∈ s.mem o, x < 256) (hr : ∀ x ∈ rs, x < 256) :
    (∃ sC, spiBytesComplete call (SPIStartExchange ⟨o, 0⟩ rs.length cb s) rs =
        notifyCaller call sC ∧
      transmitted sC.log = transmitted s.log ++ s.mem o ∧
      sC.mem o = rs ∧ sC.gSPIData = NULL ∧ sC.gSPICallback = cb) ∧
    (cb = none →
      transmitted (spiBytesComplete call (SPIStartExchange ⟨o, 0⟩ rs.length cb s) rs).log =
        transmitted s.log ++ s.mem o ∧
      (spiBytesComplete call (SPIStartExchange ⟨o, 0⟩ rs.length cb s) rs).mem o = rs) := by
  obtain ⟨rx, tx, hrun⟩ := exchange_run call o cb s rs hrom hidle h1 h255 hlen
  have hsent : (s.mem o).getD 0 0 % 256 :: (s.mem o).tail.map (· % 256) = s.mem o := by
    cases hm : s.mem o with
    | nil => rw [hm] at hlen; simp at hlen; omega
    | cons x rest =>
      have := map_mod_256 (x :: rest) (by rw [← hm]; exact hb)
      simpa using this
  have hlog : transmitted (if s.BF = true then Error s else s).log = transmitted s.log := by
    by_cases hbf : s.BF = true <;> simp [hbf, Error, transmitted_append, transmitted]
  have htx : transmitted ((if s.BF = true then Error s else s).log ++
      Event.chipSelect false :: Event.transmit ((s.mem o).getD 0 0 % 256) ::
        serviceEvents ((s.mem o).tail.map (· % 256))) = transmitted s.log ++ s.mem o := by
    rw [transmitted_append, hlog]
    have : transmitted (Event.chipSelect false :: Event.transmit ((s.mem o).getD 0 0 % 256) ::
        serviceEvents ((s.mem o).tail.map (· % 256))) =
        (s.mem o).getD 0 0 % 256 :: transmitted (serviceEvents ((s.mem o).tail.map (· % 256))) := by
      simp [transmitted]
    rw [this, transmitted_serviceEvents, hsent]
  constructor
  · exact ⟨_, hrun, htx, by simp [map_mod_256 rs hr], rfl, rfl⟩
  · intro hnone
    subst hnone
    rw [hrun]
    exact ⟨htx, by simp [notifyCaller, map_mod_256 rs hr]⟩

/-- C10 for a three-byte exchange without callback. -/
theorem exchange_rotation_witness :
    (romData Object.callerBuffer = none ∧
      (State.initial.assign Object.callerBuffer [1, 2, 3]).gSPIData = NULL ∧
      1 ≤ [7, 8, 9].length ∧ [7, 8, 9].length ≤ 255 ∧
      ((State.initial.assign Object.callerBuffer [1, 2, 3]).mem Object.callerBuffer).length
        = [7, 8, 9].length ∧
      (∀ x ∈ (State.initial.assign Object.callerBuffer [1, 2, 3]).mem Object.callerBuffer,
        x < 256) ∧
      (∀ x ∈ [7, 8, 9], x < 256)) ∧
    transmitted (spiBytesComplete call
      (SPIStartExchange ⟨Object.callerBuffer, 0⟩ [7, 8, 9].length none
        (State.initial.assign Object.callerBuffer [1, 2, 3])) [7, 8, 9]).log =
      transmitted (State.initial.assign Object.callerBuffer [1, 2, 3]).log ++
        (State.initial.assign Object.callerBuffer [1, 2, 3]).mem Object.callerBuffer ∧
    (spiBytesComplete call
      (SPIStartExchange ⟨Object.callerBuffer, 0⟩ [7, 8, 9].length none
        (State.initial.assign Object.callerBuffer [1, 2, 3])) [7, 8, 9]).mem Object.callerBuffer
      = [7, 8, 9] :=
  ⟨⟨rfl, rfl, by decide, by decide, rfl, by decide, by decide⟩,
    (exchange_rotation call (State.initial.assign Object.callerBuffer [1, 2, 3])
      Object.callerBuffer none [7, 8, 9] rfl rfl (by decide) (by decide) rfl (by decide)
      (by decide)).2 rfl⟩

/-! ## Endpoint 0: control reads -/

theorem copy_spec (D : List Nat) (o : Object) (hrom : romData o = some D)
    (hD : ∀ x ∈ D, x < 256) (n : Nat) :
    ∀ (s : State) (j : Nat), s.gEndpoint0INData.obj = o →
      s.gEndpoint0INData.off + n ≤ D.length →
      j + n ≤ (s.mem Object.ep0InBuffer).length →
      ArmEndpoint0IN.copy n ⟨Object.ep0InBuffer, j⟩ s =
        { s with
          mem := Function.update s.mem Object.ep0InBuffer
            ((s.mem Object.ep0InBuffer).take j ++ ((D.drop s.gEndpoint0INData.off).take n ++
              (s.mem Object.ep0InBuffer).drop (j + n)))
          gEndpoint0INData := ⟨o, s.gEndpoint0INData.off + n⟩ } := by
  induction n with
  | zero =>
    intro s j hp _ _
    simp [ArmEndpoint0IN.copy, ← hp]
  | succ n ih =>
    intro s j hp hk hj
    have hkl : s.gEndpoint0INData.off < D.length := by omega
    have hjl : j < (s.mem Object.ep0InBuffer).length := by omega
    have hmod : D[s.gEndpoint0INData.off] % 256 = D[s.gEndpoint0INData.off] :=
      Nat.mod_eq_of_lt (hD _ (List.getElem_mem _))
    have hload : s.load s.gEndpoint0INData = D[s.gEndpoint0INData.off] := by
      simp only [State.load, State.contents, hp, hrom, List.getD_eq_getElem?_getD,
        List.getElem?_eq_getElem hkl, Option.getD_some]
      exact hmod
    simp only [ArmEndpoint0IN.copy, hload, Ptr.add]
    rw [ih _ (j + 1) (by simp [State.store, hp]) (by simp [State.store]; omega)
      (by simp [State.store]; omega)]
    simp only [State.store, hmod, Function.update_same, Function.update_idem, hp]
    have h1 : ((s.mem Object.ep0InBuffer).set j D[s.gEndpoint0INData.off]).take (j + 1) =
        (s.mem Object.ep0InBuffer).take j ++ [D[s.gEndpoint0INData.off]] := by
      rw [List.set_eq_take_append_cons_drop, if_pos hjl, List.take_append_eq_append_take]
      simp [List.length_take, Nat.min_eq_left (Nat.le_of_lt hjl), List.take_of_length_le]
    have h2 : (D.drop s.gEndpoint0INData.off).take (n + 1) =
        D[s.gEndpoint0INData.off] :: (D.drop (s.gEndpoint0INData.off + 1)).take n := by
      rw [List.drop_eq_getElem_cons hkl, List.take_succ_cons]
    have h3 : ((s.mem Object.ep0InBuffer).set j D[s.gEndpoint0INData.off]).drop (j + 1 + n) =
        (s.mem Object.ep0InBuffer).drop (j + (n + 1)) := by
      have hlt : j < j + 1 + n := by omega
      rw [List.drop_set, if_pos hlt]
      congr 1
      omega
    rw [h1, h2, h3]
    simp [Nat.add_assoc, Nat.add_comm 1 n]

theorem ArmEndpoint0IN_spec (D : List Nat) (o : Object) (hrom : romData o = some D)
    (hD : ∀ x ∈ D, x < 256) (s : State) (k L : Nat)
    (hown : s.ep0In.STAT.UOWN = false) (hp : s.gEndpoint0INData = ⟨o, k⟩)
    (hL : s.gEndpoint0INDataL = L) (hL255 : L ≤ 255) (hk : k + L ≤ D.length)
    (hbuf : (s.mem Object.ep0InBuffer).length = 32) (hout : s.gEndpoint0OUTData = NULL) :
    ControlReadArmed (ArmEndpoint0IN s) D k L := by
  have hcnt : (if s.gEndpoint0INDataL > sizeofEp0Buffer then sizeofEp0Buffer
      else s.gEndpoint0INDataL) = min 32 L := by
    simp only [sizeofEp0Buffer, hL]; split_ifs <;> omega
  simp only [ArmEndpoint0IN, hown, Bool.false_eq_true, if_false, hcnt]
  rw [copy_spec D o hrom hD (min 32 L) _ 0 (by simp only [hp])
    (by simp only [hp]; omega) (by simp only [hbuf]; omega)]
  simp only [hp, hL, List.take_zero, List.nil_append, Nat.zero_add, sizeofEp0Buffer]
  unfold ControlReadArmed
  by_cases hlt : L < 32
  · have hmin : min 32 L = L := by omega
    have hm : min L (D.length - k) = L := by omega
    simp [hlt, hmin, hout, hbuf, BDSTAT.zero, List.take_append_eq_append_take,
      List.length_take, hm]
    omega
  · have hmin : min 32 L = 32 := by omega
    have hlen : ((D.drop k).take 32).length = 32 := by
      simp [List.length_take]; omega
    simp [hlt, hmin, hout, hbuf, BDSTAT.zero, List.take_append_eq_append_take, hlen]
    exact ⟨o, hrom, rfl, by omega⟩

theorem ArmEndpoint0OUT_frame (s : State) :
    (ArmEndpoint0OUT s).ep0In = s.ep0In ∧ (ArmEndpoint0OUT s).mem = s.mem ∧
    (ArmEndpoint0OUT s).gEndpoint0INData = s.gEndpoint0INData ∧
    (ArmEndpoint0OUT s).gEndpoint0INDataL = s.gEndpoint0INDataL ∧
    (ArmEndpoint0OUT s).gEndpoint0OUTData = s.gEndpoint0OUTData ∧
    (ArmEndpoint0OUT s).gPendingAddress = s.gPendingAddress ∧
    (ArmEndpoint0OUT s).UADDR = s.UADDR := by
  simp only [ArmEndpoint0OUT, Error]
  split_ifs <;> exact ⟨rfl, rfl, rfl, rfl, rfl, rfl, rfl⟩

theorem ControlReadArmed_ArmEndpoint0OUT (s : State) (D : List Nat) (k L : Nat)
    (h : ControlReadArmed s D k L) : ControlReadArmed (ArmEndpoint0OUT s) D k L := by
  obtain ⟨e1, e2, e3, e4, e5⟩ := ArmEndpoint0OUT_frame s
  unfold ControlReadArmed at h ⊢
  rw [e1, e2, e3, e4, e5.1]
  exact h

theorem ControlReadArmed_packet (s : State) (D : List Nat) (k L : Nat)
    (h : ControlReadArmed s D k L) :
    ep0InPacket s = some ((D.drop k).take (min 32 L)) := by
  obtain ⟨h1, h2, h3, h4, h5, _⟩ := h
  simp [ep0InPacket, h1, h2, h3, h4, State.contents, romData, h5]

/-- Servicing the completion of an IN transaction during a control read. -/
theorem HandleUSBTransactionEndpoint0_IN (D : List Nat) (hD : ∀ x ∈ D, x < 256)
    (s : State) (k L : Nat) (h : ControlReadArmed s D k L) (hL255 : L ≤ 255)
    (hk : k + L ≤ D.length) :
    if L < 32 then (HandleUSBTransactionEndpoint0 (sieCompleteEp0IN s)).ep0In.STAT.UOWN = false
    else ControlReadArmed (HandleUSBTransactionEndpoint0 (sieCompleteEp0IN s)) D (k + 32)
      (L - 32) := by
  obtain ⟨h1, h2, h3, h4, h5, h6, h7, h8⟩ := h
  have hpid : (s.ep0In.STAT.sieToken 0b1001).PID = 0b1001 := by
    simp [BDSTAT.sieToken, BDSTAT.PID, Nat.testBit]
  have hown : ∀ (b : BDSTAT) (pid : Nat), (b.sieToken pid).UOWN = false := fun _ _ => rfl
  by_cases hlt : L < 32
  · simp only [hlt, if_true] at h8 ⊢
    simp only [HandleUSBTransactionEndpoint0]
    rw [(ArmEndpoint0OUT_frame _).1]
    by_cases hst : s.UEP0.EPSTALL = true <;> by_cases hpa : s.gPendingAddress = 0 <;>
      simp [sieCompleteEp0IN, hpid, HandleEndpoint0IN, hst, hpa, h7, h8, hown]
  · simp only [hlt, if_false] at h8 ⊢
    obtain ⟨o, hrom, hp, hl⟩ := h8
    have hnn : (⟨o, k + 32⟩ : Ptr) ≠ NULL := by
      simp [NULL]
    apply ControlReadArmed_ArmEndpoint0OUT
    by_cases hst : s.UEP0.EPSTALL = true <;> by_cases hpa : s.gPendingAddress = 0 <;>
      simp only [HandleUSBTransactionEndpoint0, sieCompleteEp0IN, hpid, HandleEndpoint0IN, hst,
        hpa, h7, hp, hnn, if_true, if_false, ne_eq, not_true_eq_false, not_false_eq_true,
        Bool.false_eq_true] <;>
      exact ArmEndpoint0IN_spec D o hrom hD _ (k + 32) (L - 32) (hown _ _)
        rfl hl (by omega) (by omega) h6 rfl

theorem controlReadData_unarmed (n : Nat) (s : State) (h : s.ep0In.STAT.UOWN = false) :
    controlReadData n s = [] := by
  induction n with
  | zero => rfl
  | succ n ih => simp [controlReadData, hostIN, ep0InPacket, h, ih]

/-- The data that `n` IN tokens collect from an armed control read. -/
theorem controlReadData_armed (D : List Nat) (hD : ∀ x ∈ D, x < 256) (n : Nat) :
    ∀ (s : State) (k L : Nat), ControlReadArmed s D k L → L ≤ 255 → k + L ≤ D.length →
      controlReadData n s = (D.drop k).take (min (32 * n) L) := by
  induction n with
  | zero => intro s k L _ _ _; simp [controlReadData]
  | succ n ih =>
    intro s k L h hL255 hk
    have hpkt := ControlReadArmed_packet s D k L h
    have hnext := HandleUSBTransactionEndpoint0_IN D hD s k L h hL255 hk
    simp only [controlReadData, hostIN, hpkt]
    by_cases hlt : L < 32
    · simp only [hlt, if_true] at hnext
      rw [controlReadData_unarmed n _ hnext, List.append_nil]
      congr 1
      omega
    · simp only [hlt, if_false] at hnext
      rw [ih _ (k + 32) (L - 32) hnext (by omega) (by omega)]
      have hmin : min 32 L = 32 := by omega
      have hsum : min (32 * (n + 1)) L = 32 + min (32 * n) (L - 32) := by omega
      rw [hmin, hsum, List.take_add, List.drop_drop]

theorem descriptor_bytes (wValue : Nat) (D : List Nat)
    (h : returnedDescriptor wValue = some D) : (∀ x ∈ D, x < 256) ∧ D.length ≤ 48 := by
  unfold returnedDescriptor at h
  split at h <;> first
    | (cases h; exact ⟨by decide, by decide⟩)
    | cases h

/-- What `HandleGetDescriptor` leaves for each descriptor the device returns. -/
theorem HandleGetDescriptor_spec (setup : USBSetup) (D : List Nat) (s : State)
    (h : returnedDescriptor setup.wValue = some D) :
    ∃ o, romData o = some D ∧
      HandleGetDescriptor setup s =
        { s with
          gEndpoint0INData := ⟨o, 0⟩
          gEndpoint0INDataL := min D.length setup.wLength } := by
  have l1 : gDeviceDescriptor.length = 18 := by decide
  have l2 : gConfigurationDescriptor.length = 41 := by decide
  have l3 : gStringDescriptor0.length = 4 := by decide
  have l4 : gStringDescriptorManufacturer.length = 24 := by decide
  have l5 : gStringDescriptorProduct.length = 48 := by decide
  have l6 : gReportDescriptor.length = 27 := by decide
  unfold returnedDescriptor at h
  split at h
  all_goals cases h
  · rename_i h1
    refine ⟨Object.gDeviceDescriptor, rfl, ?_⟩
    simp [HandleGetDescriptor, USBSetup.valueHigh, h1, NULL, l1]
    split_ifs <;> simp <;> omega
  · rename_i h1
    refine ⟨Object.gConfigurationDescriptor, rfl, ?_⟩
    simp [HandleGetDescriptor, USBSetup.valueHigh, h1, NULL, l2]
    split_ifs <;> simp <;> omega
  · rename_i h1 h2
    refine ⟨Object.gStringDescriptor0, rfl, ?_⟩
    simp [HandleGetDescriptor, HandleGetStringDescriptor, USBSetup.valueHigh, USBSetup.valueLow,
      h1, h2, NULL, l3]
    split_ifs <;> simp <;> omega
  · rename_i h1 h2
    refine ⟨Object.gStringDescriptorManufacturer, rfl, ?_⟩
    simp [HandleGetDescriptor, HandleGetStringDescriptor, USBSetup.valueHigh, USBSetup.valueLow,
      h1, h2, NULL, l4]
    split_ifs <;> simp <;> omega
  · rename_i h1 h2
    refine ⟨Object.gStringDescriptorProduct, rfl, ?_⟩
    simp [HandleGetDescriptor, HandleGetStringDescriptor, USBSetup.valueHigh, USBSetup.valueLow,
      h1, h2, NULL, l5]
    split_ifs <;> simp <;> omega
  · rename_i h1
    refine ⟨Object.gReportDescriptor, rfl, ?_⟩
    simp [HandleGetDescriptor, USBSetup.valueHigh, h1, NULL, l6]
    split_ifs <;> simp <;> omega

theorem ControlReadArmed_PKTDIS (s : State) (b : Bool) (D : List Nat) (k L : Nat)
    (h : ControlReadArmed s D k L) : ControlReadArmed { s with PKTDIS := b } D k L := h

theorem rom_ne_NULL (o : Object) (D : List Nat) (k : Nat) (h : romData o = some D) :
    (⟨o, k⟩ : Ptr) ≠ NULL := by
  intro hn
  have ho : o = Object.absolute := congrArg Ptr.obj hn
  rw [ho] at h
  cases h

/-- Servicing the Setup of a GetDescriptor for a descriptor the device returns
arms the first packet of the control read. -/
theorem HandleUSBTransactionEndpoint0_GetDescriptor (s : State) (D : List Nat)
    (hdir : s.USTAT_DIR = false) (hpid : s.ep0Out.STAT.PID = 0b1101)
    (hrt : s.setup.bmRequestType = 0x80 ∨ s.setup.bmRequestType = 0x81)
    (hreq : s.setup.bRequest = 6) (hdesc : returnedDescriptor s.setup.wValue = some D)
    (hbuf : (s.mem Object.ep0InBuffer).length = 32) :
    ControlReadArmed (HandleUSBTransactionEndpoint0 s) D 0 (min D.length s.setup.wLength) := by
  obtain ⟨hD, hlen⟩ := descriptor_bytes _ D hdesc
  simp only [HandleUSBTransactionEndpoint0]
  apply ControlReadArmed_ArmEndpoint0OUT
  have key : ∀ t : State, t.setup = s.setup → t.mem = s.mem →
      ControlReadArmed (HandleEndpoint0SETUP t) D 0 (min D.length s.setup.wLength) := by
    intro t hts htm
    obtain ⟨o, hrom, hG⟩ := HandleGetDescriptor_spec s.setup D
      { t with
        ep0In := { t.ep0In with STAT := { t.ep0In.STAT with UOWN := false } }
        gEndpoint0INData := NULL
        gEndpoint0OUTData := NULL } hdesc
    have hnn := rom_ne_NULL o D 0 hrom
    simp only [HandleEndpoint0SETUP, hts]
    apply ControlReadArmed_PKTDIS
    rcases hrt with hrt | hrt
    · simp only [hrt, HandleEndpoint0ToHostStandardDevice, hreq, hG, hnn, ne_eq,
        not_false_eq_true, if_true]
      exact ArmEndpoint0IN_spec D o hrom hD _ 0 _ rfl rfl rfl (by omega) (by omega)
        (by rw [← hbuf, ← htm]) rfl
    · simp only [hrt, HandleEndpoint0ToHostStandardInterface, hreq, hG, hnn, ne_eq,
        not_false_eq_true, if_true]
      exact ArmEndpoint0IN_spec D o hrom hD _ 0 _ rfl rfl rfl (by omega) (by omega)
        (by rw [← hbuf, ← htm]) rfl
  by_cases hst : s.UEP0.EPSTALL = true
  · simp only [hst, if_true, hdir, hpid]
    exact key _ rfl rfl
  · simp only [hst, if_false, hdir, hpid, Bool.false_eq_true]
    exact key _ rfl rfl

/-! ## Claims on Endpoint 0 -/

/-- C5. GetDescriptor truncation: for every descriptor `D` the device returns
(Device, 18 bytes; Configuration bundle, 41 bytes; String 0, 1, 2; HID
Report), requested with `bmRequestType` `0x80` or `0x81`, and every
`wLength`, the data the host collects with `n` IN tokens after the Setup has
been serviced are the first `min (32 n) (min |D| wLength)` bytes of `D`; with
two or more tokens that is exactly the first `min |D| wLength` bytes, never
more. -/
theorem GetDescriptor_truncation (s : State) (D : List Nat) (n : Nat)
    (hdir : s.USTAT_DIR = false) (hpid : s.ep0Out.STAT.PID = 0b1101)
    (hrt : s.setup.bmRequestType = 0x80 ∨ s.setup.bmRequestType = 0x81)
    (hreq : s.setup.bRequest = 6) (hdesc : returnedDescriptor s.setup.wValue = some D)
    (hbuf : (s.mem Object.ep0InBuffer).length = 32) :
    controlReadData n (HandleUSBTransactionEndpoint0 s) =
      D.take (min (32 * n) (min D.length s.setup.wLength)) ∧
    (2 ≤ n → controlReadData n (HandleUSBTransactionEndpoint0 s) =
      D.take (min D.length s.setup.wLength)) ∧
    (2 ≤ n → (controlReadData n (HandleUSBTransactionEndpoint0 s)).length =
      min D.length s.setup.wLength) ∧
    gDeviceDescriptor.length = 18 ∧ gConfigurationDescriptor.length = 41 := by
  obtain ⟨hD, hlen⟩ := descriptor_bytes _ D hdesc
  have harmed := HandleUSBTransactionEndpoint0_GetDescriptor s D hdir hpid hrt hreq hdesc hbuf
  have hdata := controlReadData_armed D hD n _ 0 _ harmed (by omega) (by omega)
  rw [List.drop_zero] at hdata
  refine ⟨hdata, ?_, ?_, by decide, by decide⟩
  · intro hn
    rw [hdata]
    congr 1
    omega
  · intro hn
    rw [hdata, List.length_take]
    omega

/-- C5 for GetDescriptor(Configuration) with `wLength = 9`. -/
theorem GetDescriptor_truncation_witness :
    ((sieCompleteEp0SETUP [0x80, 6, 0, 2, 0, 0, 9, 0] State.initial).USTAT_DIR = false ∧
      (sieCompleteEp0SETUP [0x80, 6, 0, 2, 0, 0, 9, 0] State.initial).ep0Out.STAT.PID = 0b1101 ∧
      (sieCompleteEp0SETUP [0x80, 6, 0, 2, 0, 0, 9, 0] State.initial).setup.bmRequestType
        = 0x80 ∧
      (sieCompleteEp0SETUP [0x80, 6, 0, 2, 0, 0, 9, 0] State.initial).setup.bRequest = 6 ∧
      returnedDescriptor (sieCompleteEp0SETUP [0x80, 6, 0, 2, 0, 0, 9, 0] State.initial).setup.wValue
        = some gConfigurationDescriptor ∧
      ((sieCompleteEp0SETUP [0x80, 6, 0, 2, 0, 0, 9, 0] State.initial).mem
        Object.ep0InBuffer).length = 32) ∧
    controlReadData 2 (HandleUSBTransactionEndpoint0
        (sieCompleteEp0SETUP [0x80, 6, 0, 2, 0, 0, 9, 0] State.initial)) =
      gConfigurationDescriptor.take (min gConfigurationDescriptor.length
        (sieCompleteEp0SETUP [0x80, 6, 0, 2, 0, 0, 9, 0] State.initial).setup.wLength) :=
  ⟨⟨rfl, by decide, by decide, by decide, by decide, by decide⟩,
    (GetDescriptor_truncation (sieCompleteEp0SETUP [0x80, 6, 0, 2, 0, 0, 9, 0] State.initial)
      gConfigurationDescriptor 2 rfl (by decide) (Or.inl (by decide)) (by decide) (by decide)
      (by decide)).2.1 (by decide)⟩

theorem sieToken_IN (b : BDSTAT) :
    (b.sieToken 0b1001).PID = 0b1001 ∧ (b.sieToken 0b1001).UOWN = false := by
  simp [BDSTAT.sieToken, BDSTAT.PID, Nat.testBit]

/-- With no control transfer data pending in either direction, servicing an IN
completion arms nothing. -/
theorem HandleUSBTransactionEndpoint0_IN_idle (s : State)
    (hin : s.gEndpoint0INData = NULL) (hout : s.gEndpoint0OUTData = NULL) :
    (HandleUSBTransactionEndpoint0 (sieCompleteEp0IN s)).ep0In.STAT.UOWN = false ∧
    (HandleUSBTransactionEndpoint0 (sieCompleteEp0IN s)).gEndpoint0INData = NULL ∧
    (HandleUSBTransactionEndpoint0 (sieCompleteEp0IN s)).gEndpoint0OUTData = NULL := by
  obtain ⟨hpid, hown⟩ := sieToken_IN s.ep0In.STAT
  simp only [HandleUSBTransactionEndpoint0]
  refine ⟨?_, ?_, ?_⟩
  · rw [(ArmEndpoint0OUT_frame _).1]
    by_cases hst : s.UEP0.EPSTALL = true <;> by_cases hpa : s.gPendingAddress = 0 <;>
      simp [sieCompleteEp0IN, hpid, HandleEndpoint0IN, hst, hpa, hin, hout, hown]
  · rw [(ArmEndpoint0OUT_frame _).2.2.1]
    by_cases hst : s.UEP0.EPSTALL = true <;> by_cases hpa : s.gPendingAddress = 0 <;>
      simp [sieCompleteEp0IN, hpid, HandleEndpoint0IN, hst, hpa, hin, hout, hown]
  · rw [(ArmEndpoint0OUT_frame _).2.2.2.2.1]
    by_cases hst : s.UEP0.EPSTALL = true <;> by_cases hpa : s.gPendingAddress = 0 <;>
      simp [sieCompleteEp0IN, hpid, HandleEndpoint0IN, hst, hpa, hin, hout, hown]

theorem afterInCompletions_idle (n : Nat) :
    ∀ s : State, s.gEndpoint0INData = NULL → s.gEndpoint0OUTData = NULL →
      ep0InPacket s = none →
      (afterInCompletions n s).gEndpoint0INData = NULL ∧
      ep0InPacket (afterInCompletions n s) = none := by
  induction n with
  | zero => intro s hin _ hpkt; exact ⟨hin, hpkt⟩
  | succ n ih =>
    intro s hin hout _
    obtain ⟨h1, h2, h3⟩ := HandleUSBTransactionEndpoint0_IN_idle s hin hout
    exact ih _ h2 h3 (by simp [ep0InPacket, h1])

/-- The state that servicing a Setup of GetDescriptor(DeviceQualifier) leaves. -/
theorem HandleUSBTransactionEndpoint0_DeviceQualifier (s : State)
    (hdir : s.USTAT_DIR = false) (hpid : s.ep0Out.STAT.PID = 0b1101)
    (hrt : s.setup.bmRequestType = 0x80 ∨ s.setup.bmRequestType = 0x81)
    (hreq : s.setup.bRequest = 6) (htype : s.setup.valueHigh = 6) :
    (HandleUSBTransactionEndpoint0 s).ep0In.STAT =
      { BDSTAT.zero with BSTALL := true, UOWN := true } ∧
    (HandleUSBTransactionEndpoint0 s).gEndpoint0INData = NULL ∧
    (HandleUSBTransactionEndpoint0 s).gEndpoint0OUTData = NULL := by
  have key : ∀ t : State, t.setup = s.setup →
      (HandleEndpoint0SETUP t).ep0In.STAT = { BDSTAT.zero with BSTALL := true, UOWN := true } ∧
      (HandleEndpoint0SETUP t).gEndpoint0INData = NULL ∧
      (HandleEndpoint0SETUP t).gEndpoint0OUTData = NULL := by
    intro t hts
    rcases hrt with hrt | hrt
    · simp [HandleEndpoint0SETUP, hts, hrt, HandleEndpoint0ToHostStandardDevice, hreq,
        HandleGetDescriptor, htype, ArmEndpoint0INStall]
    · simp [HandleEndpoint0SETUP, hts, hrt, HandleEndpoint0ToHostStandardInterface, hreq,
        HandleGetDescriptor, htype, ArmEndpoint0INStall]
  simp only [HandleUSBTransactionEndpoint0]
  by_cases hst : s.UEP0.EPSTALL = true
  · simp only [hst, if_true, hdir, hpid]
    rw [(ArmEndpoint0OUT_frame _).1, (ArmEndpoint0OUT_frame _).2.2.1,
      (ArmEndpoint0OUT_frame _).2.2.2.2.1]
    exact key _ rfl
  · simp only [hst, if_false, hdir, hpid, Bool.false_eq_true]
    rw [(ArmEndpoint0OUT_frame _).1, (ArmEndpoint0OUT_frame _).2.2.1,
      (ArmEndpoint0OUT_frame _).2.2.2.2.1]
    exact key _ rfl

/-- C6. For every prior state and every `wLength`, servicing a Setup whose
request is GetDescriptor with descriptor type DeviceQualifier (`bmRequestType`
`0x80` or `0x81`) leaves Endpoint 0 IN handed to the hardware with the stall
bit set (`BSTALL = 1`, `UOWN = 1`) and no control-read data pending
(`gEndpoint0INData` is `NULL`): no data packet is armed then, nor after any
number of later IN completions, and the host collects no data. -/
theorem GetDescriptor_DeviceQualifier_stalls (s : State) (n : Nat)
    (hdir : s.USTAT_DIR = false) (hpid : s.ep0Out.STAT.PID = 0b1101)
    (hrt : s.setup.bmRequestType = 0x80 ∨ s.setup.bmRequestType = 0x81)
    (hreq : s.setup.bRequest = 6) (htype : s.setup.valueHigh = 6) :
    (HandleUSBTransactionEndpoint0 s).ep0In.STAT.BSTALL = true ∧
    (HandleUSBTransactionEndpoint0 s).ep0In.STAT.UOWN = true ∧
    (HandleUSBTransactionEndpoint0 s).gEndpoint0INData = NULL ∧
    ep0InPacket (HandleUSBTransactionEndpoint0 s) = none ∧
    (afterInCompletions n (HandleUSBTransactionEndpoint0 s)).gEndpoint0INData = NULL ∧
    ep0InPacket (afterInCompletions n (HandleUSBTransactionEndpoint0 s)) = none ∧
    controlReadData n (HandleUSBTransactionEndpoint0 s) = [] := by
  obtain ⟨hstat, hin, hout⟩ :=
    HandleUSBTransactionEndpoint0_DeviceQualifier s hdir hpid hrt hreq htype
  have hpkt : ep0InPacket (HandleUSBTransactionEndpoint0 s) = none := by
    simp [ep0InPacket, hstat]
  obtain ⟨h1, h2⟩ := afterInCompletions_idle n _ hin hout hpkt
  refine ⟨by rw [hstat], by rw [hstat], hin, hpkt, h1, h2, ?_⟩
  have hnak : ∀ m : Nat, ∀ t : State, ep0InPacket t = none → controlReadData m t = [] := by
    intro m
    induction m with
    | zero => intro t _; rfl
    | succ m ih => intro t ht; simp [controlReadData, hostIN, ht, ih]
  exact hnak n _ hpkt

/-- C6 for a DeviceQualifier request arriving while a control read of the
configuration descriptor is unfinished. -/
theorem GetDescriptor_DeviceQualifier_stalls_witness :
    ((sieCompleteEp0SETUP [0x80, 6, 0, 6, 0, 0, 10, 0]
        (HandleUSBTransactionEndpoint0
          (sieCompleteEp0SETUP [0x80, 6, 0, 2, 0, 0, 41, 0] State.initial))).USTAT_DIR = false ∧
      (sieCompleteEp0SETUP [0x80, 6, 0, 6, 0, 0, 10, 0]
        (HandleUSBTransactionEndpoint0
          (sieCompleteEp0SETUP [0x80, 6, 0, 2, 0, 0, 41, 0] State.initial))).ep0Out.STAT.PID
        = 0b1101 ∧
      (sieCompleteEp0SETUP [0x80, 6, 0, 6, 0, 0, 10, 0]
        (HandleUSBTransactionEndpoint0
          (sieCompleteEp0SETUP [0x80, 6, 0, 2, 0, 0, 41, 0] State.initial))).setup.bmRequestType
        = 0x80 ∧
      (sieCompleteEp0SETUP [0x80, 6, 0, 6, 0, 0, 10, 0]
        (HandleUSBTransactionEndpoint0
          (sieCompleteEp0SETUP [0x80, 6, 0, 2, 0, 0, 41, 0] State.initial))).setup.bRequest = 6 ∧
      (sieCompleteEp0SETUP [0x80, 6, 0, 6, 0, 0, 10, 0]
        (HandleUSBTransactionEndpoint0
          (sieCompleteEp0SETUP [0x80, 6, 0, 2, 0, 0, 41, 0] State.initial))).setup.valueHigh
        = 6) ∧
    (HandleUSBTransactionEndpoint0 (sieCompleteEp0SETUP [0x80, 6, 0, 6, 0, 0, 10, 0]
      (HandleUSBTransactionEndpoint0
        (sieCompleteEp0SETUP [0x80, 6, 0, 2, 0, 0, 41, 0] State.initial)))).ep0In.STAT.BSTALL
      = true ∧
    (HandleUSBTransactionEndpoint0 (sieCompleteEp0SETUP [0x80, 6, 0, 6, 0, 0, 10, 0]
      (HandleUSBTransactionEndpoint0
        (sieCompleteEp0SETUP [0x80, 6, 0, 2, 0, 0, 41, 0] State.initial)))).gEndpoint0INData
      = NULL :=
  ⟨⟨rfl, by decide, by decide, by decide, by decide⟩,
    (GetDescriptor_DeviceQualifier_stalls (sieCompleteEp0SETUP [0x80, 6, 0, 6, 0, 0, 10, 0]
      (HandleUSBTransactionEndpoint0
        (sieCompleteEp0SETUP [0x80, 6, 0, 2, 0, 0, 41, 0] State.initial))) 3 rfl (by decide)
      (Or.inl (by decide)) (by decide) (by decide)).1,
    (GetDescriptor_DeviceQualifier_stalls (sieCompleteEp0SETUP [0x80, 6, 0, 6, 0, 0, 10, 0]
      (HandleUSBTransactionEndpoint0
        (sieCompleteEp0SETUP [0x80, 6, 0, 2, 0, 0, 41, 0] State.initial))) 3 rfl (by decide)
      (Or.inl (by decide)) (by decide) (by decide)).2.2.1⟩

/-- The state that servicing the Setup of a well-formed SetAddress leaves. -/
theorem HandleUSBTransactionEndpoint0_SetAddress (s : State) (a : Nat) (ha : a ≤ 127)
    (hdir : s.USTAT_DIR = false) (hpid : s.ep0Out.STAT.PID = 0b1101)
    (hrt : s.setup.bmRequestType = 0x00) (hreq : s.setup.bRequest = 5)
    (hval : s.setup.wValue = a) (hidx : s.setup.wIndex = 0) (hlen : s.setup.wLength = 0) :
    (HandleUSBTransactionEndpoint0 s).UADDR = s.UADDR ∧
    (HandleUSBTransactionEndpoint0 s).gPendingAddress = a ∧
    (HandleUSBTransactionEndpoint0 s).ep0In =
      ⟨{ BDSTAT.zero with DTS := true, DTSEN := true, UOWN := true }, 0,
        ⟨Object.ep0InBuffer, 0⟩⟩ ∧
    (HandleUSBTransactionEndpoint0 s).gEndpoint0INData = NULL ∧
    (HandleUSBTransactionEndpoint0 s).gEndpoint0OUTData = NULL := by
  have hmod : a % 256 = a := Nat.mod_eq_of_lt (by omega)
  have hna : ¬ 128 ≤ a := by omega
  have key : ∀ t : State, t.setup = s.setup →
      (HandleEndpoint0SETUP t).UADDR = t.UADDR ∧
      (HandleEndpoint0SETUP t).gPendingAddress = a ∧
      (HandleEndpoint0SETUP t).ep0In =
        ⟨{ BDSTAT.zero with DTS := true, DTSEN := true, UOWN := true }, 0,
          ⟨Object.ep0InBuffer, 0⟩⟩ ∧
      (HandleEndpoint0SETUP t).gEndpoint0INData = NULL ∧
      (HandleEndpoint0SETUP t).gEndpoint0OUTData = NULL := by
    intro t hts
    simp [HandleEndpoint0SETUP, hts, hrt, HandleEndpoint0ToDeviceStandardDevice, hreq,
      HandleSetAddress, hval, hidx, hlen, hna, hmod, ArmEndpoint0INStatus, BDSTAT.zero]
  simp only [HandleUSBTransactionEndpoint0]
  by_cases hst : s.UEP0.EPSTALL = true
  · simp only [hst, if_true, hdir, hpid]
    rw [(ArmEndpoint0OUT_frame _).1, (ArmEndpoint0OUT_frame _).2.2.1,
      (ArmEndpoint0OUT_frame _).2.2.2.2.1, (ArmEndpoint0OUT_frame _).2.2.2.2.2.1,
      (ArmEndpoint0OUT_frame _).2.2.2.2.2.2]
    exact key _ rfl
  · simp only [hst, if_false, hdir, hpid, Bool.false_eq_true]
    rw [(ArmEndpoint0OUT_frame _).1, (ArmEndpoint0OUT_frame _).2.2.1,
      (ArmEndpoint0OUT_frame _).2.2.2.2.1, (ArmEndpoint0OUT_frame _).2.2.2.2.2.1,
      (ArmEndpoint0OUT_frame _).2.2.2.2.2.2]
    exact key _ rfl

/-- C7. Deferred SetAddress: for every address `a` with `1 ≤ a ≤ 127`,
servicing the Setup of SetAddress(`a`) (`wIndex = 0`, `wLength = 0`) leaves
`UADDR` unchanged, records `a` as pending and arms a zero-length DATA1 Status
IN; servicing the completion of that IN transaction then sets `UADDR` to `a`
and clears the pending address. -/
theorem SetAddress_deferred (s : State) (a : Nat) (ha1 : 1 ≤ a) (ha : a ≤ 127)
    (hdir : s.USTAT_DIR = false) (hpid : s.ep0Out.STAT.PID = 0b1101)
    (hrt : s.setup.bmRequestType = 0x00) (hreq : s.setup.bRequest = 5)
    (hval : s.setup.wValue = a) (hidx : s.setup.wIndex = 0) (hlen : s.setup.wLength = 0) :
    (HandleUSBTransactionEndpoint0 s).UADDR = s.UADDR ∧
    (HandleUSBTransactionEndpoint0 s).gPendingAddress = a ∧
    (HandleUSBTransactionEndpoint0 s).ep0In.STAT.UOWN = true ∧
    (HandleUSBTransactionEndpoint0 s).ep0In.STAT.BSTALL = false ∧
    (HandleUSBTransactionEndpoint0 s).ep0In.STAT.DTS = true ∧
    (HandleUSBTransactionEndpoint0 s).ep0In.STAT.DTSEN = true ∧
    (HandleUSBTransactionEndpoint0 s).ep0In.CNT = 0 ∧
    ep0InPacket (HandleUSBTransactionEndpoint0 s) = some [] ∧
    (HandleUSBTransactionEndpoint0
      (sieCompleteEp0IN (HandleUSBTransactionEndpoint0 s))).UADDR = a ∧
    (HandleUSBTransactionEndpoint0
      (sieCompleteEp0IN (HandleUSBTransactionEndpoint0 s))).gPendingAddress = 0 := by
  obtain ⟨h1, h2, h3, h4, h5⟩ :=
    HandleUSBTransactionEndpoint0_SetAddress s a ha hdir hpid hrt hreq hval hidx hlen
  obtain ⟨hpidIn, hown⟩ := sieToken_IN (HandleUSBTransactionEndpoint0 s).ep0In.STAT
  have hne : ¬ a = 0 := by omega
  refine ⟨h1, h2, by rw [h3], by rw [h3]; rfl, by rw [h3], by rw [h3], by rw [h3], ?_, ?_, ?_⟩
  · simp [ep0InPacket, h3, BDSTAT.zero]
  · generalize HandleUSBTransactionEndpoint0 s = s1 at h2 h4 h5 hpidIn hown
    simp only [HandleUSBTransactionEndpoint0]
    rw [(ArmEndpoint0OUT_frame _).2.2.2.2.2.2]
    by_cases hst : s1.UEP0.EPSTALL = true <;>
      simp [sieCompleteEp0IN, hpidIn, HandleEndpoint0IN, hst, h2, h4, h5, hne]
  · generalize HandleUSBTransactionEndpoint0 s = s1 at h2 h4 h5 hpidIn hown
    simp only [HandleUSBTransactionEndpoint0]
    rw [(ArmEndpoint0OUT_frame _).2.2.2.2.2.1]
    by_cases hst : s1.UEP0.EPSTALL = true <;>
      simp [sieCompleteEp0IN, hpidIn, HandleEndpoint0IN, hst, h2, h4, h5, hne]

/-- C7 for SetAddress(5) from the initial state. -/
theorem SetAddress_deferred_witness :
    (1 ≤ 5 ∧ 5 ≤ 127 ∧
      (sieCompleteEp0SETUP [0x00, 5, 5, 0, 0, 0, 0, 0] State.initial).USTAT_DIR = false ∧
      (sieCompleteEp0SETUP [0x00, 5, 5, 0, 0, 0, 0, 0] State.initial).ep0Out.STAT.PID = 0b1101 ∧
      (sieCompleteEp0SETUP [0x00, 5, 5, 0, 0, 0, 0, 0] State.initial).setup.bmRequestType = 0 ∧
      (sieCompleteEp0SETUP [0x00, 5, 5, 0, 0, 0, 0, 0] State.initial).setup.bRequest = 5 ∧
      (sieCompleteEp0SETUP [0x00, 5, 5, 0, 0, 0, 0, 0] State.initial).setup.wValue = 5 ∧
      (sieCompleteEp0SETUP [0x00, 5, 5, 0, 0, 0, 0, 0] State.initial).setup.wIndex = 0 ∧
      (sieCompleteEp0SETUP [0x00, 5, 5, 0, 0, 0, 0, 0] State.initial).setup.wLength = 0) ∧
    (HandleUSBTransactionEndpoint0
      (sieCompleteEp0SETUP [0x00, 5, 5, 0, 0, 0, 0, 0] State.initial)).UADDR = 0 ∧
    (HandleUSBTransactionEndpoint0 (sieCompleteEp0IN (HandleUSBTransactionEndpoint0
      (sieCompleteEp0SETUP [0x00, 5, 5, 0, 0, 0, 0, 0] State.initial)))).UADDR = 5 :=
  ⟨⟨by decide, by decide, rfl, by decide, by decide, by decide, by decide, by decide,
      by decide⟩,
    (SetAddress_deferred (sieCompleteEp0SETUP [0x00, 5, 5, 0, 0, 0, 0, 0] State.initial) 5
      (by decide) (by decide) rfl (by decide) (by decide) (by decide) (by decide) (by decide)
      (by decide)).1,
    (SetAddress_deferred (sieCompleteEp0SETUP [0x00, 5, 5, 0, 0, 0, 0, 0] State.initial) 5
      (by decide) (by decide) rfl (by decide) (by decide) (by decide) (by decide) (by decide)
      (by decide)).2.2.2.2.2.2.2.2.1⟩

/-! ## The key-press path -/

theorem SPIStartExchange_ep1In (data : Ptr) (dataL : Nat) (cb : Option FnPtr) (s : State) :
    (SPIStartExchange data dataL cb s).ep1In = s.ep1In ∧
    (SPIStartExchange data dataL cb s).gToggleIN = s.gToggleIN := by
  simp only [SPIStartExchange, writeLATA5, writeSSP1BUF, Error]
  split_ifs <;> exact ⟨rfl, rfl⟩

theorem ArmEndpoint1IN_spec (s : State) :
    (ArmEndpoint1IN s).ep1In =
      ⟨{ BDSTAT.zero with DTS := decide (s.gToggleIN % 2 = 1), DTSEN := true, UOWN := true }, 5,
        ⟨Object.ep1InBuffer, 0⟩⟩ ∧
    (ArmEndpoint1IN s).gValue0 = s.gValue0 ∧ (ArmEndpoint1IN s).gValue1 = s.gValue1 := by
  simp only [ArmEndpoint1IN, Error]
  split_ifs <;> exact ⟨rfl, rfl, rfl⟩

theorem SendValues_spec (value0 value1 : Nat) (s : State)
    (h0 : value0 < 2 ^ 20) (h1 : value1 < 2 ^ 20) :
    (SendValues value0 value1 s).gValue0 = s.gValue0 ∧
    (SendValues value0 value1 s).gValue1 = s.gValue1 ∧
    (SendValues value0 value1 s).mem Object.ep1InBuffer =
      [(value0 + 2 ^ 20 * value1) % 256, (value0 + 2 ^ 20 * value1) / 2 ^ 8 % 256,
       (value0 + 2 ^ 20 * value1) / 2 ^ 16 % 256, (value0 + 2 ^ 20 * value1) / 2 ^ 24 % 256,
       (value0 + 2 ^ 20 * value1) / 2 ^ 32 % 256] ∧
    (SendValues value0 value1 s).ep1In.STAT.UOWN = true ∧
    (SendValues value0 value1 s).ep1In.STAT.BSTALL = false ∧
    (SendValues value0 value1 s).ep1In.CNT = 5 ∧
    (SendValues value0 value1 s).ep1In.ADR = ⟨Object.ep1InBuffer, 0⟩ := by
  have hbytes := SendValues_ep1InBuffer value0 value1 s
  simp only [report_bit_layout_bytes value0 value1 ⟨0, 0, 0, 0, 0⟩ h0 h1, Nat.mod_mod] at hbytes
  refine ⟨?_, ?_, hbytes, ?_, ?_, ?_, ?_⟩
  · simp only [SendValues, (ArmEndpoint1IN_spec _).2.1]; rfl
  · simp only [SendValues, (ArmEndpoint1IN_spec _).2.2]; rfl
  all_goals simp only [SendValues, (ArmEndpoint1IN_spec _).1, BDSTAT.zero]

/-- What the completion callback of the debounce read does to the stored
values and to Endpoint 1 IN. -/
theorem ReadDebouncedKeyA_spec (s : State) (a b : Nat) (ha : a < 2 ^ 20) (hb : b < 2 ^ 20)
    (hv0 : s.gValue0 = a) (hv1 : s.gValue1 = b) :
    (ReadDebouncedKeyA s).gValue0 = b ∧ (ReadDebouncedKeyA s).gValue1 = a ∧
    (ReadDebouncedKeyA s).mem Object.ep1InBuffer =
      [(b + 2 ^ 20 * a) % 256, (b + 2 ^ 20 * a) / 2 ^ 8 % 256, (b + 2 ^ 20 * a) / 2 ^ 16 % 256,
       (b + 2 ^ 20 * a) / 2 ^ 24 % 256, (b + 2 ^ 20 * a) / 2 ^ 32 % 256] ∧
    (ReadDebouncedKeyA s).ep1In.STAT.UOWN = true ∧
    (ReadDebouncedKeyA s).ep1In.STAT.BSTALL = false ∧
    (ReadDebouncedKeyA s).ep1In.CNT = 5 ∧
    (ReadDebouncedKeyA s).ep1In.ADR = ⟨Object.ep1InBuffer, 0⟩ := by
  have eb : b % 2 ^ 24 = b := Nat.mod_eq_of_lt (by omega)
  have ea : a % 2 ^ 24 = a := Nat.mod_eq_of_lt (by omega)
  obtain ⟨g0, g1⟩ := DisplayValues_gValue s.gValue1 s.gValue0 s
  rw [hv1, eb] at g0
  rw [hv0, ea] at g1
  rw [hv0] at g0
  rw [hv1] at g1
  obtain ⟨e1, e2, e3⟩ := SendValues_spec b a (DisplayValues b a s) hb ha
  simp only [ReadDebouncedKeyA, hv0, hv1, g0, g1]
  exact ⟨e1.trans g0, e2.trans g1, e3⟩

/-- C8. Key-press swap: for every displayed pair `(a, b)` with `a, b < 2^20`,
starting with the SPI engine idle, after `ControlsServiceInterrupt` followed
by the two SPI byte-complete events of the debounce read, for any bytes
`r0, r1` read back from the chip, the stored values are `(b, a)`, the Endpoint
1 IN buffer holds the little-endian bytes of `b + 2^20 a`, the 5-byte report
encoding `(b, a)`, and Endpoint 1 IN is armed (`UOWN = 1`, count 5). -/
theorem key_press_swap (s : State) (a b r0 r1 : Nat) (ha : a < 2 ^ 20) (hb : b < 2 ^ 20)
    (hidle : s.gSPIData = NULL) (hv0 : s.gValue0 = a) (hv1 : s.gValue1 = b) :
    (spiBytesComplete call (ControlsServiceInterrupt s) [r0, r1]).gValue0 = b ∧
    (spiBytesComplete call (ControlsServiceInterrupt s) [r0, r1]).gValue1 = a ∧
    (spiBytesComplete call (ControlsServiceInterrupt s) [r0, r1]).mem Object.ep1InBuffer =
      [(b + 2 ^ 20 * a) % 256, (b + 2 ^ 20 * a) / 2 ^ 8 % 256, (b + 2 ^ 20 * a) / 2 ^ 16 % 256,
       (b + 2 ^ 20 * a) / 2 ^ 24 % 256, (b + 2 ^ 20 * a) / 2 ^ 32 % 256] ∧
    (spiBytesComplete call (ControlsServiceInterrupt s) [r0, r1]).ep1In.STAT.UOWN = true ∧
    (spiBytesComplete call (ControlsServiceInterrupt s) [r0, r1]).ep1In.STAT.BSTALL = false ∧
    (spiBytesComplete call (ControlsServiceInterrupt s) [r0, r1]).ep1In.CNT = 5 ∧
    (spiBytesComplete call (ControlsServiceInterrupt s) [r0, r1]).ep1In.ADR =
      ⟨Object.ep1InBuffer, 0⟩ := by
  obtain ⟨rx, tx, hrun⟩ := exchange_run call Object.gReadKeyADebounced
    (some FnPtr.ReadDebouncedKeyA)
    (s.assign Object.gReadKeyADebounced [0x80 ||| (kRegisterKeyAMaskDebounce + 0), 0])
    [r0, r1] rfl hidle (by simp) (by simp) (by simp [State.assign])
  have hcsi : ControlsServiceInterrupt s =
      SPIStartExchange ⟨Object.gReadKeyADebounced, 0⟩ [r0, r1].length
        (some FnPtr.ReadDebouncedKeyA)
        (s.assign Object.gReadKeyADebounced [0x80 ||| (kRegisterKeyAMaskDebounce + 0), 0]) := rfl
  rw [hcsi, hrun]
  simp only [notifyCaller, call]
  apply ReadDebouncedKeyA_spec _ a b ha hb
  · by_cases hbf : s.BF = true <;> simp [State.assign, Error, hbf, hv0]
  · by_cases hbf : s.BF = true <;> simp [State.assign, Error, hbf, hv1]

/-- C8 for the displayed pair `(123, 456)`. -/
theorem key_press_swap_witness :
    (123 < 2 ^ 20 ∧ 456 < 2 ^ 20 ∧
      ({ State.initial with gValue0 := 123, gValue1 := 456 } : State).gSPIData = NULL ∧
      ({ State.initial with gValue0 := 123, gValue1 := 456 } : State).gValue0 = 123 ∧
      ({ State.initial with gValue0 := 123, gValue1 := 456 } : State).gValue1 = 456) ∧
    (spiBytesComplete call
      (ControlsServiceInterrupt { State.initial with gValue0 := 123, gValue1 := 456 })
      [0, 1]).gValue0 = 456 ∧
    (spiBytesComplete call
      (ControlsServiceInterrupt { State.initial with gValue0 := 123, gValue1 := 456 })
      [0, 1]).gValue1 = 123 :=
  ⟨⟨by decide, by decide, rfl, rfl, rfl⟩,
    (key_press_swap { State.initial with gValue0 := 123, gValue1 := 456 } 123 456 0 1
      (by decide) (by decide) rfl rfl rfl).1,
    (key_press_swap { State.initial with gValue0 := 123, gValue1 := 456 } 123 456 0 1
      (by decide) (by decide) rfl rfl rfl).2.1⟩

/-! ## Further claims on the SPI engine -/

theorem errorCount_append (l1 l2 : List Event) :
    errorCount (l1 ++ l2) = errorCount l1 + errorCount l2 := by
  simp [errorCount, List.count_append]

theorem SendValues_frame (value0 value1 : Nat) (s : State) :
    (SendValues value0 value1 s).gSPIData = s.gSPIData ∧
    (SendValues value0 value1 s).gSPIDataL = s.gSPIDataL ∧
    (SendValues value0 value1 s).gSPICallback = s.gSPICallback ∧
    (SendValues value0 value1 s).LATA5 = s.LATA5 ∧
    (SendValues value0 value1 s).log =
      s.log ++ (if s.ep1In.STAT.UOWN = true then [Event.error] else []) := by
  simp only [SendValues, ArmEndpoint1IN, State.assign, Error]
  by_cases h : s.ep1In.STAT.UOWN = true <;> simp [h]

theorem DisplayValues_ep1In (v0 v1 : Nat) (s : State) :
    (DisplayValues v0 v1 s).ep1In = s.ep1In := by
  simp only [DisplayValues, (SPIStartExchange_ep1In _ _ _ _).1]
  rfl

/-- The display exchange that `DisplayValues` starts on an idle engine. -/
theorem DisplayValues_idle (v0 v1 : Nat) (s : State) (hidle : s.gSPIData = NULL) :
    (DisplayValues v0 v1 s).gSPIData = ⟨Object.DisplayValues_buffer, 0⟩ ∧
    (DisplayValues v0 v1 s).gSPIDataL = 24 ∧
    (DisplayValues v0 v1 s).gSPICallback = none ∧
    (DisplayValues v0 v1 s).LATA5 = false ∧
    (DisplayValues v0 v1 s).log =
      s.log ++ (if s.BF = true then [Event.error] else []) ++
        [Event.chipSelect false, Event.transmit 0x25] := by
  have hstart : ∀ t : State, t.gSPIData = NULL →
      SPIStartExchange ⟨Object.DisplayValues_buffer, 0⟩ 24 none t =
        { (if t.BF then Error t else t) with
          gSPICallback := none
          gSPIData := ⟨Object.DisplayValues_buffer, 0⟩
          gSPIDataL := 24
          LATA5 := false
          SSP1BUF_out := t.load ⟨Object.DisplayValues_buffer, 0⟩
          log := (if t.BF then Error t else t).log ++
            [Event.chipSelect false, Event.transmit (t.load ⟨Object.DisplayValues_buffer, 0⟩)] } :=
    fun t ht => SPIStartExchange_idle _ 24 none t ht (by decide) (by decide)
  simp only [DisplayValues]
  rw [hstart _ (show (({ ({ s with gValue0 := v0 % 2 ^ 24 } : State) with
    gValue1 := v1 % 2 ^ 24 } : State).assign Object.DisplayValues_buffer
      (DisplayValues.buffer v0 v1)).gSPIData = NULL from hidle)]
  by_cases hbf : s.BF = true <;>
    simp [hbf, State.assign, Error, State.load, State.contents, romData, DisplayValues.buffer,
      kRegisterDigit0Plane0]

/-- The engine as the callback `ReadDebouncedKeyA` leaves it. -/
theorem ReadDebouncedKeyA_engine (s : State) (hidle : s.gSPIData = NULL) :
    (ReadDebouncedKeyA s).gSPIData = ⟨Object.DisplayValues_buffer, 0⟩ ∧
    (ReadDebouncedKeyA s).gSPIDataL = 24 ∧
    (ReadDebouncedKeyA s).gSPICallback = none ∧
    (ReadDebouncedKeyA s).LATA5 = false ∧
    (ReadDebouncedKeyA s).log =
      s.log ++ (if s.BF = true then [Event.error] else []) ++
        [Event.chipSelect false, Event.transmit 0x25] ++
        (if s.ep1In.STAT.UOWN = true then [Event.error] else []) := by
  obtain ⟨d1, d2, d3, d4, d5⟩ := DisplayValues_idle s.gValue1 s.gValue0 s hidle
  have d6 := DisplayValues_ep1In s.gValue1 s.gValue0 s
  simp only [ReadDebouncedKeyA]
  obtain ⟨f1, f2, f3, f4, f5⟩ := SendValues_frame
    (DisplayValues s.gValue1 s.gValue0 s).gValue0 (DisplayValues s.gValue1 s.gValue0 s).gValue1
    (DisplayValues s.gValue1 s.gValue0 s)
  rw [f1, f2, f3, f4, f5, d1, d2, d3, d4, d5, d6]
  exact ⟨rfl, rfl, rfl, rfl, rfl⟩

/-- C11. Whenever `SPIServiceInterrupt` invokes the completion callback (the
decremented length is 0 and a callback is stored), the state `s'` it hands to
the callback has `gSPIData = NULL`, `gSPICallback = NULL`, chip-select
deasserted and no unread byte; so a callback whose body is an
`SPIStartExchange` of nonzero length raises no error and leaves its
transaction active when `SPIServiceInterrupt` returns, and so does the
firmware's own callback `ReadDebouncedKeyA`, which leaves the 24-byte display
exchange active. -/
theorem callback_runs_on_free_engine (s : State) (cb : FnPtr)
    (hL : (s.gSPIDataL + 255) % 256 = 0) (hcb : s.gSPICallback = some cb) :
    ∃ s', (∀ code, SPIServiceInterrupt code s = code cb s') ∧
      s'.gSPIData = NULL ∧ s'.gSPICallback = none ∧ s'.LATA5 = true ∧ s'.BF = false ∧
      (∀ (code : FnPtr → State → State) (data : Ptr) (dataL : Nat) (cb2 : Option FnPtr),
        code cb = SPIStartExchange data dataL cb2 → 1 ≤ dataL → dataL ≤ 255 →
        (SPIServiceInterrupt code s).gSPIData = data ∧
        (SPIServiceInterrupt code s).gSPIDataL = dataL ∧
        (SPIServiceInterrupt code s).gSPICallback = cb2 ∧
        (SPIServiceInterrupt code s).LATA5 = false ∧
        errorCount (SPIServiceInterrupt code s).log = errorCount s.log) ∧
      (cb = FnPtr.ReadDebouncedKeyA →
        (SPIServiceInterrupt call s).gSPIData = ⟨Object.DisplayValues_buffer, 0⟩ ∧
        (SPIServiceInterrupt call s).gSPIDataL = 24 ∧
        (SPIServiceInterrupt call s).gSPICallback = none ∧
        (SPIServiceInterrupt call s).LATA5 = false ∧
        (s.ep1In.STAT.UOWN = false →
          errorCount (SPIServiceInterrupt call s).log = errorCount s.log)) := by
  obtain ⟨s', hs'⟩ : ∃ s' : State, s' =
      { s.store s.gSPIData s.SSP1BUF with
        BF := false
        gSPIData := NULL
        gSPIDataL := 0
        LATA5 := true
        gSPICallback := none
        log := s.log ++ [Event.chipSelect true, Event.callback cb] } := ⟨_, rfl⟩
  have hrun : ∀ code : FnPtr → State → State, SPIServiceInterrupt code s = code cb s' := by
    intro code
    rw [hs']
    simp [SPIServiceInterrupt, hL, hcb, writeLATA5, State.store]
  have h1 : s'.gSPIData = NULL := by rw [hs']
  have h2 : s'.gSPICallback = none := by rw [hs']
  have h3 : s'.LATA5 = true := by rw [hs']
  have h4 : s'.BF = false := by rw [hs']
  have h5 : s'.log = s.log ++ [Event.chipSelect true, Event.callback cb] := by rw [hs']
  have h6 : s'.ep1In = s.ep1In := by rw [hs']; rfl
  refine ⟨s', hrun, h1, h2, h3, h4, ?_, ?_⟩
  · intro code data dataL cb2 hcode hd1 hd255
    rw [hrun code, hcode, SPIStartExchange_idle data dataL cb2 _ h1 hd1 hd255]
    simp [errorCount_append, errorCount, h4, h5]
  · intro hreal
    subst hreal
    rw [hrun call]
    obtain ⟨e1, e2, e3, e4, e5⟩ := ReadDebouncedKeyA_engine s' h1
    refine ⟨e1, e2, e3, e4, ?_⟩
    intro hown
    have e5' : (call FnPtr.ReadDebouncedKeyA s').log = _ := e5
    rw [e5', h4, h5, h6, hown]
    simp [errorCount_append, errorCount]

/-- C11 in the last interrupt of the debounce read that
`ControlsServiceInterrupt` starts. -/
theorem callback_runs_on_free_engine_witness :
    (((spiByteComplete call (ControlsServiceInterrupt State.initial) 0).gSPIDataL + 255) % 256
        = 0 ∧
      (spiByteComplete call (ControlsServiceInterrupt State.initial) 0).gSPICallback =
        some FnPtr.ReadDebouncedKeyA) ∧
    ∃ s', (∀ code, SPIServiceInterrupt code
        (spiByteComplete call (ControlsServiceInterrupt State.initial) 0) =
          code FnPtr.ReadDebouncedKeyA s') ∧
      s'.gSPIData = NULL ∧ s'.gSPICallback = none ∧ s'.LATA5 = true :=
  ⟨⟨by decide, by decide⟩,
    match callback_runs_on_free_engine
      (spiByteComplete call (ControlsServiceInterrupt State.initial) 0)
      FnPtr.ReadDebouncedKeyA (by decide) (by decide) with
    | ⟨s', h1, h2, h3, h4, _⟩ => ⟨s', h1, h2, h3, h4⟩⟩

theorem SPIStartExchange_errorCount (data : Ptr) (dataL : Nat) (cb : Option FnPtr) (s : State)
    (hL : dataL ≤ 255) :
    errorCount (SPIStartExchange data dataL cb s).log =
      errorCount s.log +
        (if s.gSPIData ≠ NULL then 1
         else (if dataL = 0 then 1 else 0) + (if s.BF = true then 1 else 0)) := by
  have hm : dataL % 256 = dataL := Nat.mod_eq_of_lt (by omega)
  simp only [SPIStartExchange, hm, writeLATA5, writeSSP1BUF, Error]
  by_cases h1 : s.gSPIData = NULL <;> by_cases h2 : dataL = 0 <;> by_cases h3 : s.BF = true <;>
    simp [h1, h2, h3, errorCount_append, errorCount]

/-- C12. `SPIStartExchange` (with a length that fits its `uint8_t` parameter)
invokes the fatal-error signal `Error()` if and only if, at the call, an
exchange is already active, or the requested length is 0, or the
receive-buffer-full flag is set; for an idle engine, nonzero length and clear
flag it signals no error and leaves the indicator line alone. -/
theorem SPIStartExchange_error_iff (data : Ptr) (dataL : Nat) (cb : Option FnPtr) (s : State)
    (hL : dataL ≤ 255) :
    (errorCount s.log < errorCount (SPIStartExchange data dataL cb s).log ↔
      s.gSPIData ≠ NULL ∨ dataL = 0 ∨ s.BF = true) ∧
    (s.gSPIData = NULL → dataL ≠ 0 → s.BF = false →
      errorCount (SPIStartExchange data dataL cb s).log = errorCount s.log ∧
      (SPIStartExchange data dataL cb s).LATD3 = s.LATD3) := by
  have hcount := SPIStartExchange_errorCount data dataL cb s hL
  constructor
  · rw [hcount]
    by_cases h1 : s.gSPIData = NULL <;> by_cases h2 : dataL = 0 <;>
      by_cases h3 : s.BF = true <;> simp [h1, h2, h3]
  · intro h1 h2 h3
    rw [hcount]
    refine ⟨by simp [h1, h2, h3], ?_⟩
    rw [SPIStartExchange_idle data dataL cb s h1 (by omega) hL]
    simp [h3]

/-- C12 for `DisplayValues`' start on the initial state. -/
theorem SPIStartExchange_error_iff_witness :
    (24 ≤ 255) ∧
    (errorCount State.initial.log <
        errorCount (SPIStartExchange ⟨Object.DisplayValues_buffer, 0⟩ 24 none
          State.initial).log ↔
      State.initial.gSPIData ≠ NULL ∨ 24 = 0 ∨ State.initial.BF = true) :=
  ⟨by decide,
    (SPIStartExchange_error_iff ⟨Object.DisplayValues_buffer, 0⟩ 24 none State.initial
      (by decide)).1⟩

/-- C13, as stated, fails: on an idle engine with stale received data
(`BF` set) a 24-byte start signals the error and still asserts chip-select,
transmits the first byte and becomes the active transaction; a zero-length
start does the same. -/
theorem failing_start_counterexample :
    ¬ FailingStartStartsNothing { State.initial with BF := true }
        ⟨Object.DisplayValues_buffer, 0⟩ 24 none ∧
    errorCount (SPIStartExchange ⟨Object.DisplayValues_buffer, 0⟩ 24 none
      { State.initial with BF := true }).log = 1 ∧
    chipSelectAsserts (SPIStartExchange ⟨Object.DisplayValues_buffer, 0⟩ 24 none
      { State.initial with BF := true }).log = 1 ∧
    (SPIStartExchange ⟨Object.DisplayValues_buffer, 0⟩ 24 none
      { State.initial with BF := true }).gSPIData = ⟨Object.DisplayValues_buffer, 0⟩ ∧
    ¬ FailingStartStartsNothing State.initial ⟨Object.DisplayValues_buffer, 0⟩ 0 none := by
  refine ⟨fun h => ?_, by decide, by decide, by decide, fun h => ?_⟩
  · exact absurd (h rfl (Or.inr rfl)).2.2 (by decide)
  · exact absurd (h rfl (Or.inl rfl)).2.2 (by decide)

/-- C13, amended. A start refused because an exchange is already active starts
nothing: chip-select is not asserted, no byte is written to the transmit
register and the active transaction is untouched. A start of nonzero length on
an idle engine asserts chip-select, transmits `buffer[0]` and makes the
transaction active, also when it signals the error for stale received data. -/
theorem start_effect (data : Ptr) (dataL : Nat) (cb : Option FnPtr) (s : State)
    (h1 : 1 ≤ dataL) (h255 : dataL ≤ 255) :
    (s.gSPIData ≠ NULL →
      chipSelectAsserts (SPIStartExchange data dataL cb s).log = chipSelectAsserts s.log ∧
      transmitted (SPIStartExchange data dataL cb s).log = transmitted s.log ∧
      (SPIStartExchange data dataL cb s).LATA5 = s.LATA5 ∧
      (SPIStartExchange data dataL cb s).SSP1BUF_out = s.SSP1BUF_out ∧
      (SPIStartExchange data dataL cb s).gSPIData = s.gSPIData ∧
      (SPIStartExchange data dataL cb s).gSPIDataL = s.gSPIDataL ∧
      (SPIStartExchange data dataL cb s).gSPICallback = s.gSPICallback) ∧
    (s.gSPIData = NULL →
      chipSelectAsserts (SPIStartExchange data dataL cb s).log = chipSelectAsserts s.log + 1 ∧
      transmitted (SPIStartExchange data dataL cb s).log = transmitted s.log ++ [s.load data] ∧
      (SPIStartExchange data dataL cb s).LATA5 = false ∧
      (SPIStartExchange data dataL cb s).SSP1BUF_out = s.load data ∧
      (SPIStartExchange data dataL cb s).gSPIData = data ∧
      (SPIStartExchange data dataL cb s).gSPIDataL = dataL ∧
      (SPIStartExchange data dataL cb s).gSPICallback = cb) := by
  constructor
  · intro hbusy
    rw [SPIStartExchange_busy data dataL cb s hbusy]
    simp [Error, chipSelectAsserts_append, transmitted_append, chipSelectAsserts, transmitted]
  · intro hidle
    rw [SPIStartExchange_idle data dataL cb s hidle h1 h255]
    by_cases hbf : s.BF = true <;>
      simp [hbf, Error, chipSelectAsserts_append, transmitted_append, chipSelectAsserts,
        transmitted]

/-- C13 (amended) for the display start with stale received data. -/
theorem start_effect_witness :
    (1 ≤ 24 ∧ 24 ≤ 255 ∧ ({ State.initial with BF := true } : State).gSPIData = NULL) ∧
    (SPIStartExchange ⟨Object.DisplayValues_buffer, 0⟩ 24 none
      { State.initial with BF := true }).gSPIData = ⟨Object.DisplayValues_buffer, 0⟩ ∧
    (SPIStartExchange ⟨Object.DisplayValues_buffer, 0⟩ 24 none
      { State.initial with BF := true }).LATA5 = false :=
  ⟨⟨by decide, by decide, rfl⟩,
    ((start_effect ⟨Object.DisplayValues_buffer, 0⟩ 24 none { State.initial with BF := true }
      (by decide) (by decide)).2 rfl).2.2.2.2.1,
    ((start_effect ⟨Object.DisplayValues_buffer, 0⟩ 24 none { State.initial with BF := true }
      (by decide) (by decide)).2 rfl).2.2.1⟩

theorem serviceEvents_even (n : Nat) :
    ∀ l : List Nat, l.length = 2 * n →
      serviceEvents l = Event.chipSelect true :: framedEvents l := by
  induction n with
  | zero =>
    intro l hl
    have : l = [] := List.length_eq_zero.mp (by omega)
    subst this
    rfl
  | succ n ih =>
    intro l hl
    match l, hl with
    | x :: y :: rest, hl =>
      have hrest : rest.length = 2 * n := by simp at hl; omega
      have h1 : (rest.length + 1 + 1) % 2 = 0 := by omega
      have h2 : ¬ (rest.length + 1) % 2 = 0 := by omega
      simp [serviceEvents, framedEvents, h1, h2, ih rest hrest]

theorem framedEvents_start (l : List Nat) (h2 : 2 ≤ l.length) (heven : l.length % 2 = 0) :
    Event.chipSelect false :: Event.transmit (l.getD 0 0) :: serviceEvents l.tail =
      framedEvents l := by
  match l, h2, heven with
  | x :: y :: rest, _, heven =>
    have hrest : rest.length = 2 * (rest.length / 2) := by simp at heven; omega
    have h2 : ¬ (rest.length + 1) % 2 = 0 := by omega
    simp [serviceEvents, framedEvents, h2, serviceEvents_even _ rest hrest]

theorem transmitsSelected_framedEvents (n : Nat) :
    ∀ (l : List Nat) (level : Bool), l.length ≤ n →
      transmitsSelected level (framedEvents l) = true := by
  induction n with
  | zero =>
    intro l level hl
    have : l = [] := List.length_eq_zero.mp (by omega)
    subst this
    rfl
  | succ n ih =>
    intro l level hl
    match l, hl with
    | [], _ => rfl
    | [_], _ => rfl
    | x :: y :: rest, hl =>
      have hrest : rest.length ≤ n := by simp at hl; omega
      simp [framedEvents, transmitsSelected, ih rest true hrest]

/-- C14. Chip-select framing: for every exchange of even nonzero length `L`
on a RAM buffer, started on an idle engine with no stale received byte, the
events from the start to completion (the state `sC` in which the caller is
notified; the final state when there is no callback) are exactly the `L/2`
repetitions of [assert chip-select, transmit byte `2k`, transmit byte
`2k+1`, deassert chip-select]; every transmit in that sequence happens while
chip-select is asserted, and chip-select is deasserted at completion. -/
theorem exchange_framing (call : FnPtr → State → State) (s : State) (o : Object)
    (cb : Option FnPtr) (rs : List Nat) (hrom : romData o = none) (hidle : s.gSPIData = NULL)
    (hbf : s.BF = false) (heven : rs.length % 2 = 0) (h2 : 2 ≤ rs.length)
    (h254 : rs.length ≤ 254) (hlen : (s.mem o).length = rs.length)
    (hb : ∀ x ∈ s.mem o, x < 256) :
    (∃ sC, spiBytesComplete call (SPIStartExchange ⟨o, 0⟩ rs.length cb s) rs =
        notifyCaller call sC ∧
      sC.log = s.log ++ framedEvents (s.mem o) ∧ sC.LATA5 = true ∧ sC.gSPICallback = cb) ∧
    (cb = none →
      (spiBytesComplete call (SPIStartExchange ⟨o, 0⟩ rs.length cb s) rs).log =
        s.log ++ framedEvents (s.mem o)) ∧
    (framedEvents (s.mem o)).length = 4 * (rs.length / 2) ∧
    transmitsSelected true (framedEvents (s.mem o)) = true := by
  obtain ⟨rx, tx, hrun⟩ := exchange_run call o cb s rs hrom hidle (by omega) (by omega) hlen
  simp only [hbf, Bool.false_eq_true, if_false] at hrun
  have hmap : (s.mem o).map (· % 256) = s.mem o := map_mod_256 _ hb
  have hhead : (s.mem o).getD 0 0 % 256 = (s.mem o).getD 0 0 := by
    cases hm : s.mem o with
    | nil => rfl
    | cons x rest => exact Nat.mod_eq_of_lt (hb x (by rw [hm]; exact List.mem_cons_self _ _))
  have htail : (s.mem o).tail.map (· % 256) = (s.mem o).tail := by
    rw [List.map_tail, hmap]
  have hframed := framedEvents_start (s.mem o) (by omega) (by omega)
  rw [hhead, htail, hframed] at hrun
  have hlenF : ∀ n : Nat, ∀ l : List Nat, l.length = 2 * n →
      (framedEvents l).length = 4 * n := by
    intro n
    induction n with
    | zero =>
      intro l hl
      have : l = [] := List.length_eq_zero.mp (by omega)
      subst this
      rfl
    | succ n ih =>
      intro l hl
      match l, hl with
      | x :: y :: rest, hl =>
        have hrest : rest.length = 2 * n := by simp at hl; omega
        simp [framedEvents, ih rest hrest]
        omega
  refine ⟨⟨_, hrun, rfl, rfl, rfl⟩, ?_, ?_, transmitsSelected_framedEvents _ _ _ (Nat.le_refl _)⟩
  · intro hnone
    subst hnone
    rw [hrun]
    rfl
  · exact hlenF (rs.length / 2) (s.mem o) (by omega)

/-- C14 for a four-byte exchange without callback. -/
theorem exchange_framing_witness :
    (romData Object.callerBuffer = none ∧
      (State.initial.assign Object.callerBuffer [1, 2, 3, 4]).gSPIData = NULL ∧
      (State.initial.assign Object.callerBuffer [1, 2, 3, 4]).BF = false ∧
      [5, 6, 7, 8].length % 2 = 0 ∧ 2 ≤ [5, 6, 7, 8].length ∧ [5, 6, 7, 8].length ≤ 254 ∧
      ((State.initial.assign Object.callerBuffer [1, 2, 3, 4]).mem Object.callerBuffer).length
        = [5, 6, 7, 8].length ∧
      (∀ x ∈ (State.initial.assign Object.callerBuffer [1, 2, 3, 4]).mem Object.callerBuffer,
        x < 256)) ∧
    (spiBytesComplete call
      (SPIStartExchange ⟨Object.callerBuffer, 0⟩ [5, 6, 7, 8].length none
        (State.initial.assign Object.callerBuffer [1, 2, 3, 4])) [5, 6, 7, 8]).log =
      (State.initial.assign Object.callerBuffer [1, 2, 3, 4]).log ++
        framedEvents ((State.initial.assign Object.callerBuffer [1, 2, 3, 4]).mem
          Object.callerBuffer) :=
  ⟨⟨rfl, rfl, rfl, rfl, by decide, by decide, rfl, by decide⟩,
    (exchange_framing call (State.initial.assign Object.callerBuffer [1, 2, 3, 4])
      Object.callerBuffer none [5, 6, 7, 8] rfl rfl rfl rfl (by decide) (by decide) rfl
      (by decide)).2.1 rfl⟩

/-! ## Claims on the display exchange and Endpoint 1 -/

/-- The whole display exchange that `DisplayValues` starts on an idle engine:
after 24 byte-complete interrupts the 24 bytes of the buffer have been
transmitted, no callback has run and the engine is idle again. -/
theorem DisplayValues_run (call : FnPtr → State → State) (v0 v1 : Nat) (s : State)
    (rs : List Nat) (hidle : s.gSPIData = NULL) (hrs : rs.length = 24) :
    transmitted (spiBytesComplete call (DisplayValues v0 v1 s) rs).log =
      transmitted s.log ++ (DisplayValues v0 v1 s).mem Object.DisplayValues_buffer ∧
    callbackCalls (spiBytesComplete call (DisplayValues v0 v1 s) rs).log = callbackCalls s.log ∧
    (spiBytesComplete call (DisplayValues v0 v1 s) rs).gSPIData = NULL := by
  have hmem : (DisplayValues v0 v1 s).mem Object.DisplayValues_buffer =
      (DisplayValues.buffer v0 v1).map (· % 256) := by
    simp only [DisplayValues, SPIStartExchange_mem, State.assign, Function.update_same]
  have hrun : ∀ t : State, t.gSPIData = NULL → t.log = s.log →
      t.mem Object.DisplayValues_buffer = (DisplayValues.buffer v0 v1).map (· % 256) →
      transmitted (spiBytesComplete call
        (SPIStartExchange ⟨Object.DisplayValues_buffer, 0⟩ 24 none t) rs).log =
          transmitted s.log ++ (DisplayValues.buffer v0 v1).map (· % 256) ∧
      callbackCalls (spiBytesComplete call
        (SPIStartExchange ⟨Object.DisplayValues_buffer, 0⟩ 24 none t) rs).log =
          callbackCalls s.log ∧
      (spiBytesComplete call
        (SPIStartExchange ⟨Object.DisplayValues_buffer, 0⟩ 24 none t) rs).gSPIData = NULL := by
    intro t ht hlog htm
    have hlen : (t.mem Object.DisplayValues_buffer).length = rs.length := by
      rw [htm, hrs]; rfl
    obtain ⟨rx, tx, h⟩ := exchange_run call Object.DisplayValues_buffer none t rs rfl ht
      (by omega) (by omega) hlen
    rw [hrs] at h
    have hmod : (t.mem Object.DisplayValues_buffer).map (· % 256) =
        t.mem Object.DisplayValues_buffer := by
      rw [htm, List.map_map]
      apply List.map_congr_left
      intro a _
      exact Nat.mod_mod _ _
    have hcons : (t.mem Object.DisplayValues_buffer).getD 0 0 % 256 ::
        (t.mem Object.DisplayValues_buffer).tail.map (· % 256) =
        t.mem Object.DisplayValues_buffer := by
      rw [List.map_tail, hmod]
      cases hm : t.mem Object.DisplayValues_buffer with
      | nil => rw [hm] at hlen; simp at hlen; omega
      | cons x rest =>
        have hx : x % 256 = x := by
          have := hmod
          rw [hm] at this
          simp only [List.map_cons, List.cons.injEq] at this
          exact this.1
        simp [hx]
    have hT : ∀ (b : Nat) (l : List Event),
        transmitted (Event.chipSelect false :: Event.transmit b :: l) = b :: transmitted l := by
      intro b l; simp [transmitted]
    have hC : ∀ (b : Nat) (l : List Event),
        callbackCalls (Event.chipSelect false :: Event.transmit b :: l) = callbackCalls l := by
      intro b l; simp [callbackCalls]
    have hEt : transmitted (if t.BF = true then Error t else t).log = transmitted s.log := by
      by_cases hbf : t.BF = true <;> simp [hbf, Error, transmitted, hlog]
    have hEc : callbackCalls (if t.BF = true then Error t else t).log = callbackCalls s.log := by
      by_cases hbf : t.BF = true <;> simp [hbf, Error, callbackCalls, hlog]
    rw [h]
    refine ⟨?_, ?_, rfl⟩
    · show transmitted ((if t.BF = true then Error t else t).log ++ _) = _
      rw [transmitted_append, hT, transmitted_serviceEvents, hEt, hcons, htm]
    · show callbackCalls ((if t.BF = true then Error t else t).log ++ _) = _
      rw [callbackCalls_append, hC, callbackCalls_serviceEvents, hEc, Nat.add_zero]
  rw [hmem]
  exact hrun _ hidle rfl (by simp [State.assign])

/-- C15. `DisplayValues(v0, v1)`, called with the SPI engine idle, stores
`gValue0 = v0` and `gValue1 = v1` and starts exactly one SPI exchange of 24
bytes with no callback (one chip-select assertion and the first byte `0x25`
at the call, the 24 bytes of the buffer in all, the engine idle afterwards),
whose 12 command (even-indexed) bytes are pairwise distinct, have the read bit
`0x80` clear and are exactly the digit registers `0x20..0x25` and
`0x28..0x2D`. -/
theorem DisplayValues_starts_exchange (call : FnPtr → State → State) (v0 v1 : Nat) (s : State)
    (rs : List Nat) (hidle : s.gSPIData = NULL) (h0 : v0 < 2 ^ 24) (h1 : v1 < 2 ^ 24)
    (hrs : rs.length = 24) :
    (DisplayValues v0 v1 s).gValue0 = v0 ∧ (DisplayValues v0 v1 s).gValue1 = v1 ∧
    (DisplayValues v0 v1 s).gSPIData = ⟨Object.DisplayValues_buffer, 0⟩ ∧
    (DisplayValues v0 v1 s).gSPIDataL = 24 ∧
    (DisplayValues v0 v1 s).gSPICallback = none ∧
    chipSelectAsserts (DisplayValues v0 v1 s).log = chipSelectAsserts s.log + 1 ∧
    transmitted (DisplayValues v0 v1 s).log = transmitted s.log ++ [0x25] ∧
    ((DisplayValues v0 v1 s).mem Object.DisplayValues_buffer).length = 24 ∧
    transmitted (spiBytesComplete call (DisplayValues v0 v1 s) rs).log =
      transmitted s.log ++ (DisplayValues v0 v1 s).mem Object.DisplayValues_buffer ∧
    callbackCalls (spiBytesComplete call (DisplayValues v0 v1 s) rs).log = callbackCalls s.log ∧
    (spiBytesComplete call (DisplayValues v0 v1 s) rs).gSPIData = NULL ∧
    registers ((DisplayValues v0 v1 s).mem Object.DisplayValues_buffer) =
      [0x25, 0x24, 0x23, 0x22, 0x21, 0x20, 0x2D, 0x2C, 0x2B, 0x2A, 0x29, 0x28] ∧
    (registers ((DisplayValues v0 v1 s).mem Object.DisplayValues_buffer)).Nodup ∧
    (∀ r ∈ registers ((DisplayValues v0 v1 s).mem Object.DisplayValues_buffer),
      r &&& 0x80 = 0) ∧
    (∀ r, r ∈ registers ((DisplayValues v0 v1 s).mem Object.DisplayValues_buffer) ↔
      (0x20 ≤ r ∧ r ≤ 0x25) ∨ (0x28 ≤ r ∧ r ≤ 0x2D)) := by
  have hg := DisplayValues_gValue v0 v1 s
  have hi := DisplayValues_idle v0 v1 s hidle
  have hr := DisplayValues_run call v0 v1 s rs hidle hrs
  have hb := DisplayValues_buffer_eq v0 v1 s h0 h1
  have hreg : registers ((DisplayValues v0 v1 s).mem Object.DisplayValues_buffer) =
      [0x25, 0x24, 0x23, 0x22, 0x21, 0x20, 0x2D, 0x2C, 0x2B, 0x2A, 0x29, 0x28] := by
    rw [hb]; rfl
  refine ⟨by rw [hg.1]; exact Nat.mod_eq_of_lt h0, by rw [hg.2]; exact Nat.mod_eq_of_lt h1,
    hi.1, hi.2.1, hi.2.2.1, ?_, ?_, by rw [hb]; rfl, hr.1, hr.2.1, hr.2.2, hreg, ?_, ?_, ?_⟩
  · rw [hi.2.2.2.2]
    by_cases hbf : s.BF = true <;> simp [hbf, chipSelectAsserts_append, chipSelectAsserts]
  · rw [hi.2.2.2.2]
    by_cases hbf : s.BF = true <;> simp [hbf, transmitted_append, transmitted]
  · rw [hreg]; decide
  · rw [hreg]; decide
  · intro r
    rw [hreg]
    simp only [List.mem_cons, List.mem_singleton, List.not_mem_nil, or_false]
    omega

/-- C15 at `(123456, 654321)` from the initial state. -/
theorem DisplayValues_starts_exchange_witness :
    (State.initial.gSPIData = NULL ∧ 123456 < 2 ^ 24 ∧ 654321 < 2 ^ 24 ∧
      (List.replicate 24 0).length = 24) ∧
    (DisplayValues 123456 654321 State.initial).gSPIDataL = 24 ∧
    registers ((DisplayValues 123456 654321 State.initial).mem Object.DisplayValues_buffer) =
      [0x25, 0x24, 0x23, 0x22, 0x21, 0x20, 0x2D, 0x2C, 0x2B, 0x2A, 0x29, 0x28] :=
  ⟨⟨rfl, by decide, by decide, rfl⟩,
    match DisplayValues_starts_exchange call 123456 654321 State.initial (List.replicate 24 0)
      rfl (by decide) (by decide) rfl with
    | ⟨_, _, _, h4, _, _, _, _, _, _, _, h12, _⟩ => ⟨h4, h12⟩⟩

theorem ArmEndpoint1OUT_spec (s : State) :
    (ArmEndpoint1OUT s).ep1Out =
      ⟨{ BDSTAT.zero with UOWN := true }, 5, ⟨Object.ep1OutBuffer, 0⟩⟩ ∧
    (ArmEndpoint1OUT s).mem = s.mem ∧
    (ArmEndpoint1OUT s).gSPIData = s.gSPIData ∧
    (ArmEndpoint1OUT s).gSPIDataL = s.gSPIDataL ∧
    (ArmEndpoint1OUT s).log =
      s.log ++ (if s.ep1Out.STAT.UOWN = true then [Event.error] else []) := by
  simp only [ArmEndpoint1OUT, Error]
  by_cases h : s.ep1Out.STAT.UOWN = true <;> simp [h]

theorem outReport_values (s : State) :
    HandleEndpoint1OUT.values
      ⟨s.load ⟨Object.ep1OutBuffer, 0⟩, s.load ⟨Object.ep1OutBuffer, 1⟩,
       s.load ⟨Object.ep1OutBuffer, 2⟩, s.load ⟨Object.ep1OutBuffer, 3⟩,
       s.load ⟨Object.ep1OutBuffer, 4⟩⟩ = (s.outReport % 2 ^ 20, s.outReport / 2 ^ 20) := by
  have hlt : ∀ p, s.load p < 256 := fun p => Nat.mod_lt _ (by decide)
  have h0 := hlt ⟨Object.ep1OutBuffer, 0⟩
  have h1 := hlt ⟨Object.ep1OutBuffer, 1⟩
  have h2 := hlt ⟨Object.ep1OutBuffer, 2⟩
  have h3 := hlt ⟨Object.ep1OutBuffer, 3⟩
  have h4 := hlt ⟨Object.ep1OutBuffer, 4⟩
  rw [HandleEndpoint1OUT_values_eq]
  simp only [State.outReport]
  generalize s.load ⟨Object.ep1OutBuffer, 0⟩ = b0 at *
  generalize s.load ⟨Object.ep1OutBuffer, 1⟩ = b1 at *
  generalize s.load ⟨Object.ep1OutBuffer, 2⟩ = b2 at *
  generalize s.load ⟨Object.ep1OutBuffer, 3⟩ = b3 at *
  generalize s.load ⟨Object.ep1OutBuffer, 4⟩ = b4 at *
  refine Prod.ext ?_ ?_ <;> simp only [] <;> omega

/-- C16, as stated, fails: when a report completes while an SPI exchange is
still active (here the key-read exchange that `ControlsServiceInterrupt` has
started), `HandleEndpoint1OUT` signals the error and starts no display
exchange; the key-read exchange stays the active one. -/
theorem report_handled_counterexample :
    ¬ ReportHandled (ControlsServiceInterrupt State.initial) ∧
    (HandleEndpoint1OUT (ControlsServiceInterrupt State.initial)).gSPIData =
      ⟨Object.gReadKeyADebounced, 0⟩ ∧
    (HandleEndpoint1OUT (ControlsServiceInterrupt State.initial)).gSPIDataL = 2 ∧
    chipSelectAsserts (HandleEndpoint1OUT (ControlsServiceInterrupt State.initial)).log =
      chipSelectAsserts (ControlsServiceInterrupt State.initial).log ∧
    errorCount (HandleEndpoint1OUT (ControlsServiceInterrupt State.initial)).log =
      errorCount (ControlsServiceInterrupt State.initial).log + 1 := by
  refine ⟨fun h => ?_, by decide, by decide, by decide, by decide⟩
  exact absurd h.2.2.2.2.2.2.1 (by decide)

/-- C16, amended. For every 5-byte content of the Endpoint 1 OUT buffer, with
no range validation, `HandleEndpoint1OUT`, called with the SPI engine idle,
sets the stored display values to the decoded pair (low 20 bits, high 20 bits
of the 40-bit report), starts the display exchange for them, and returns with
Endpoint 1 OUT re-armed: hardware-owned (`UOWN = 1`), byte count 5, address of
the OUT buffer. -/
theorem report_handled (s : State) (hidle : s.gSPIData = NULL) : ReportHandled s := by
  have hv := outReport_values s
  have hlt0 : s.outReport % 2 ^ 20 < 2 ^ 24 :=
    Nat.lt_of_lt_of_le (Nat.mod_lt _ (by decide)) (by decide)
  have hlt1 : s.outReport / 2 ^ 20 < 2 ^ 24 := by
    have hlt : ∀ p, s.load p < 256 := fun p => Nat.mod_lt _ (by decide)
    have h0 := hlt ⟨Object.ep1OutBuffer, 0⟩
    have h1 := hlt ⟨Object.ep1OutBuffer, 1⟩
    have h2 := hlt ⟨Object.ep1OutBuffer, 2⟩
    have h3 := hlt ⟨Object.ep1OutBuffer, 3⟩
    have h4 := hlt ⟨Object.ep1OutBuffer, 4⟩
    simp only [State.outReport]
    omega
  have hH : HandleEndpoint1OUT s =
      ArmEndpoint1OUT (DisplayValues (s.outReport % 2 ^ 20) (s.outReport / 2 ^ 20) s) := by
    simp only [HandleEndpoint1OUT, hv]
  have hA := ArmEndpoint1OUT_spec
    (DisplayValues (s.outReport % 2 ^ 20) (s.outReport / 2 ^ 20) s)
  have hg := DisplayValues_gValue (s.outReport % 2 ^ 20) (s.outReport / 2 ^ 20) s
  have hi := DisplayValues_idle (s.outReport % 2 ^ 20) (s.outReport / 2 ^ 20) s hidle
  have hAg := ArmEndpoint1OUT_gValue
    (DisplayValues (s.outReport % 2 ^ 20) (s.outReport / 2 ^ 20) s)
  have hcs : ∀ l : List Event, ∀ b : Bool,
      chipSelectAsserts (l ++ (if b = true then [Event.error] else [])) =
        chipSelectAsserts l := by
    intro l b; cases b <;> simp [chipSelectAsserts]
  have htx : ∀ l : List Event, ∀ b : Bool,
      transmitted (l ++ (if b = true then [Event.error] else [])) = transmitted l := by
    intro l b; cases b <;> simp [transmitted]
  simp only [ReportHandled, hH]
  refine ⟨?_, ?_, ?_, ?_, ?_, ?_, ?_, ?_, ?_, ?_⟩
  · rw [hAg.1, hg.1]; exact Nat.mod_eq_of_lt hlt0
  · rw [hAg.2, hg.2]; exact Nat.mod_eq_of_lt hlt1
  · rw [hA.2.1]
    simp only [DisplayValues, SPIStartExchange_mem, State.assign, Function.update_same]
  · rw [hA.2.2.2.2, hcs, hi.2.2.2.2, chipSelectAsserts_append, hcs]
    simp [chipSelectAsserts]
  · rw [hA.2.2.2.2, htx, hi.2.2.2.2, transmitted_append, htx]
    simp [transmitted]
  · rw [hA.2.2.1, hi.1]
  · rw [hA.2.2.2.1, hi.2.1]
  · rw [hA.1]
  · rw [hA.1]
  · rw [hA.1]

/-- C16 (amended) for the report bytes `[123, 0, 128, 28, 0]` in the initial
state: values 123 and 456. -/
theorem report_handled_witness :
    (State.initial.assign Object.ep1OutBuffer [123, 0, 128, 28, 0]).gSPIData = NULL ∧
    (HandleEndpoint1OUT (State.initial.assign Object.ep1OutBuffer [123, 0, 128, 28, 0])).gValue0
      = 123 ∧
    ReportHandled (State.initial.assign Object.ep1OutBuffer [123, 0, 128, 28, 0]) :=
  ⟨rfl, by decide,
    report_handled (State.initial.assign Object.ep1OutBuffer [123, 0, 128, 28, 0]) rfl⟩

/-- C17. `HandleEndpoint1IN` (completion of an Endpoint 1 IN report) inverts
the stored IN data-toggle bit and changes nothing else: every other field, in
particular the Endpoint 1 IN buffer descriptor with its ownership bit and the
IN buffer, is as the hardware returned it, also when reached through
`HandleUSBTransactionEndpoint1` with direction IN; the next `SendValues` arms
the endpoint (`UOWN = 1`) with the data toggle inverted with respect to the
one a `SendValues` before the completion would have used. -/
theorem HandleEndpoint1IN_toggles (s : State) (value0 value1 : Nat)
    (htoggle : s.gToggleIN ≤ 1) :
    (HandleEndpoint1IN s).gToggleIN = 1 - s.gToggleIN ∧
    HandleEndpoint1IN s = { s with gToggleIN := 1 - s.gToggleIN } ∧
    (HandleEndpoint1IN s).ep1In = s.ep1In ∧
    (HandleEndpoint1IN s).ep1In.STAT.UOWN = s.ep1In.STAT.UOWN ∧
    (HandleEndpoint1IN s).mem = s.mem ∧
    (s.USTAT_DIR = true → HandleUSBTransactionEndpoint1 s = HandleEndpoint1IN s) ∧
    (SendValues value0 value1 (HandleEndpoint1IN s)).ep1In.STAT.UOWN = true ∧
    (SendValues value0 value1 (HandleEndpoint1IN s)).ep1In.STAT.DTSEN = true ∧
    (SendValues value0 value1 (HandleEndpoint1IN s)).ep1In.STAT.DTS =
      !(SendValues value0 value1 s).ep1In.STAT.DTS ∧
    (SendValues value0 value1 (HandleEndpoint1IN s)).ep1In.STAT.DTS =
      decide ((HandleEndpoint1IN s).gToggleIN = 1) := by
  have hcases : s.gToggleIN = 0 ∨ s.gToggleIN = 1 := by omega
  have hS : ∀ t : State, (SendValues value0 value1 t).ep1In =
      ⟨{ BDSTAT.zero with DTS := decide (t.gToggleIN % 2 = 1), DTSEN := true, UOWN := true }, 5,
        ⟨Object.ep1InBuffer, 0⟩⟩ := by
    intro t
    simp only [SendValues]
    rw [(ArmEndpoint1IN_spec _).1]
    rfl
  refine ⟨?_, ?_, rfl, rfl, rfl, ?_, ?_, ?_, ?_, ?_⟩
  · rcases hcases with h | h <;> simp [HandleEndpoint1IN, h]
  · rcases hcases with h | h <;> simp [HandleEndpoint1IN, h]
  · intro hdir
    simp [HandleUSBTransactionEndpoint1, hdir]
  · rw [hS]
  · rw [hS]
  · rw [hS, hS]
    rcases hcases with h | h <;> simp [HandleEndpoint1IN, h]
  · rw [hS]
    rcases hcases with h | h <;> simp [HandleEndpoint1IN, h]

/-- C17 after one report sent from the initial state. -/
theorem HandleEndpoint1IN_toggles_witness :
    (SendValues 123 456 State.initial).gToggleIN ≤ 1 ∧
    (HandleEndpoint1IN (SendValues 123 456 State.initial)).gToggleIN = 1 ∧
    (SendValues 456 123 (HandleEndpoint1IN (SendValues 123 456 State.initial))).ep1In.STAT.DTS
      = true :=
  ⟨by decide,
    (HandleEndpoint1IN_toggles (SendValues 123 456 State.initial) 456 123 (by decide)).1,
    by decide⟩

/-! ## Further claims on Endpoint 0 -/

/-- C18, evaluated on four unrecognized requests delivered in the initial
state. A Setup with the unhandled `bmRequestType` `0xC0` leaves Endpoint 0 IN
software-owned, with nothing armed; SetFeature, an unhandled `bRequest` of the
host-to-device Standard Device type, is answered with a zero-length DATA1
status packet, not a stall; GetDescriptor of the unsupported type 7 and of
string index 3 leave Endpoint 0 IN software-owned. Each only signals the
error; none hands Endpoint 0 IN to the hardware with `BSTALL = 1`. -/
theorem unrecognized_requests_not_stalled :
    (¬ Ep0InStalled (HandleEndpoint0SETUP
        (sieCompleteEp0SETUP [0xC0, 0, 0, 0, 0, 0, 0, 0] State.initial)) ∧
      (HandleEndpoint0SETUP
        (sieCompleteEp0SETUP [0xC0, 0, 0, 0, 0, 0, 0, 0] State.initial)).ep0In.STAT.UOWN
          = false ∧
      (HandleUSBTransactionEndpoint0
        (sieCompleteEp0SETUP [0xC0, 0, 0, 0, 0, 0, 0, 0] State.initial)).ep0In.STAT.UOWN
          = false ∧
      errorCount (HandleEndpoint0SETUP
        (sieCompleteEp0SETUP [0xC0, 0, 0, 0, 0, 0, 0, 0] State.initial)).log = 1) ∧
    (¬ Ep0InStalled (HandleEndpoint0SETUP
        (sieCompleteEp0SETUP [0x00, 3, 1, 0, 0, 0, 0, 0] State.initial)) ∧
      (HandleEndpoint0SETUP
        (sieCompleteEp0SETUP [0x00, 3, 1, 0, 0, 0, 0, 0] State.initial)).ep0In.STAT.UOWN
          = true ∧
      (HandleEndpoint0SETUP
        (sieCompleteEp0SETUP [0x00, 3, 1, 0, 0, 0, 0, 0] State.initial)).ep0In.STAT.BSTALL
          = false ∧
      (HandleEndpoint0SETUP
        (sieCompleteEp0SETUP [0x00, 3, 1, 0, 0, 0, 0, 0] State.initial)).ep0In.CNT = 0 ∧
      errorCount (HandleEndpoint0SETUP
        (sieCompleteEp0SETUP [0x00, 3, 1, 0, 0, 0, 0, 0] State.initial)).log = 1) ∧
    (¬ Ep0InStalled (HandleEndpoint0SETUP
        (sieCompleteEp0SETUP [0x80, 6, 0, 7, 0, 0, 64, 0] State.initial)) ∧
      (HandleEndpoint0SETUP
        (sieCompleteEp0SETUP [0x80, 6, 0, 7, 0, 0, 64, 0] State.initial)).ep0In.STAT.UOWN
          = false ∧
      errorCount (HandleEndpoint0SETUP
        (sieCompleteEp0SETUP [0x80, 6, 0, 7, 0, 0, 64, 0] State.initial)).log = 1) ∧
    (¬ Ep0InStalled (HandleEndpoint0SETUP
        (sieCompleteEp0SETUP [0x80, 6, 3, 3, 9, 4, 64, 0] State.initial)) ∧
      (HandleEndpoint0SETUP
        (sieCompleteEp0SETUP [0x80, 6, 3, 3, 9, 4, 64, 0] State.initial)).ep0In.STAT.UOWN
          = false ∧
      errorCount (HandleEndpoint0SETUP
        (sieCompleteEp0SETUP [0x80, 6, 3, 3, 9, 4, 64, 0] State.initial)).log = 1) ∧
    Ep0InStalled (HandleEndpoint0SETUP
      (sieCompleteEp0SETUP [0x80, 6, 0, 6, 0, 0, 10, 0] State.initial)) := by
  refine ⟨⟨?_, ?_, ?_, ?_⟩, ⟨?_, ?_, ?_, ?_, ?_⟩, ⟨?_, ?_, ?_⟩, ⟨?_, ?_, ?_⟩, ?_⟩ <;> decide

theorem ArmEndpoint0OUT_armed (s : State) :
    (ArmEndpoint0OUT s).ep0Out.STAT.UOWN = true ∧
    (ArmEndpoint0OUT s).ep0Out.STAT.BSTALL = false ∧
    (ArmEndpoint0OUT s).ep0Out.CNT = 32 ∧
    (ArmEndpoint0OUT s).ep0Out.ADR = ⟨Object.ep0OutBuffer, 0⟩ ∧
    ((ArmEndpoint0OUT s).ep0Out.STAT.DTSEN = false ∨
      ((ArmEndpoint0OUT s).ep0Out.STAT.DTSEN = true ∧
        (ArmEndpoint0OUT s).ep0Out.STAT.DTS = false)) := by
  simp only [ArmEndpoint0OUT, Error]
  split_ifs <;> simp [BDSTAT.zero, sizeofEp0Buffer]

/-- C19. After every invocation of `HandleUSBTransactionEndpoint0`, from any
state whatever (direction, token, request, a stalled IN included), the
Endpoint 0 OUT descriptor is armed to accept the next Setup: `UOWN = 1`,
`BSTALL = 0`, byte count 32, address of the Endpoint 0 OUT buffer, and a DATA0
packet is acceptable (`DTSEN = 0`, or `DTSEN = 1` with `DTS = 0`). -/
theorem ep0Out_always_armed (s : State) :
    (HandleUSBTransactionEndpoint0 s).ep0Out.STAT.UOWN = true ∧
    (HandleUSBTransactionEndpoint0 s).ep0Out.STAT.BSTALL = false ∧
    (HandleUSBTransactionEndpoint0 s).ep0Out.CNT = 32 ∧
    (HandleUSBTransactionEndpoint0 s).ep0Out.ADR = ⟨Object.ep0OutBuffer, 0⟩ ∧
    ((HandleUSBTransactionEndpoint0 s).ep0Out.STAT.DTSEN = false ∨
      ((HandleUSBTransactionEndpoint0 s).ep0Out.STAT.DTSEN = true ∧
        (HandleUSBTransactionEndpoint0 s).ep0Out.STAT.DTS = false)) := by
  simp only [HandleUSBTransactionEndpoint0]
  exact ArmEndpoint0OUT_armed _

theorem sieCompleteEp0SETUP_frame (packet : List Nat) (s : State) :
    (sieCompleteEp0SETUP packet s).USTAT_DIR = false ∧
    (sieCompleteEp0SETUP packet s).ep0Out.STAT.PID = 0b1101 ∧
    (sieCompleteEp0SETUP packet s).mem Object.ep0InBuffer = s.mem Object.ep0InBuffer := by
  refine ⟨rfl, ?_, ?_⟩
  · simp [sieCompleteEp0SETUP, BDSTAT.sieToken, BDSTAT.PID, Nat.testBit]
  · simp [sieCompleteEp0SETUP]

/-- C20. A fresh Setup preempts an unfinished control read: if the Setup of a
GetDescriptor for a descriptor `D2` the device returns is received and
serviced while a control read of `D1` is unfinished (an IN packet of `D1`
still armed, or bytes of `D1` still to be sent), then Endpoint 0 IN is armed
with the first packet of `D2`, and the bytes the host collects with any
number `n` of IN tokens are the first `min (32 n) (min |D2| wLength)` bytes of
`D2` from offset 0, whatever `D1` and the progress of its read were. -/
theorem setup_preempts_control_read (s0 : State) (packet D1 D2 : List Nat) (k L n : Nat)
    (hprev : ControlReadUnfinished s0 D1 k L)
    (hrt : (sieCompleteEp0SETUP packet s0).setup.bmRequestType = 0x80 ∨
      (sieCompleteEp0SETUP packet s0).setup.bmRequestType = 0x81)
    (hreq : (sieCompleteEp0SETUP packet s0).setup.bRequest = 6)
    (hdesc : returnedDescriptor (sieCompleteEp0SETUP packet s0).setup.wValue = some D2) :
    ControlReadArmed (HandleUSBTransactionEndpoint0 (sieCompleteEp0SETUP packet s0)) D2 0
      (min D2.length (sieCompleteEp0SETUP packet s0).setup.wLength) ∧
    ep0InPacket (HandleUSBTransactionEndpoint0 (sieCompleteEp0SETUP packet s0)) =
      some (D2.take (min 32 (min D2.length (sieCompleteEp0SETUP packet s0).setup.wLength))) ∧
    controlReadData n (HandleUSBTransactionEndpoint0 (sieCompleteEp0SETUP packet s0)) =
      D2.take (min (32 * n) (min D2.length (sieCompleteEp0SETUP packet s0).setup.wLength)) := by
  obtain ⟨hdir, hpid, hmem⟩ := sieCompleteEp0SETUP_frame packet s0
  have hbuf : ((sieCompleteEp0SETUP packet s0).mem Object.ep0InBuffer).length = 32 := by
    rw [hmem]
    rcases hprev with h | h
    · exact h.2.2.2.2.2.1
    · exact h.1
  obtain ⟨hD, hlen⟩ := descriptor_bytes _ D2 hdesc
  have harmed := HandleUSBTransactionEndpoint0_GetDescriptor _ D2 hdir hpid hrt hreq hdesc hbuf
  have hpkt := ControlReadArmed_packet _ D2 0 _ harmed
  have hdata := controlReadData_armed D2 hD n _ 0 _ harmed (by omega) (by omega)
  rw [List.drop_zero] at hdata hpkt
  exact ⟨harmed, hpkt, hdata⟩

/-- C20 for GetDescriptor(Device) received while the 48-byte Product string is
being read (its first packet armed, 16 bytes still to be copied). -/
theorem setup_preempts_control_read_witness :
    (ControlReadUnfinished
        (HandleUSBTransactionEndpoint0
          (sieCompleteEp0SETUP [0x80, 6, 2, 3, 9, 4, 255, 0] State.initial))
        gStringDescriptorProduct 0 48 ∧
      (sieCompleteEp0SETUP [0x80, 6, 0, 1, 0, 0, 18, 0]
        (HandleUSBTransactionEndpoint0
          (sieCompleteEp0SETUP [0x80, 6, 2, 3, 9, 4, 255, 0] State.initial))).setup.bRequest
        = 6 ∧
      returnedDescriptor (sieCompleteEp0SETUP [0x80, 6, 0, 1, 0, 0, 18, 0]
        (HandleUSBTransactionEndpoint0
          (sieCompleteEp0SETUP [0x80, 6, 2, 3, 9, 4, 255, 0] State.initial))).setup.wValue
        = some gDeviceDescriptor) ∧
    controlReadData 2 (HandleUSBTransactionEndpoint0
      (sieCompleteEp0SETUP [0x80, 6, 0, 1, 0, 0, 18, 0]
        (HandleUSBTransactionEndpoint0
          (sieCompleteEp0SETUP [0x80, 6, 2, 3, 9, 4, 255, 0] State.initial)))) =
      gDeviceDescriptor :=
  ⟨⟨Or.inl (HandleUSBTransactionEndpoint0_GetDescriptor
        (sieCompleteEp0SETUP [0x80, 6, 2, 3, 9, 4, 255, 0] State.initial)
        gStringDescriptorProduct rfl (by decide) (Or.inl (by decide)) (by decide) (by decide)
        (by decide)), by decide, by decide⟩,
    (setup_preempts_control_read
      (HandleUSBTransactionEndpoint0
        (sieCompleteEp0SETUP [0x80, 6, 2, 3, 9, 4, 255, 0] State.initial))
      [0x80, 6, 0, 1, 0, 0, 18, 0] gStringDescriptorProduct gDeviceDescriptor 0 48 2
      (Or.inl (HandleUSBTransactionEndpoint0_GetDescriptor
        (sieCompleteEp0SETUP [0x80, 6, 2, 3, 9, 4, 255, 0] State.initial)
        gStringDescriptorProduct rfl (by decide) (Or.inl (by decide)) (by decide) (by decide)
        (by decide)))
      (Or.inl (by decide)) (by decide) (by decide)).2.2⟩

/-! ## Claims on SetAddress, SetConfiguration and control writes -/

/-- C21, evaluated from the initial state. The Setup of SetAddress(5) is
serviced (address 5 pending, `UADDR` still 0); before its Status stage the
Setup of GetDescriptor(Device) is serviced, which arms the 18-byte descriptor
and leaves address 5 pending; the completion of that data IN transaction then
writes `UADDR = 5`. -/
theorem pending_address_survives_setup :
    (HandleUSBTransactionEndpoint0
      (sieCompleteEp0SETUP [0x00, 5, 5, 0, 0, 0, 0, 0] State.initial)).gPendingAddress = 5 ∧
    (HandleUSBTransactionEndpoint0
      (sieCompleteEp0SETUP [0x00, 5, 5, 0, 0, 0, 0, 0] State.initial)).UADDR = 0 ∧
    (HandleUSBTransactionEndpoint0
      (sieCompleteEp0SETUP [0x80, 6, 0, 1, 0, 0, 18, 0]
        (HandleUSBTransactionEndpoint0
          (sieCompleteEp0SETUP [0x00, 5, 5, 0, 0, 0, 0, 0] State.initial)))).gPendingAddress
      = 5 ∧
    (HandleUSBTransactionEndpoint0
      (sieCompleteEp0SETUP [0x80, 6, 0, 1, 0, 0, 18, 0]
        (HandleUSBTransactionEndpoint0
          (sieCompleteEp0SETUP [0x00, 5, 5, 0, 0, 0, 0, 0] State.initial)))).UADDR = 0 ∧
    ep0InPacket (HandleUSBTransactionEndpoint0
      (sieCompleteEp0SETUP [0x80, 6, 0, 1, 0, 0, 18, 0]
        (HandleUSBTransactionEndpoint0
          (sieCompleteEp0SETUP [0x00, 5, 5, 0, 0, 0, 0, 0] State.initial)))) =
      some gDeviceDescriptor ∧
    (HandleUSBTransactionEndpoint0 (sieCompleteEp0IN
      (HandleUSBTransactionEndpoint0
        (sieCompleteEp0SETUP [0x80, 6, 0, 1, 0, 0, 18, 0]
          (HandleUSBTransactionEndpoint0
            (sieCompleteEp0SETUP [0x00, 5, 5, 0, 0, 0, 0, 0] State.initial)))))).UADDR = 5 := by
  refine ⟨?_, ?_, ?_, ?_, ?_, ?_⟩ <;> decide!

theorem ArmEndpoint0INStatus_frame (s : State) :
    (ArmEndpoint0INStatus s).gPendingAddress = s.gPendingAddress ∧
    (ArmEndpoint0INStatus s).UADDR = s.UADDR ∧
    (ArmEndpoint0INStatus s).gEndpoint0OUTData = s.gEndpoint0OUTData ∧
    (ArmEndpoint0INStatus s).gEndpoint0OUTDataL = s.gEndpoint0OUTDataL ∧
    (ArmEndpoint0INStatus s).gEndpoint0OUTToggle = s.gEndpoint0OUTToggle ∧
    (ArmEndpoint0INStatus s).gEndpoint0INData = s.gEndpoint0INData ∧
    (ArmEndpoint0INStatus s).log =
      s.log ++ (if s.ep0In.STAT.UOWN = true then [Event.error] else []) := by
  simp only [ArmEndpoint0INStatus, Error]
  by_cases h : s.ep0In.STAT.UOWN = true <;> simp [h]

theorem HandleSetAddress_spec (setup : USBSetup) (s : State) :
    (MalformedSetAddress setup → HandleSetAddress setup s = Error s) ∧
    (¬ MalformedSetAddress setup →
      HandleSetAddress setup s = { s with gPendingAddress := setup.wValue }) := by
  unfold MalformedSetAddress
  constructor
  · intro h
    simp [HandleSetAddress, h]
  · intro h
    have h128 : setup.wValue % 256 = setup.wValue := by
      apply Nat.mod_eq_of_lt
      by_contra hc
      exact h (Or.inl (by omega))
    simp [HandleSetAddress, h, h128]

/-- C22. A malformed SetAddress (`wValue >= 128`, or `wIndex != 0`, or
`wLength != 0`) invokes the fatal-error signal once and leaves the pending
address and `UADDR` unchanged; a SetAddress with `wValue < 128` and
`wIndex = wLength = 0` does not invoke it (and stores `wValue` as the pending
address, `UADDR` unchanged). Both hold for `HandleSetAddress` itself and for
the whole `HandleEndpoint0SETUP` of a Setup packet that carries the request. -/
theorem SetAddress_validation (s : State) (hrt : s.setup.bmRequestType = 0x00)
    (hreq : s.setup.bRequest = 5) :
    (MalformedSetAddress s.setup →
      errorCount (HandleSetAddress s.setup s).log = errorCount s.log + 1 ∧
      (HandleSetAddress s.setup s).gPendingAddress = s.gPendingAddress ∧
      (HandleSetAddress s.setup s).UADDR = s.UADDR ∧
      errorCount (HandleEndpoint0SETUP s).log = errorCount s.log + 1 ∧
      (HandleEndpoint0SETUP s).gPendingAddress = s.gPendingAddress ∧
      (HandleEndpoint0SETUP s).UADDR = s.UADDR) ∧
    (s.setup.wValue < 128 → s.setup.wIndex = 0 → s.setup.wLength = 0 →
      errorCount (HandleSetAddress s.setup s).log = errorCount s.log ∧
      (HandleSetAddress s.setup s).gPendingAddress = s.setup.wValue ∧
      (HandleSetAddress s.setup s).UADDR = s.UADDR ∧
      errorCount (HandleEndpoint0SETUP s).log = errorCount s.log ∧
      (HandleEndpoint0SETUP s).gPendingAddress = s.setup.wValue ∧
      (HandleEndpoint0SETUP s).UADDR = s.UADDR) := by
  have hS : ∀ t : State, t.ep0In.STAT.UOWN = false →
      HandleEndpoint0SETUP s = { ArmEndpoint0INStatus (HandleSetAddress s.setup t) with
        PKTDIS := false } →
      errorCount (HandleEndpoint0SETUP s).log = errorCount (HandleSetAddress s.setup t).log ∧
      (HandleEndpoint0SETUP s).gPendingAddress = (HandleSetAddress s.setup t).gPendingAddress ∧
      (HandleEndpoint0SETUP s).UADDR = (HandleSetAddress s.setup t).UADDR := by
    intro t hown heq
    have hown2 : (HandleSetAddress s.setup t).ep0In.STAT.UOWN = false := by
      simp only [HandleSetAddress, Error]
      split_ifs <;> exact hown
    obtain ⟨f1, f2, _, _, _, _, f7⟩ := ArmEndpoint0INStatus_frame (HandleSetAddress s.setup t)
    rw [heq]
    refine ⟨?_, f1, f2⟩
    show errorCount (ArmEndpoint0INStatus (HandleSetAddress s.setup t)).log = _
    rw [f7, hown2]
    simp
  obtain ⟨g1, g2, g3⟩ := hS
    { s with
      ep0In := { s.ep0In with STAT := { s.ep0In.STAT with UOWN := false } }
      gEndpoint0INData := NULL
      gEndpoint0OUTData := NULL } rfl
    (by simp only [HandleEndpoint0SETUP, hrt, HandleEndpoint0ToDeviceStandardDevice, hreq])
  constructor
  · intro hbad
    rw [g1, g2, g3, (HandleSetAddress_spec s.setup _).1 hbad,
      (HandleSetAddress_spec s.setup _).1 hbad]
    simp [Error, errorCount_append, errorCount]
  · intro h1 h2 h3
    have hgood : ¬ MalformedSetAddress s.setup := by
      unfold MalformedSetAddress
      omega
    rw [g1, g2, g3, (HandleSetAddress_spec s.setup _).2 hgood,
      (HandleSetAddress_spec s.setup _).2 hgood]
    simp

/-- C22 for SetAddress(200), malformed, delivered in the initial state. -/
theorem SetAddress_validation_witness :
    ((sieCompleteEp0SETUP [0x00, 5, 200, 0, 0, 0, 0, 0] State.initial).setup.bmRequestType
        = 0x00 ∧
      (sieCompleteEp0SETUP [0x00, 5, 200, 0, 0, 0, 0, 0] State.initial).setup.bRequest = 5 ∧
      MalformedSetAddress
        (sieCompleteEp0SETUP [0x00, 5, 200, 0, 0, 0, 0, 0] State.initial).setup) ∧
    errorCount (HandleEndpoint0SETUP
      (sieCompleteEp0SETUP [0x00, 5, 200, 0, 0, 0, 0, 0] State.initial)).log =
      errorCount (sieCompleteEp0SETUP [0x00, 5, 200, 0, 0, 0, 0, 0] State.initial).log + 1 :=
  ⟨⟨by decide, by decide, by decide⟩,
    ((SetAddress_validation (sieCompleteEp0SETUP [0x00, 5, 200, 0, 0, 0, 0, 0] State.initial)
      (by decide) (by decide)).1 (by decide)).2.2.2.1⟩

/-- C23, as stated, fails. SetConfiguration(0) on the initial state and on a
configured state (SetConfiguration(1) serviced and its 16 display bytes
exchanged), both with the SPI engine idle and no unread received byte,
deconfigures Endpoint 1 and then invokes the fatal-error signal once, also
through `HandleUSBTransactionEndpoint0`. SetConfiguration(1) on an idle engine
that holds an unread received byte (`BF` set) signals the error too, in the
start of the display configuration exchange. SetConfiguration(1) on the
initial state signals no error and SetConfiguration(2) signals one. -/
theorem SetConfiguration_zero_signals_error :
    ¬ SetConfigurationErrorAsClaimed ⟨0x00, 9, 0, 0, 0⟩ State.initial ∧
    (¬ SetConfigurationErrorAsClaimed ⟨0x00, 9, 1, 0, 0⟩ { State.initial with BF := true } ∧
      ({ State.initial with BF := true } : State).gSPIData = NULL ∧
      errorCount (HandleSetConfiguration ⟨0x00, 9, 1, 0, 0⟩
        { State.initial with BF := true }).log = 1) ∧
    (State.initial.gSPIData = NULL ∧ State.initial.BF = false ∧
      errorCount State.initial.log = 0 ∧
      errorCount (HandleSetConfiguration ⟨0x00, 9, 0, 0, 0⟩ State.initial).log = 1 ∧
      (HandleSetConfiguration ⟨0x00, 9, 0, 0, 0⟩ State.initial).UEP1 = UEP.zero ∧
      (HandleSetConfiguration ⟨0x00, 9, 0, 0, 0⟩ State.initial).ep1Out.STAT.UOWN = false ∧
      (HandleSetConfiguration ⟨0x00, 9, 0, 0, 0⟩ State.initial).ep1In.STAT.UOWN = false ∧
      (HandleSetConfiguration ⟨0x00, 9, 0, 0, 0⟩ State.initial).INT2IE = false ∧
      errorCount (HandleUSBTransactionEndpoint0
        (sieCompleteEp0SETUP [0x00, 9, 0, 0, 0, 0, 0, 0] State.initial)).log = 1) ∧
    ((spiBytesComplete call
        (HandleUSBTransactionEndpoint0
          (sieCompleteEp0SETUP [0x00, 9, 1, 0, 0, 0, 0, 0] State.initial))
        (List.replicate 16 0)).gSPIData = NULL ∧
      (spiBytesComplete call
        (HandleUSBTransactionEndpoint0
          (sieCompleteEp0SETUP [0x00, 9, 1, 0, 0, 0, 0, 0] State.initial))
        (List.replicate 16 0)).BF = false ∧
      errorCount (spiBytesComplete call
        (HandleUSBTransactionEndpoint0
          (sieCompleteEp0SETUP [0x00, 9, 1, 0, 0, 0, 0, 0] State.initial))
        (List.replicate 16 0)).log = 0 ∧
      errorCount (HandleSetConfiguration ⟨0x00, 9, 0, 0, 0⟩
        (spiBytesComplete call
          (HandleUSBTransactionEndpoint0
            (sieCompleteEp0SETUP [0x00, 9, 1, 0, 0, 0, 0, 0] State.initial))
          (List.replicate 16 0))).log = 1) ∧
    errorCount (HandleSetConfiguration ⟨0x00, 9, 1, 0, 0⟩ State.initial).log = 0 ∧
    errorCount (HandleSetConfiguration ⟨0x00, 9, 2, 0, 0⟩ State.initial).log = 1 := by
  refine ⟨fun h => ?_, ⟨fun h => ?_, ?_, ?_⟩, ⟨?_, ?_, ?_, ?_, ?_, ?_, ?_, ?_, ?_⟩,
    ⟨?_, ?_, ?_, ?_⟩, ?_, ?_⟩
  · exact ((h rfl).mp (by decide!)).1 rfl
  · exact ((h rfl).mp (by decide!)).2 rfl
  all_goals decide!

/-- `DisableEndpoint1` on an idle engine with no unread received byte: the
display's terminate exchange is started, the key-scan interrupt disabled,
both Endpoint 1 descriptors disarmed and `UEP1` cleared, without an error. -/
theorem DisableEndpoint1_idle (s : State) (hidle : s.gSPIData = NULL) (hbf : s.BF = false) :
    (DisableEndpoint1 s).log =
      s.log ++ [Event.chipSelect false,
        Event.transmit (s.load ⟨Object.DisplayTerminate_buffer, 0⟩)] ∧
    (DisableEndpoint1 s).gSPIData = ⟨Object.DisplayTerminate_buffer, 0⟩ ∧
    (DisableEndpoint1 s).gSPIDataL = 4 ∧
    (DisableEndpoint1 s).INT2IE = false ∧
    (DisableEndpoint1 s).ep1Out.STAT.UOWN = false ∧
    (DisableEndpoint1 s).ep1In.STAT.UOWN = false ∧
    (DisableEndpoint1 s).UEP1 = UEP.zero := by
  obtain ⟨t, ht⟩ : ∃ t : State, t = { { s with INT2IE := false } with INT2IF := false } :=
    ⟨_, rfl⟩
  have e : DisplayTerminate s = SPIStartExchange ⟨Object.DisplayTerminate_buffer, 0⟩ 4 none t := by
    rw [ht]
    rfl
  have htidle : t.gSPIData = NULL := by
    rw [ht]
    exact hidle
  have htbf : t.BF = false := by
    rw [ht]
    exact hbf
  have h := SPIStartExchange_idle ⟨Object.DisplayTerminate_buffer, 0⟩ 4 none t htidle
    (by decide) (by decide)
  rw [htbf] at h
  simp only [Bool.false_eq_true, if_false] at h
  simp only [DisableEndpoint1]
  rw [e, h, ht]
  refine ⟨?_, ?_, ?_, ?_, ?_, ?_, ?_⟩ <;> trivial

/-- `EnableEndpoint1` on an idle engine with no unread received byte: Endpoint
1 OUT is armed for a 5-byte report, Endpoint 1 IN is software-owned, `UEP1`
enables the endpoint, the display's configuration exchange is started and the
key-scan interrupt enabled, without an error. -/
theorem EnableEndpoint1_idle (s : State) (hidle : s.gSPIData = NULL) (hbf : s.BF = false) :
    (EnableEndpoint1 s).log =
      s.log ++ [Event.chipSelect false,
        Event.transmit (s.load ⟨Object.DisplayInitialize_buffer, 0⟩)] ∧
    (EnableEndpoint1 s).gSPIData = ⟨Object.DisplayInitialize_buffer, 0⟩ ∧
    (EnableEndpoint1 s).gSPIDataL = 16 ∧
    (EnableEndpoint1 s).INT2IE = true ∧
    (EnableEndpoint1 s).ep1Out =
      ⟨{ BDSTAT.zero with UOWN := true }, 5, ⟨Object.ep1OutBuffer, 0⟩⟩ ∧
    (EnableEndpoint1 s).ep1In.STAT = BDSTAT.zero ∧
    (EnableEndpoint1 s).UEP1 =
      { s.UEP1 with EPHSHK := true, EPCONDIS := true, EPOUTEN := true, EPINEN := true } := by
  have harm : ∀ t : State, t.ep1Out.STAT.UOWN = false →
      ArmEndpoint1OUT t =
        { t with ep1Out := ⟨{ BDSTAT.zero with UOWN := true }, 5, ⟨Object.ep1OutBuffer, 0⟩⟩ } := by
    intro t ht
    simp [ArmEndpoint1OUT, ht]
  obtain ⟨t, ht⟩ : ∃ t : State, t =
      { (ArmEndpoint1OUT
        { { s with ep1Out := { s.ep1Out with STAT := BDSTAT.zero } } with
          ep1In := { s.ep1In with STAT := BDSTAT.zero } }) with
        UEP1 :=
          { s.UEP1 with EPHSHK := true, EPCONDIS := true, EPOUTEN := true, EPINEN := true } } :=
    ⟨_, rfl⟩
  have e : EnableEndpoint1 s = DisplayInitialize t := by
    rw [ht, harm _ rfl]
    rfl
  have htidle : t.gSPIData = NULL := by
    rw [ht, harm _ rfl]
    exact hidle
  have htbf : t.BF = false := by
    rw [ht, harm _ rfl]
    exact hbf
  have h := SPIStartExchange_idle ⟨Object.DisplayInitialize_buffer, 0⟩ 16 none t htidle
    (by decide) (by decide)
  rw [htbf] at h
  simp only [Bool.false_eq_true, if_false] at h
  rw [e]
  simp only [DisplayInitialize]
  rw [h, ht, harm _ rfl]
  refine ⟨?_, ?_, ?_, ?_, ?_, ?_, ?_⟩ <;> trivial

/-- C23, amended. With the SPI engine idle and no unread received byte,
`HandleSetConfiguration` invokes the fatal-error signal if and only if the
requested configuration value (low byte of `wValue`) is not 1: value 0
deconfigures (`DisableEndpoint1`: display terminated, both Endpoint 1
descriptors disarmed, `UEP1 = 0`) and then signals the error once, value 1
enables the data endpoint and initializes the display without signalling an
error, and every other value only signals the error, leaving Endpoint 1
unchanged. -/
theorem SetConfiguration_error_iff (setup : USBSetup) (s : State)
    (hidle : s.gSPIData = NULL) (hbf : s.BF = false) :
    (errorCount s.log < errorCount (HandleSetConfiguration setup s).log ↔
      setup.valueLow ≠ 1) ∧
    (setup.valueLow = 0 →
      errorCount (HandleSetConfiguration setup s).log = errorCount s.log + 1 ∧
      (HandleSetConfiguration setup s).gSPIData = ⟨Object.DisplayTerminate_buffer, 0⟩ ∧
      (HandleSetConfiguration setup s).gSPIDataL = 4 ∧
      (HandleSetConfiguration setup s).INT2IE = false ∧
      (HandleSetConfiguration setup s).ep1Out.STAT.UOWN = false ∧
      (HandleSetConfiguration setup s).ep1In.STAT.UOWN = false ∧
      (HandleSetConfiguration setup s).UEP1 = UEP.zero) ∧
    (setup.valueLow = 1 →
      errorCount (HandleSetConfiguration setup s).log = errorCount s.log ∧
      (HandleSetConfiguration setup s).gSPIData = ⟨Object.DisplayInitialize_buffer, 0⟩ ∧
      (HandleSetConfiguration setup s).gSPIDataL = 16 ∧
      (HandleSetConfiguration setup s).INT2IE = true ∧
      (HandleSetConfiguration setup s).ep1Out =
        ⟨{ BDSTAT.zero with UOWN := true }, 5, ⟨Object.ep1OutBuffer, 0⟩⟩ ∧
      (HandleSetConfiguration setup s).ep1In.STAT.UOWN = false ∧
      (HandleSetConfiguration setup s).UEP1 =
        { s.UEP1 with EPHSHK := true, EPCONDIS := true, EPOUTEN := true, EPINEN := true }) ∧
    (setup.valueLow ≠ 0 → setup.valueLow ≠ 1 →
      HandleSetConfiguration setup s = Error s ∧
      errorCount (HandleSetConfiguration setup s).log = errorCount s.log + 1 ∧
      (HandleSetConfiguration setup s).ep1Out = s.ep1Out ∧
      (HandleSetConfiguration setup s).ep1In = s.ep1In ∧
      (HandleSetConfiguration setup s).UEP1 = s.UEP1 ∧
      (HandleSetConfiguration setup s).gSPIData = s.gSPIData) := by
  have hcs : ∀ (l : List Event) (b : Nat),
      errorCount (l ++ [Event.chipSelect false, Event.transmit b]) = errorCount l := by
    intro l b
    simp [errorCount_append, errorCount]
  have hz : setup.valueLow = 0 →
      errorCount (HandleSetConfiguration setup s).log = errorCount s.log + 1 ∧
      (HandleSetConfiguration setup s).gSPIData = ⟨Object.DisplayTerminate_buffer, 0⟩ ∧
      (HandleSetConfiguration setup s).gSPIDataL = 4 ∧
      (HandleSetConfiguration setup s).INT2IE = false ∧
      (HandleSetConfiguration setup s).ep1Out.STAT.UOWN = false ∧
      (HandleSetConfiguration setup s).ep1In.STAT.UOWN = false ∧
      (HandleSetConfiguration setup s).UEP1 = UEP.zero := by
    intro h0
    obtain ⟨d1, d2, d3, d4, d5, d6, d7⟩ := DisableEndpoint1_idle s hidle hbf
    have e : HandleSetConfiguration setup s = Error (DisableEndpoint1 s) := by
      simp only [HandleSetConfiguration, h0]
    rw [e]
    refine ⟨?_, d2, d3, d4, d5, d6, d7⟩
    show errorCount ((DisableEndpoint1 s).log ++ [Event.error]) = _
    rw [d1, errorCount_append, hcs]
    rfl
  have ho : setup.valueLow = 1 →
      errorCount (HandleSetConfiguration setup s).log = errorCount s.log ∧
      (HandleSetConfiguration setup s).gSPIData = ⟨Object.DisplayInitialize_buffer, 0⟩ ∧
      (HandleSetConfiguration setup s).gSPIDataL = 16 ∧
      (HandleSetConfiguration setup s).INT2IE = true ∧
      (HandleSetConfiguration setup s).ep1Out =
        ⟨{ BDSTAT.zero with UOWN := true }, 5, ⟨Object.ep1OutBuffer, 0⟩⟩ ∧
      (HandleSetConfiguration setup s).ep1In.STAT.UOWN = false ∧
      (HandleSetConfiguration setup s).UEP1 =
        { s.UEP1 with EPHSHK := true, EPCONDIS := true, EPOUTEN := true, EPINEN := true } := by
    intro h1
    obtain ⟨d1, d2, d3, d4, d5, d6, d7⟩ := EnableEndpoint1_idle s hidle hbf
    have e : HandleSetConfiguration setup s = EnableEndpoint1 s := by
      simp only [HandleSetConfiguration, h1]
    rw [e]
    refine ⟨by rw [d1, hcs], d2, d3, d4, d5, ?_, d7⟩
    rw [d6]
    rfl
  have hx : setup.valueLow ≠ 0 → setup.valueLow ≠ 1 →
      HandleSetConfiguration setup s = Error s := by
    intro h0 h1
    unfold HandleSetConfiguration
    split
    · contradiction
    · contradiction
    · rfl
  have hxe : errorCount (Error s).log = errorCount s.log + 1 := by
    show errorCount (s.log ++ [Event.error]) = _
    rw [errorCount_append]
    rfl
  refine ⟨?_, hz, ho, ?_⟩
  · by_cases h1 : setup.valueLow = 1
    · simp [h1, (ho h1).1]
    · by_cases h0 : setup.valueLow = 0
      · simp [h1, (hz h0).1]
      · simp [h1, hx h0 h1, hxe]
  · intro h0 h1
    rw [hx h0 h1]
    exact ⟨rfl, hxe, rfl, rfl, rfl, rfl⟩

/-- C23 (amended) for SetConfiguration(0) on the initial state. -/
theorem SetConfiguration_error_iff_witness :
    (State.initial.gSPIData = NULL ∧ State.initial.BF = false) ∧
    (errorCount State.initial.log <
        errorCount (HandleSetConfiguration ⟨0x00, 9, 0, 0, 0⟩ State.initial).log ↔
      USBSetup.valueLow ⟨0x00, 9, 0, 0, 0⟩ ≠ 1) ∧
    (HandleSetConfiguration ⟨0x00, 9, 0, 0, 0⟩ State.initial).UEP1 = UEP.zero :=
  ⟨⟨rfl, rfl⟩,
    (SetConfiguration_error_iff ⟨0x00, 9, 0, 0, 0⟩ State.initial rfl rfl).1,
    ((SetConfiguration_error_iff ⟨0x00, 9, 0, 0, 0⟩ State.initial rfl rfl).2.1 rfl).2.2.2.2.2.2⟩

theorem ArmEndpoint0OUT_write_frame (s : State) :
    (ArmEndpoint0OUT s).gEndpoint0OUTDataL = s.gEndpoint0OUTDataL ∧
    (ArmEndpoint0OUT s).gEndpoint0OUTToggle = s.gEndpoint0OUTToggle ∧
    (ArmEndpoint0OUT s).log =
      s.log ++ (if s.ep0Out.STAT.UOWN = true then [Event.error] else []) := by
  simp only [ArmEndpoint0OUT, Error]
  by_cases h : s.ep0Out.STAT.UOWN = true <;> simp [h] <;> split_ifs <;> simp

theorem sieCompleteEp0OUT_frame (data : List Nat) (s : State) :
    (sieCompleteEp0OUT data s).USTAT_DIR = false ∧
    (sieCompleteEp0OUT data s).ep0Out.STAT.PID = 0b0001 ∧
    (sieCompleteEp0OUT data s).ep0Out.STAT.UOWN = false ∧
    (sieCompleteEp0OUT data s).ep0Out.CNT = data.length ∧
    (sieCompleteEp0OUT data s).gEndpoint0OUTData = s.gEndpoint0OUTData ∧
    (sieCompleteEp0OUT data s).gEndpoint0OUTDataL = s.gEndpoint0OUTDataL ∧
    (sieCompleteEp0OUT data s).gEndpoint0OUTToggle = s.gEndpoint0OUTToggle := by
  refine ⟨rfl, ?_, rfl, rfl, rfl, rfl, rfl⟩
  simp [sieCompleteEp0OUT, BDSTAT.sieToken, BDSTAT.PID, Nat.testBit]

/-- `HandleEndpoint0OUT` during a control write. -/
theorem HandleEndpoint0OUT_write (s : State) (hw : s.gEndpoint0OUTData ≠ NULL) :
    (HandleEndpoint0OUT s).gEndpoint0OUTData = s.gEndpoint0OUTData ∧
    (HandleEndpoint0OUT s).gEndpoint0OUTDataL =
      (s.gEndpoint0OUTDataL + 256 - s.ep0Out.CNT % 256) % 256 ∧
    (HandleEndpoint0OUT s).gEndpoint0OUTToggle =
      (if s.ep0Out.CNT = 32 then !s.gEndpoint0OUTToggle else s.gEndpoint0OUTToggle) ∧
    (HandleEndpoint0OUT s).gEndpoint0INData = s.gEndpoint0INData.add s.ep0Out.CNT ∧
    (HandleEndpoint0OUT s).log = s.log ∧
    (HandleEndpoint0OUT s).ep0Out = s.ep0Out := by
  simp only [HandleEndpoint0OUT, hw, ne_eq, not_false_eq_true, if_true,
    kEndpoint0MaximumPacketLength]
  by_cases h : s.ep0Out.CNT = 32 <;> simp [h]

/-- Servicing an OUT transaction on Endpoint 0 is `HandleEndpoint0OUT` followed
by `ArmEndpoint0OUT`, as far as the control-write bookkeeping goes. -/
theorem HandleUSBTransactionEndpoint0_OUT (s : State) (hdir : s.USTAT_DIR = false)
    (hpid : s.ep0Out.STAT.PID = 0b0001) (hw : s.gEndpoint0OUTData ≠ NULL) :
    (HandleUSBTransactionEndpoint0 s).gEndpoint0OUTData = s.gEndpoint0OUTData ∧
    (HandleUSBTransactionEndpoint0 s).gEndpoint0OUTDataL =
      (s.gEndpoint0OUTDataL + 256 - s.ep0Out.CNT % 256) % 256 ∧
    (HandleUSBTransactionEndpoint0 s).gEndpoint0OUTToggle =
      (if s.ep0Out.CNT = 32 then !s.gEndpoint0OUTToggle else s.gEndpoint0OUTToggle) ∧
    (HandleUSBTransactionEndpoint0 s).gEndpoint0INData =
      s.gEndpoint0INData.add s.ep0Out.CNT := by
  have key : ∀ t : State, t.gEndpoint0OUTData = s.gEndpoint0OUTData →
      t.gEndpoint0OUTDataL = s.gEndpoint0OUTDataL → t.ep0Out = s.ep0Out →
      t.gEndpoint0OUTToggle = s.gEndpoint0OUTToggle →
      t.gEndpoint0INData = s.gEndpoint0INData →
      (ArmEndpoint0OUT (HandleEndpoint0OUT t)).gEndpoint0OUTData = s.gEndpoint0OUTData ∧
      (ArmEndpoint0OUT (HandleEndpoint0OUT t)).gEndpoint0OUTDataL =
        (s.gEndpoint0OUTDataL + 256 - s.ep0Out.CNT % 256) % 256 ∧
      (ArmEndpoint0OUT (HandleEndpoint0OUT t)).gEndpoint0OUTToggle =
        (if s.ep0Out.CNT = 32 then !s.gEndpoint0OUTToggle else s.gEndpoint0OUTToggle) ∧
      (ArmEndpoint0OUT (HandleEndpoint0OUT t)).gEndpoint0INData =
        s.gEndpoint0INData.add s.ep0Out.CNT := by
    intro t h1 h2 h3 h4 h5
    obtain ⟨e1, e2, e3, e4, _, _⟩ := HandleEndpoint0OUT_write t (by rw [h1]; exact hw)
    rw [(ArmEndpoint0OUT_frame _).2.2.2.2.1, (ArmEndpoint0OUT_write_frame _).1,
      (ArmEndpoint0OUT_write_frame _).2.1, (ArmEndpoint0OUT_frame _).2.2.1, e1, e2, e3, e4,
      h1, h2, h3, h4, h5]
    exact ⟨rfl, rfl, rfl, rfl⟩
  simp only [HandleUSBTransactionEndpoint0]
  by_cases hst : s.UEP0.EPSTALL = true
  · simp only [hst, if_true, hdir, hpid]
    exact key _ rfl rfl rfl rfl rfl
  · simp only [hst, if_false, hdir, hpid, Bool.false_eq_true]
    exact key _ rfl rfl rfl rfl rfl

/-- C24. Control-write bookkeeping: when an OUT packet of `n` bytes is handled
during a control write (`gEndpoint0OUTData` non-null), by `HandleEndpoint0OUT`
and by the whole `HandleUSBTransactionEndpoint0`, the remaining expected byte
count is decreased by `n` modulo 256 (exactly by `n` when `n` does not exceed
it), and the expected data toggle is inverted if and only if `n = 32`. -/
theorem control_write_bookkeeping (s : State) (data : List Nat)
    (hw : s.gEndpoint0OUTData ≠ NULL) :
    ((HandleEndpoint0OUT (sieCompleteEp0OUT data s)).gEndpoint0OUTDataL + data.length) % 256 =
      s.gEndpoint0OUTDataL % 256 ∧
    (HandleEndpoint0OUT (sieCompleteEp0OUT data s)).gEndpoint0OUTDataL < 256 ∧
    ((HandleEndpoint0OUT (sieCompleteEp0OUT data s)).gEndpoint0OUTToggle =
        (!s.gEndpoint0OUTToggle) ↔ data.length = 32) ∧
    ((HandleUSBTransactionEndpoint0 (sieCompleteEp0OUT data s)).gEndpoint0OUTDataL +
        data.length) % 256 = s.gEndpoint0OUTDataL % 256 ∧
    (HandleUSBTransactionEndpoint0 (sieCompleteEp0OUT data s)).gEndpoint0OUTDataL < 256 ∧
    ((HandleUSBTransactionEndpoint0 (sieCompleteEp0OUT data s)).gEndpoint0OUTToggle =
        (!s.gEndpoint0OUTToggle) ↔ data.length = 32) ∧
    (data.length ≤ s.gEndpoint0OUTDataL → s.gEndpoint0OUTDataL < 256 →
      (HandleUSBTransactionEndpoint0 (sieCompleteEp0OUT data s)).gEndpoint0OUTDataL =
        s.gEndpoint0OUTDataL - data.length) := by
  obtain ⟨f1, f2, _, f4, f5, f6, f7⟩ := sieCompleteEp0OUT_frame data s
  have hw2 : (sieCompleteEp0OUT data s).gEndpoint0OUTData ≠ NULL := by rw [f5]; exact hw
  obtain ⟨_, a2, a3, _⟩ := HandleEndpoint0OUT_write _ hw2
  obtain ⟨_, b2, b3, _⟩ := HandleUSBTransactionEndpoint0_OUT _ f1 f2 hw2
  rw [a2, a3, b2, b3, f4, f6, f7]
  have htog : ∀ b : Bool, ((if data.length = 32 then !b else b) = !b) ↔ data.length = 32 := by
    intro b
    by_cases h : data.length = 32 <;> cases b <;> simp [h]
  refine ⟨by omega, by omega, htog _, by omega, by omega, htog _, ?_⟩
  intro h1 h2
  omega

/-- C24 for a full 32-byte packet after SetReport in the initial state. -/
theorem control_write_bookkeeping_witness :
    (HandleUSBTransactionEndpoint0
        (sieCompleteEp0SETUP [0x21, 9, 0, 2, 0, 0, 32, 0] State.initial)).gEndpoint0OUTData
      ≠ NULL ∧
    ((HandleUSBTransactionEndpoint0 (sieCompleteEp0OUT (List.replicate 32 7)
        (HandleUSBTransactionEndpoint0
          (sieCompleteEp0SETUP [0x21, 9, 0, 2, 0, 0, 32, 0] State.initial)))).gEndpoint0OUTDataL +
        (List.replicate 32 7).length) % 256 =
      (HandleUSBTransactionEndpoint0
        (sieCompleteEp0SETUP [0x21, 9, 0, 2, 0, 0, 32, 0] State.initial)).gEndpoint0OUTDataL
        % 256 :=
  ⟨by decide!,
    (control_write_bookkeeping
      (HandleUSBTransactionEndpoint0
        (sieCompleteEp0SETUP [0x21, 9, 0, 2, 0, 0, 32, 0] State.initial))
      (List.replicate 32 7) (by decide!)).2.2.2.1⟩

/-- C25, evaluated from the initial state. SetReport (report type 2,
`wLength = 5`) starts the data stage with 32 bytes expected; after the 5-byte
OUT data packet, a short packet, has been serviced the transfer is still in
its data stage (write cursor set, 27 bytes expected) and Endpoint 0 OUT is
re-armed with `DTSEN = 0`, not for a Setup only; after a zero-length packet 32
bytes are still expected. -/
theorem short_packet_keeps_data_stage :
    InWriteDataStage (HandleUSBTransactionEndpoint0
      (sieCompleteEp0SETUP [0x21, 9, 0, 2, 0, 0, 5, 0] State.initial)) ∧
    (HandleUSBTransactionEndpoint0
      (sieCompleteEp0SETUP [0x21, 9, 0, 2, 0, 0, 5, 0] State.initial)).gEndpoint0OUTDataL
      = 32 ∧
    InWriteDataStage (HandleEndpoint0OUT (sieCompleteEp0OUT [1, 2, 3, 4, 5]
      (HandleUSBTransactionEndpoint0
        (sieCompleteEp0SETUP [0x21, 9, 0, 2, 0, 0, 5, 0] State.initial)))) ∧
    InWriteDataStage (HandleUSBTransactionEndpoint0 (sieCompleteEp0OUT [1, 2, 3, 4, 5]
      (HandleUSBTransactionEndpoint0
        (sieCompleteEp0SETUP [0x21, 9, 0, 2, 0, 0, 5, 0] State.initial)))) ∧
    (HandleUSBTransactionEndpoint0 (sieCompleteEp0OUT [1, 2, 3, 4, 5]
      (HandleUSBTransactionEndpoint0
        (sieCompleteEp0SETUP [0x21, 9, 0, 2, 0, 0, 5, 0] State.initial)))).gEndpoint0OUTDataL
      = 27 ∧
    (HandleUSBTransactionEndpoint0 (sieCompleteEp0OUT [1, 2, 3, 4, 5]
      (HandleUSBTransactionEndpoint0
        (sieCompleteEp0SETUP [0x21, 9, 0, 2, 0, 0, 5, 0] State.initial)))).ep0Out.STAT.DTSEN
      = false ∧
    (HandleUSBTransactionEndpoint0 (sieCompleteEp0OUT []
      (HandleUSBTransactionEndpoint0
        (sieCompleteEp0SETUP [0x21, 9, 0, 2, 0, 0, 5, 0] State.initial)))).gEndpoint0OUTDataL
      = 32 := by
  refine ⟨?_, ?_, ?_, ?_, ?_, ?_, ?_⟩ <;> decide!

/-- C26, evaluated from the initial state. The control transfer has a single
direction initially and after the Setup of SetReport (`wLength = 32`) has been
serviced; after the 32-byte OUT data packet has been serviced the read cursor
`gEndpoint0INData` is the address 32 and the write cursor `gEndpoint0OUTData`
is the Endpoint 0 OUT buffer: both are non-null. -/
theorem both_cursors_set :
    SingleDirection State.initial ∧
    SingleDirection (HandleUSBTransactionEndpoint0
      (sieCompleteEp0SETUP [0x21, 9, 0, 2, 0, 0, 32, 0] State.initial)) ∧
    ¬ SingleDirection (HandleUSBTransactionEndpoint0 (sieCompleteEp0OUT (List.replicate 32 7)
      (HandleUSBTransactionEndpoint0
        (sieCompleteEp0SETUP [0x21, 9, 0, 2, 0, 0, 32, 0] State.initial)))) ∧
    (HandleUSBTransactionEndpoint0 (sieCompleteEp0OUT (List.replicate 32 7)
      (HandleUSBTransactionEndpoint0
        (sieCompleteEp0SETUP [0x21, 9, 0, 2, 0, 0, 32, 0] State.initial)))).gEndpoint0INData
      = NULL.add 32 ∧
    (HandleUSBTransactionEndpoint0 (sieCompleteEp0OUT (List.replicate 32 7)
      (HandleUSBTransactionEndpoint0
        (sieCompleteEp0SETUP [0x21, 9, 0, 2, 0, 0, 32, 0] State.initial)))).gEndpoint0OUTData
      = ⟨Object.ep0OutBuffer, 0⟩ ∧
    NULL.add 32 ≠ NULL := by
  refine ⟨?_, ?_, ?_, ?_, ?_, ?_⟩ <;> decide!

theorem HandleHIDSetReport_spec (setup : USBSetup) (s : State) :
    (setup.valueHigh = 2 →
      HandleHIDSetReport setup s =
        { s with gEndpoint0OUTData := ⟨Object.ep0OutBuffer, 0⟩, gEndpoint0OUTDataL := 32 }) ∧
    (setup.valueHigh ≠ 2 → HandleHIDSetReport setup s = Error s) := by
  constructor
  · intro h
    simp [HandleHIDSetReport, h, sizeofEp0Buffer]
  · intro h
    unfold HandleHIDSetReport
    split
    · contradiction
    · rfl

/-- C27. HID SetReport: handling a Class/Interface host-to-device Setup
(`bmRequestType = 0x21`) with `bRequest = 9` (SetReport) and report type 2
starts a control write expecting one maximum-size packet (write cursor at the
Endpoint 0 OUT buffer, 32 bytes expected, DATA1 expected first) without
signalling an error; with any other report type it invokes the fatal-error
signal once and starts no data stage (`gEndpoint0OUTData` stays `NULL`). -/
theorem SetReport_starts_control_write (s : State) (hrt : s.setup.bmRequestType = 0x21)
    (hreq : s.setup.bRequest = 9) :
    (s.setup.valueHigh = 2 →
      (HandleEndpoint0SETUP s).gEndpoint0OUTData = ⟨Object.ep0OutBuffer, 0⟩ ∧
      (HandleEndpoint0SETUP s).gEndpoint0OUTDataL = 32 ∧
      (HandleEndpoint0SETUP s).gEndpoint0OUTToggle = true ∧
      (HandleEndpoint0SETUP s).gEndpoint0INData = NULL ∧
      errorCount (HandleEndpoint0SETUP s).log = errorCount s.log) ∧
    (s.setup.valueHigh ≠ 2 →
      (HandleEndpoint0SETUP s).gEndpoint0OUTData = NULL ∧
      errorCount (HandleEndpoint0SETUP s).log = errorCount s.log + 1) := by
  have hS : ∀ t : State, t.ep0In.STAT.UOWN = false → t.log = s.log →
      t.gEndpoint0OUTData = NULL → t.gEndpoint0INData = NULL →
      HandleEndpoint0SETUP s = { HandleEndpoint0ToDeviceClassInterface s.setup t with
        PKTDIS := false } →
      (s.setup.valueHigh = 2 →
        (HandleEndpoint0SETUP s).gEndpoint0OUTData = ⟨Object.ep0OutBuffer, 0⟩ ∧
        (HandleEndpoint0SETUP s).gEndpoint0OUTDataL = 32 ∧
        (HandleEndpoint0SETUP s).gEndpoint0OUTToggle = true ∧
        (HandleEndpoint0SETUP s).gEndpoint0INData = NULL ∧
        errorCount (HandleEndpoint0SETUP s).log = errorCount s.log) ∧
      (s.setup.valueHigh ≠ 2 →
        (HandleEndpoint0SETUP s).gEndpoint0OUTData = NULL ∧
        errorCount (HandleEndpoint0SETUP s).log = errorCount s.log + 1) := by
    intro t hown hlog hout hin heq
    obtain ⟨_, _, f3, f4, _, f6, f7⟩ := ArmEndpoint0INStatus_frame (HandleHIDSetReport s.setup t)
    have hbuf : (⟨Object.ep0OutBuffer, 0⟩ : Ptr) ≠ NULL := by decide
    rw [heq]
    constructor
    · intro h2
      have hH := (HandleHIDSetReport_spec s.setup t).1 h2
      have hnn : (ArmEndpoint0INStatus (HandleHIDSetReport s.setup t)).gEndpoint0OUTData
          ≠ NULL := by
        rw [f3, hH]
        exact hbuf
      have e : HandleEndpoint0ToDeviceClassInterface s.setup t =
          { ArmEndpoint0INStatus (HandleHIDSetReport s.setup t) with
            gEndpoint0OUTToggle := true } := by
        simp only [HandleEndpoint0ToDeviceClassInterface, hreq, hnn, ne_eq, not_false_eq_true,
          if_true]
      rw [e]
      refine ⟨?_, ?_, rfl, ?_, ?_⟩
      · show (ArmEndpoint0INStatus (HandleHIDSetReport s.setup t)).gEndpoint0OUTData = _
        rw [f3, hH]
      · show (ArmEndpoint0INStatus (HandleHIDSetReport s.setup t)).gEndpoint0OUTDataL = _
        rw [f4, hH]
      · show (ArmEndpoint0INStatus (HandleHIDSetReport s.setup t)).gEndpoint0INData = _
        rw [f6, hH]
        exact hin
      · show errorCount (ArmEndpoint0INStatus (HandleHIDSetReport s.setup t)).log = _
        rw [f7, hH]
        simp [hown, hlog]
    · intro h2
      have hH := (HandleHIDSetReport_spec s.setup t).2 h2
      have hnull : (ArmEndpoint0INStatus (HandleHIDSetReport s.setup t)).gEndpoint0OUTData
          = NULL := by
        rw [f3, hH]
        exact hout
      have e : HandleEndpoint0ToDeviceClassInterface s.setup t =
          ArmEndpoint0INStatus (HandleHIDSetReport s.setup t) := by
        simp only [HandleEndpoint0ToDeviceClassInterface, hreq, hnull, ne_eq,
          not_true_eq_false, if_false]
      rw [e]
      refine ⟨?_, ?_⟩
      · show (ArmEndpoint0INStatus (HandleHIDSetReport s.setup t)).gEndpoint0OUTData = _
        exact hnull
      · show errorCount (ArmEndpoint0INStatus (HandleHIDSetReport s.setup t)).log = _
        rw [f7, hH]
        simp [Error, hown, hlog, errorCount_append, errorCount]
  exact hS
    { s with
      ep0In := { s.ep0In with STAT := { s.ep0In.STAT with UOWN := false } }
      gEndpoint0INData := NULL
      gEndpoint0OUTData := NULL } rfl rfl rfl rfl
    (by simp only [HandleEndpoint0SETUP, hrt])

/-- C27 for SetReport of report type 2 delivered in the initial state. -/
theorem SetReport_starts_control_write_witness :
    ((sieCompleteEp0SETUP [0x21, 9, 0, 2, 0, 0, 5, 0] State.initial).setup.bmRequestType
        = 0x21 ∧
      (sieCompleteEp0SETUP [0x21, 9, 0, 2, 0, 0, 5, 0] State.initial).setup.bRequest = 9 ∧
      (sieCompleteEp0SETUP [0x21, 9, 0, 2, 0, 0, 5, 0] State.initial).setup.valueHigh = 2) ∧
    (HandleEndpoint0SETUP
      (sieCompleteEp0SETUP [0x21, 9, 0, 2, 0, 0, 5, 0] State.initial)).gEndpoint0OUTDataL
      = 32 :=
  ⟨⟨by decide, by decide, by decide⟩,
    ((SetReport_starts_control_write
      (sieCompleteEp0SETUP [0x21, 9, 0, 2, 0, 0, 5, 0] State.initial)
      (by decide) (by decide)).1 (by decide)).2.1⟩

/-! ## Claims on display initialization and buffer-descriptor ownership -/

/-- `DisplayInitialize` called with the SPI engine idle returns with the
key-scan interrupt enabled and the configuration exchange only started. -/
theorem DisplayInitialize_returns_busy (s : State) (hidle : s.gSPIData = NULL) :
    (DisplayInitialize s).INT2IE = true ∧
    (DisplayInitialize s).gSPIData = ⟨Object.DisplayInitialize_buffer, 0⟩ ∧
    (DisplayInitialize s).gSPIDataL = 16 := by
  have h := SPIStartExchange_idle ⟨Object.DisplayInitialize_buffer, 0⟩ 16 none s hidle
    (by decide) (by decide)
  refine ⟨rfl, ?_, ?_⟩
  · show (SPIStartExchange ⟨Object.DisplayInitialize_buffer, 0⟩ 16 none s).gSPIData = _
    rw [h]
  · show (SPIStartExchange ⟨Object.DisplayInitialize_buffer, 0⟩ 16 none s).gSPIDataL = _
    rw [h]

/-- C28, evaluated on the initial state (SPI engine idle, key-scan interrupt
disabled). When `DisplayInitialize` returns, having set `INT2IE`, the
configuration exchange is still the active one with all 16 bytes to go: only
the first byte `0x03` has been written to the transmit register. The same
holds when it is reached through the Setup of SetConfiguration(1). The engine
is idle again only after the sixteenth byte-complete interrupt. -/
theorem interrupt_enabled_before_configured :
    (State.initial.gSPIData = NULL ∧ State.initial.INT2IE = false) ∧
    ((DisplayInitialize State.initial).INT2IE = true ∧
      (DisplayInitialize State.initial).gSPIData = ⟨Object.DisplayInitialize_buffer, 0⟩ ∧
      (DisplayInitialize State.initial).gSPIDataL = 16 ∧
      transmitted (DisplayInitialize State.initial).log = [0x03]) ∧
    ((HandleUSBTransactionEndpoint0
        (sieCompleteEp0SETUP [0x00, 9, 1, 0, 0, 0, 0, 0] State.initial)).INT2IE = true ∧
      (HandleUSBTransactionEndpoint0
        (sieCompleteEp0SETUP [0x00, 9, 1, 0, 0, 0, 0, 0] State.initial)).gSPIDataL = 16) ∧
    ((spiBytesComplete call (DisplayInitialize State.initial)
        (List.replicate 15 0)).gSPIData ≠ NULL ∧
      (spiBytesComplete call (DisplayInitialize State.initial)
        (List.replicate 16 0)).gSPIData = NULL) := by
  refine ⟨⟨?_, ?_⟩, ⟨?_, ?_, ?_, ?_⟩, ⟨?_, ?_⟩, ⟨?_, ?_⟩⟩ <;> decide!

/-- C29, evaluated from the initial state with the chip returning zeros. The
exchange of the first `DisplayInitialize` transmits the 16 configuration bytes
and leaves the received zeros in the static buffer; the exchange of a second
`DisplayInitialize`, called with the engine idle again, transmits those 16
zeros, not the configuration. -/
theorem second_initialize_sends_received_bytes :
    transmitted (spiBytesComplete call (DisplayInitialize State.initial)
      (List.replicate 16 0)).log =
      [0x03, 0x05, 0x02, 0x00, 0x0C, 0x00, 0x01, 0xFF, 0x04, 0x01, 0x06, 0x20, 0x08, 0x01,
       0x88, 0x00] ∧
    (spiBytesComplete call (DisplayInitialize State.initial)
      (List.replicate 16 0)).gSPIData = NULL ∧
    (spiBytesComplete call (DisplayInitialize State.initial)
      (List.replicate 16 0)).mem Object.DisplayInitialize_buffer = List.replicate 16 0 ∧
    transmitted (spiBytesComplete call
      (DisplayInitialize (spiBytesComplete call (DisplayInitialize State.initial)
        (List.replicate 16 0)))
      (List.replicate 16 0)).log =
      [0x03, 0x05, 0x02, 0x00, 0x0C, 0x00, 0x01, 0xFF, 0x04, 0x01, 0x06, 0x20, 0x08, 0x01,
       0x88, 0x00] ++ List.replicate 16 0 := by
  refine ⟨?_, ?_, ?_, ?_⟩ <;> decide!

/-- C30, evaluated on two reachable runs. (a) After the Setup of
GetDescriptor(Configuration) with `wLength = 32` Endpoint 0 OUT is
hardware-owned with `DTSEN = 0`; when the IN transaction completes,
`ArmEndpoint0OUT` is called with Endpoint 0 OUT still hardware-owned, signals
the error and rewrites the descriptor (`DTSEN` becomes 1). (b) On the device
showing (123, 456), a key press arms Endpoint 1 IN with the report of
(456, 123); a second key press, before the host has read it, overwrites the
IN buffer with the report of (123, 456) while the descriptor is
hardware-owned, signalling the error. -/
theorem descriptor_written_while_hardware_owned :
    ((HandleUSBTransactionEndpoint0
        (sieCompleteEp0SETUP [0x80, 6, 0, 2, 0, 0, 32, 0] State.initial)).ep0Out.STAT.UOWN
        = true ∧
      (HandleUSBTransactionEndpoint0
        (sieCompleteEp0SETUP [0x80, 6, 0, 2, 0, 0, 32, 0] State.initial)).ep0Out.STAT.DTSEN
        = false ∧
      (HandleEndpoint0IN (sieCompleteEp0IN (HandleUSBTransactionEndpoint0
        (sieCompleteEp0SETUP [0x80, 6, 0, 2, 0, 0, 32, 0] State.initial)))).ep0Out.STAT.UOWN
        = true ∧
      (HandleUSBTransactionEndpoint0 (sieCompleteEp0IN (HandleUSBTransactionEndpoint0
        (sieCompleteEp0SETUP [0x80, 6, 0, 2, 0, 0, 32, 0] State.initial)))).ep0Out =
        (ArmEndpoint0OUT (HandleEndpoint0IN (sieCompleteEp0IN (HandleUSBTransactionEndpoint0
          (sieCompleteEp0SETUP [0x80, 6, 0, 2, 0, 0, 32, 0] State.initial))))).ep0Out ∧
      (HandleUSBTransactionEndpoint0 (sieCompleteEp0IN (HandleUSBTransactionEndpoint0
        (sieCompleteEp0SETUP [0x80, 6, 0, 2, 0, 0, 32, 0] State.initial)))).ep0Out.STAT.DTSEN
        = true ∧
      errorCount (HandleUSBTransactionEndpoint0 (sieCompleteEp0IN (HandleUSBTransactionEndpoint0
        (sieCompleteEp0SETUP [0x80, 6, 0, 2, 0, 0, 32, 0] State.initial)))).log =
        errorCount (HandleUSBTransactionEndpoint0
          (sieCompleteEp0SETUP [0x80, 6, 0, 2, 0, 0, 32, 0] State.initial)).log + 1) ∧
    ((State.showing.gValue0 = 123 ∧ State.showing.gValue1 = 456 ∧
        State.showing.gSPIData = NULL ∧ State.showing.ep1In.STAT.UOWN = false) ∧
      (keyPress State.showing).ep1In.STAT.UOWN = true ∧
      (keyPress State.showing).gSPIData = NULL ∧
      (keyPress State.showing).mem Object.ep1InBuffer = [200, 1, 176, 7, 0] ∧
      (keyPress (keyPress State.showing)).mem Object.ep1InBuffer = [123, 0, 128, 28, 0] ∧
      (keyPress (keyPress State.showing)).ep1In.STAT.UOWN = true ∧
      errorCount (keyPress (keyPress State.showing)).log =
        errorCount (keyPress State.showing).log + 1) := by
  refine ⟨⟨?_, ?_, ?_, ?_, ?_, ?_⟩, ⟨⟨?_, ?_, ?_, ?_⟩, ?_, ?_, ?_, ?_, ?_, ?_⟩⟩ <;> decide!

/-! ## Claims on the descriptor tables and the digit encoder -/

/-- C32. The configuration bundle is well formed: walking its 41 bytes by each
sub-descriptor's `bLength` visits exactly the Configuration (9 bytes, type 2,
`wTotalLength = 41`), Interface (9, type 4, 2 endpoints, class 3 = HID), HID
(9, type `0x21`, report-descriptor length 27 = size of the report
descriptor), Endpoint (7, type 5, address `0x01`, interrupt, max packet 5,
interval 100) and Endpoint (7, type 5, address `0x81`, interrupt, max packet
5, interval 100) descriptors, in that order, ending exactly at the end; and
the device descriptor's `bMaxPacketSize0` is the Endpoint 0 buffer size 32. -/
theorem configuration_bundle_well_formed :
    gConfigurationDescriptor.length = 41 ∧
    walkDescriptors gConfigurationDescriptor.length gConfigurationDescriptor =
      some [[9, 2, 41, 0, 1, 1, 0, 0x80, 20],
            [9, 4, 0, 0, 2, 3, 0, 0, 0],
            [9, 0x21, 0x11, 0x01, 0, 1, 0x22, 27, 0],
            [7, 5, 0x01, 0x03, 5, 0, 100],
            [7, 5, 0x81, 0x03, 5, 0, 100]] ∧
    field16 gConfigurationDescriptor 2 = gConfigurationDescriptor.length ∧
    (gConfigurationDescriptor.drop 9).getD 4 0 = 2 ∧
    (gConfigurationDescriptor.drop 9).getD 5 0 = 3 ∧
    field16 (gConfigurationDescriptor.drop 18) 7 = gReportDescriptor.length ∧
    gReportDescriptor.length = 27 ∧
    ((gConfigurationDescriptor.drop 27).getD 2 0 = 0x01 ∧
      (gConfigurationDescriptor.drop 27).getD 3 0 % 4 = 3 ∧
      field16 (gConfigurationDescriptor.drop 27) 4 = 5 ∧
      (gConfigurationDescriptor.drop 27).getD 6 0 = 100) ∧
    ((gConfigurationDescriptor.drop 34).getD 2 0 = 0x81 ∧
      (gConfigurationDescriptor.drop 34).getD 3 0 % 4 = 3 ∧
      field16 (gConfigurationDescriptor.drop 34) 4 = 5 ∧
      (gConfigurationDescriptor.drop 34).getD 6 0 = 100) ∧
    gDeviceDescriptor.getD 7 0 = sizeofEp0Buffer ∧ sizeofEp0Buffer = 32 ∧
    kEndpoint0MaximumPacketLength = 32 := by
  refine ⟨?_, ?_, ?_, ?_, ?_, ?_, ?_, ⟨?_, ?_, ?_, ?_⟩, ⟨?_, ?_, ?_, ?_⟩, ?_, ?_, ?_⟩ <;> decide

/-- C37. For every pair of 24-bit values, also above 999999, every digit data
byte that `DisplayValues` produces has its low 7 bits in `0..9`, and the six
digits written for each display are the base-10 digits of the value modulo
`10^6`: the digit for register `base + k` is the `k`-th most significant one,
and the digits reassemble to `v mod 10^6`. -/
theorem DisplayValues_digits_decimal (v0 v1 : Nat) (s : State)
    (h0 : v0 < 2 ^ 24) (h1 : v1 < 2 ^ 24) :
    (∀ k, k < 6 → ∃ d,
      writtenTo (0x20 + k) ((DisplayValues v0 v1 s).mem Object.DisplayValues_buffer) = some d ∧
      d % 128 ≤ 9 ∧ d % 128 = v0 % 10 ^ 6 / 10 ^ (5 - k) % 10) ∧
    (∀ k, k < 6 → ∃ d,
      writtenTo (0x28 + k) ((DisplayValues v0 v1 s).mem Object.DisplayValues_buffer) = some d ∧
      d % 128 ≤ 9 ∧ d % 128 = v1 % 10 ^ 6 / 10 ^ (5 - k) % 10) ∧
    shownValue 0x20 ((DisplayValues v0 v1 s).mem Object.DisplayValues_buffer) = v0 % 10 ^ 6 ∧
    shownValue 0x28 ((DisplayValues v0 v1 s).mem Object.DisplayValues_buffer) = v1 % 10 ^ 6 := by
  rw [DisplayValues_buffer_eq v0 v1 s h0 h1]
  refine ⟨?_, ?_, ?_, ?_⟩
  · intro k hk
    interval_cases k <;> simp [writtenTo] <;> omega
  · intro k hk
    interval_cases k <;> simp [writtenTo] <;> omega
  · simp [shownValue, List.range, List.range.loop, writtenTo]
    omega
  · simp [shownValue, List.range, List.range.loop, writtenTo]
    omega

/-- C37 at `(2^20 - 1, 16777215)`: the displays show 048575 and 777215. -/
theorem DisplayValues_digits_decimal_witness :
    (1048575 < 2 ^ 24 ∧ 16777215 < 2 ^ 24) ∧
    shownValue 0x20
      ((DisplayValues 1048575 16777215 State.initial).mem Object.DisplayValues_buffer) =
        48575 ∧
    shownValue 0x28
      ((DisplayValues 1048575 16777215 State.initial).mem Object.DisplayValues_buffer) =
        777215 :=
  ⟨by decide,
    (DisplayValues_digits_decimal 1048575 16777215 State.initial (by decide)
      (by decide)).2.2.1,
    (DisplayValues_digits_decimal 1048575 16777215 State.initial (by decide)
      (by decide)).2.2.2⟩

/-! ## Claims on data toggles, error signals and SetAddress(0) -/

/-- C34, evaluated from the initial state. After the Setup of
GetDescriptor(Device) with `wLength = 18` all 18 bytes are queued in the one
armed IN packet and `ArmEndpoint0IN` has reset the read cursor to `NULL`;
`ArmEndpoint0OUT` therefore takes its Setup-only branch and arms Endpoint 0 OUT
with `DTSEN = 1`, `DTS = 0`, so that a DATA1 status packet does not match. It
is armed the same way after the data IN transaction has completed. Only when
the last data packet is full (Configuration with `wLength = 32`) is it armed
with `DTSEN = 0`. -/
theorem status_stage_expects_DATA0 :
    (ep0InPacket (HandleUSBTransactionEndpoint0
        (sieCompleteEp0SETUP [0x80, 6, 0, 1, 0, 0, 18, 0] State.initial)) =
        some gDeviceDescriptor ∧
      (HandleUSBTransactionEndpoint0
        (sieCompleteEp0SETUP [0x80, 6, 0, 1, 0, 0, 18, 0] State.initial)).gEndpoint0INData
        = NULL ∧
      (HandleUSBTransactionEndpoint0
        (sieCompleteEp0SETUP [0x80, 6, 0, 1, 0, 0, 18, 0] State.initial)).ep0Out.STAT.UOWN
        = true ∧
      (HandleUSBTransactionEndpoint0
        (sieCompleteEp0SETUP [0x80, 6, 0, 1, 0, 0, 18, 0] State.initial)).ep0Out.STAT.DTSEN
        = true ∧
      (HandleUSBTransactionEndpoint0
        (sieCompleteEp0SETUP [0x80, 6, 0, 1, 0, 0, 18, 0] State.initial)).ep0Out.STAT.DTS
        = false) ∧
    ((HandleUSBTransactionEndpoint0 (sieCompleteEp0IN (HandleUSBTransactionEndpoint0
        (sieCompleteEp0SETUP [0x80, 6, 0, 1, 0, 0, 18, 0] State.initial)))).ep0Out.STAT.DTSEN
        = true ∧
      (HandleUSBTransactionEndpoint0 (sieCompleteEp0IN (HandleUSBTransactionEndpoint0
        (sieCompleteEp0SETUP [0x80, 6, 0, 1, 0, 0, 18, 0] State.initial)))).ep0Out.STAT.DTS
        = false) ∧
    (HandleUSBTransactionEndpoint0
      (sieCompleteEp0SETUP [0x80, 6, 0, 2, 0, 0, 32, 0] State.initial)).ep0Out.STAT.DTSEN
      = false := by
  refine ⟨⟨?_, ?_, ?_, ?_, ?_⟩, ⟨?_, ?_⟩, ?_⟩ <;> decide!

/-- C35, evaluated. On the device showing (123, 456) a key press arms an IN
report with `DTS = 0`; its completion sets the stored toggle to 1;
`EnableEndpoint1`, called directly or through the Setup of SetConfiguration(1),
leaves the stored toggle at 1, and the next report that `SendValues` arms has
`DTS = 1`. -/
theorem toggle_survives_configuration :
    (keyPress State.showing).ep1In.STAT.DTS = false ∧
    (HandleUSBTransactionEndpoint1 (sieCompleteEp1IN (keyPress State.showing))).gToggleIN = 1 ∧
    (HandleUSBTransactionEndpoint1 (sieCompleteEp1IN (keyPress State.showing))).gSPIData
      = NULL ∧
    (EnableEndpoint1
      (HandleUSBTransactionEndpoint1 (sieCompleteEp1IN (keyPress State.showing)))).gToggleIN
      = 1 ∧
    (SendValues 456 123 (EnableEndpoint1
      (HandleUSBTransactionEndpoint1
        (sieCompleteEp1IN (keyPress State.showing))))).ep1In.STAT.DTS = true ∧
    (keyPress (spiBytesComplete call
      (HandleUSBTransactionEndpoint0 (sieCompleteEp0SETUP [0x00, 9, 1, 0, 0, 0, 0, 0]
        (HandleUSBTransactionEndpoint1 (sieCompleteEp1IN (keyPress State.showing)))))
      (List.replicate 16 0))).ep1In.STAT.DTS = true ∧
    (keyPress (spiBytesComplete call
      (HandleUSBTransactionEndpoint0 (sieCompleteEp0SETUP [0x00, 9, 1, 0, 0, 0, 0, 0]
        (HandleUSBTransactionEndpoint1 (sieCompleteEp1IN (keyPress State.showing)))))
      (List.replicate 16 0))).ep1In.STAT.UOWN = true := by
  refine ⟨?_, ?_, ?_, ?_, ?_, ?_, ?_⟩ <;> decide!

/-- C38, evaluated from the initial state. GetDescriptor(HID Report) addressed
to the Interface (`bmRequestType = 0x81`) arms its first, and only, IN data
packet, the 27 bytes of the report descriptor, with `DTS = 0`; the same
request after a GetDescriptor(Device) control read also arms it with
`DTS = 0`. GetDescriptor(Device) addressed to the Device (`0x80`) arms its
first packet with `DTS = 1`. -/
theorem interface_read_starts_with_DATA0 :
    (ep0InPacket (HandleUSBTransactionEndpoint0
        (sieCompleteEp0SETUP [0x81, 6, 0, 0x22, 0, 0, 27, 0] State.initial)) =
        some gReportDescriptor ∧
      (HandleUSBTransactionEndpoint0
        (sieCompleteEp0SETUP [0x81, 6, 0, 0x22, 0, 0, 27, 0] State.initial)).ep0In.STAT.DTS
        = false) ∧
    (HandleUSBTransactionEndpoint0
      (sieCompleteEp0SETUP [0x80, 6, 0, 1, 0, 0, 18, 0] State.initial)).ep0In.STAT.DTS
      = true ∧
    (ep0InPacket (HandleUSBTransactionEndpoint0
        (sieCompleteEp0SETUP [0x81, 6, 0, 0x22, 0, 0, 27, 0]
          (HandleUSBTransactionEndpoint0 (sieCompleteEp0IN (HandleUSBTransactionEndpoint0
            (sieCompleteEp0SETUP [0x80, 6, 0, 1, 0, 0, 18, 0] State.initial)))))) =
        some gReportDescriptor ∧
      (HandleUSBTransactionEndpoint0
        (sieCompleteEp0SETUP [0x81, 6, 0, 0x22, 0, 0, 27, 0]
          (HandleUSBTransactionEndpoint0 (sieCompleteEp0IN (HandleUSBTransactionEndpoint0
            (sieCompleteEp0SETUP [0x80, 6, 0, 1, 0, 0, 18, 0]
              State.initial)))))).ep0In.STAT.DTS = false) := by
  refine ⟨⟨?_, ?_⟩, ?_, ⟨?_, ?_⟩⟩ <;> decide!

/-- C39, evaluated from the initial state, the state left by
`EnableEndpoint0`. Servicing the Setup of SetAddress(5) signals no error and
leaves Endpoint 0 OUT hardware-owned; the SIE then completes the Status IN,
clearing only the ownership bit of Endpoint 0 IN; servicing that completion
applies the address and invokes `Error()` once, in `ArmEndpoint0OUT`, because
Endpoint 0 OUT is still hardware-owned. The same for the addresses 1 and 127. -/
theorem status_completion_signals_error :
    (errorCount State.initial.log = 0 ∧
      errorCount (HandleUSBTransactionEndpoint0
        (sieCompleteEp0SETUP [0x00, 5, 5, 0, 0, 0, 0, 0] State.initial)).log = 0 ∧
      (HandleUSBTransactionEndpoint0
        (sieCompleteEp0SETUP [0x00, 5, 5, 0, 0, 0, 0, 0] State.initial)).ep0Out.STAT.UOWN
        = true ∧
      (sieCompleteEp0IN (HandleUSBTransactionEndpoint0
        (sieCompleteEp0SETUP [0x00, 5, 5, 0, 0, 0, 0, 0] State.initial))).ep0Out.STAT.UOWN
        = true ∧
      (sieCompleteEp0IN (HandleUSBTransactionEndpoint0
        (sieCompleteEp0SETUP [0x00, 5, 5, 0, 0, 0, 0, 0] State.initial))).ep0In.STAT.UOWN
        = false) ∧
    (errorCount (HandleUSBTransactionEndpoint0 (sieCompleteEp0IN (HandleUSBTransactionEndpoint0
        (sieCompleteEp0SETUP [0x00, 5, 5, 0, 0, 0, 0, 0] State.initial)))).log = 1 ∧
      (HandleUSBTransactionEndpoint0 (sieCompleteEp0IN (HandleUSBTransactionEndpoint0
        (sieCompleteEp0SETUP [0x00, 5, 5, 0, 0, 0, 0, 0] State.initial)))).UADDR = 5 ∧
      (HandleUSBTransactionEndpoint0 (sieCompleteEp0IN (HandleUSBTransactionEndpoint0
        (sieCompleteEp0SETUP [0x00, 5, 5, 0, 0, 0, 0, 0] State.initial)))).LATD3 = false) ∧
    errorCount (HandleUSBTransactionEndpoint0 (sieCompleteEp0IN (HandleUSBTransactionEndpoint0
      (sieCompleteEp0SETUP [0x00, 5, 1, 0, 0, 0, 0, 0] State.initial)))).log = 1 ∧
    errorCount (HandleUSBTransactionEndpoint0 (sieCompleteEp0IN (HandleUSBTransactionEndpoint0
      (sieCompleteEp0SETUP [0x00, 5, 127, 0, 0, 0, 0, 0] State.initial)))).log = 1 := by
  refine ⟨⟨?_, ?_, ?_, ?_, ?_⟩, ⟨?_, ?_, ?_⟩, ?_, ?_⟩ <;> decide!

/-- Servicing an IN completion with no address pending and no control
transfer data in either direction leaves the address register alone. -/
theorem HandleUSBTransactionEndpoint0_IN_no_pending (s : State)
    (hpa : s.gPendingAddress = 0) (hin : s.gEndpoint0INData = NULL)
    (hout : s.gEndpoint0OUTData = NULL) :
    (HandleUSBTransactionEndpoint0 (sieCompleteEp0IN s)).UADDR = s.UADDR ∧
    (HandleUSBTransactionEndpoint0 (sieCompleteEp0IN s)).gPendingAddress = 0 := by
  obtain ⟨hpid, hown⟩ := sieToken_IN s.ep0In.STAT
  simp only [HandleUSBTransactionEndpoint0]
  rw [(ArmEndpoint0OUT_frame _).2.2.2.2.2.2, (ArmEndpoint0OUT_frame _).2.2.2.2.2.1]
  by_cases hst : s.UEP0.EPSTALL = true <;>
    simp [sieCompleteEp0IN, hpid, HandleEndpoint0IN, hst, hpa, hin, hout]

/-- The log that servicing the Setup of a well-formed SetAddress leaves. -/
theorem HandleUSBTransactionEndpoint0_SetAddress_log (s : State) (a : Nat) (ha : a ≤ 127)
    (hdir : s.USTAT_DIR = false) (hpid : s.ep0Out.STAT.PID = 0b1101)
    (hrt : s.setup.bmRequestType = 0x00) (hreq : s.setup.bRequest = 5)
    (hval : s.setup.wValue = a) (hidx : s.setup.wIndex = 0) (hlen : s.setup.wLength = 0) :
    (HandleEndpoint0SETUP s).log = s.log ∧
    (HandleUSBTransactionEndpoint0 s).log =
      s.log ++ (if s.ep0Out.STAT.UOWN = true then [Event.error] else []) := by
  have hmod : a % 256 = a := Nat.mod_eq_of_lt (by omega)
  have hna : ¬ 128 ≤ a := by omega
  have key : ∀ t : State, t.setup = s.setup →
      (HandleEndpoint0SETUP t).log = t.log ∧ (HandleEndpoint0SETUP t).ep0Out = t.ep0Out := by
    intro t hts
    simp [HandleEndpoint0SETUP, hts, hrt, HandleEndpoint0ToDeviceStandardDevice, hreq,
      HandleSetAddress, hval, hidx, hlen, hna, hmod, ArmEndpoint0INStatus, BDSTAT.zero]
  have hgen : ∀ t : State, t.setup = s.setup → t.log = s.log → t.ep0Out = s.ep0Out →
      (ArmEndpoint0OUT (HandleEndpoint0SETUP t)).log =
        s.log ++ (if s.ep0Out.STAT.UOWN = true then [Event.error] else []) := by
    intro t hts hlog hout
    rw [(ArmEndpoint0OUT_write_frame _).2.2, (key t hts).1, (key t hts).2, hlog, hout]
  refine ⟨(key s rfl).1, ?_⟩
  simp only [HandleUSBTransactionEndpoint0]
  by_cases hst : s.UEP0.EPSTALL = true
  · simp only [hst, if_true, hdir, hpid]
    exact hgen _ rfl rfl rfl
  · simp only [hst, if_false, hdir, hpid, Bool.false_eq_true]
    exact hgen _ rfl rfl rfl

/-- C40. SetAddress(0) is accepted but never applied: servicing a SetAddress
Setup with `wValue = 0` (`wIndex = wLength = 0`), handed over by the hardware,
invokes no fatal-error signal, leaves the pending address 0 and `UADDR`
unchanged, and servicing the completion of its Status IN leaves `UADDR`
unchanged too, so a device at a nonzero address stays at that address. -/
theorem SetAddress_zero_not_applied (s : State)
    (hdir : s.USTAT_DIR = false) (hpid : s.ep0Out.STAT.PID = 0b1101)
    (hown : s.ep0Out.STAT.UOWN = false)
    (hrt : s.setup.bmRequestType = 0x00) (hreq : s.setup.bRequest = 5)
    (hval : s.setup.wValue = 0) (hidx : s.setup.wIndex = 0) (hlen : s.setup.wLength = 0) :
    errorCount (HandleEndpoint0SETUP s).log = errorCount s.log ∧
    errorCount (HandleUSBTransactionEndpoint0 s).log = errorCount s.log ∧
    (HandleUSBTransactionEndpoint0 s).gPendingAddress = 0 ∧
    (HandleUSBTransactionEndpoint0 s).UADDR = s.UADDR ∧
    (HandleUSBTransactionEndpoint0
      (sieCompleteEp0IN (HandleUSBTransactionEndpoint0 s))).UADDR = s.UADDR ∧
    (HandleUSBTransactionEndpoint0
      (sieCompleteEp0IN (HandleUSBTransactionEndpoint0 s))).gPendingAddress = 0 := by
  obtain ⟨l1, l2⟩ := HandleUSBTransactionEndpoint0_SetAddress_log s 0 (by omega) hdir hpid hrt
    hreq hval hidx hlen
  obtain ⟨a1, a2, _, a4, a5⟩ := HandleUSBTransactionEndpoint0_SetAddress s 0 (by omega) hdir
    hpid hrt hreq hval hidx hlen
  obtain ⟨b1, b2⟩ := HandleUSBTransactionEndpoint0_IN_no_pending _ a2 a4 a5
  refine ⟨by rw [l1], ?_, a2, a1, by rw [b1, a1], b2⟩
  rw [l2, hown]
  simp

/-- C40 for SetAddress(0) received by the device at address 5. -/
theorem SetAddress_zero_not_applied_witness :
    ((HandleUSBTransactionEndpoint0 (sieCompleteEp0IN (HandleUSBTransactionEndpoint0
        (sieCompleteEp0SETUP [0x00, 5, 5, 0, 0, 0, 0, 0] State.initial)))).UADDR = 5 ∧
      (sieCompleteEp0SETUP [0x00, 5, 0, 0, 0, 0, 0, 0]
        (HandleUSBTransactionEndpoint0 (sieCompleteEp0IN (HandleUSBTransactionEndpoint0
          (sieCompleteEp0SETUP [0x00, 5, 5, 0, 0, 0, 0, 0] State.initial))))).setup.wValue
        = 0) ∧
    (HandleUSBTransactionEndpoint0 (sieCompleteEp0IN (HandleUSBTransactionEndpoint0
      (sieCompleteEp0SETUP [0x00, 5, 0, 0, 0, 0, 0, 0]
        (HandleUSBTransactionEndpoint0 (sieCompleteEp0IN (HandleUSBTransactionEndpoint0
          (sieCompleteEp0SETUP [0x00, 5, 5, 0, 0, 0, 0, 0] State.initial)))))))).UADDR =
      (sieCompleteEp0SETUP [0x00, 5, 0, 0, 0, 0, 0, 0]
        (HandleUSBTransactionEndpoint0 (sieCompleteEp0IN (HandleUSBTransactionEndpoint0
          (sieCompleteEp0SETUP [0x00, 5, 5, 0, 0, 0, 0, 0] State.initial))))).UADDR :=
  ⟨⟨by decide!, by decide!⟩,
    (SetAddress_zero_not_applied
      (sieCompleteEp0SETUP [0x00, 5, 0, 0, 0, 0, 0, 0]
        (HandleUSBTransactionEndpoint0 (sieCompleteEp0IN (HandleUSBTransactionEndpoint0
          (sieCompleteEp0SETUP [0x00, 5, 5, 0, 0, 0, 0, 0] State.initial)))))
      rfl (by decide!) rfl (by decide!) (by decide!) (by decide!) (by decide!)
      (by decide!)).2.2.2.2.1⟩

/-! ## Claim on control-read packetisation -/

theorem afterInCompletions_add (a : Nat) :
    ∀ (b : Nat) (s : State),
      afterInCompletions (a + b) s = afterInCompletions b (afterInCompletions a s) := by
  induction a with
  | zero => intro b s; simp [afterInCompletions]
  | succ a ih =>
    intro b s
    rw [Nat.add_right_comm]
    simp only [afterInCompletions]
    exact ih b _

/-- The state of a control read after `j` full packets have been sent. -/
theorem afterInCompletions_armed (D : List Nat) (hD : ∀ x ∈ D, x < 256) (j : Nat) :
    ∀ (s : State) (k L : Nat), ControlReadArmed s D k L → L ≤ 255 → k + L ≤ D.length →
      32 * j ≤ L → ControlReadArmed (afterInCompletions j s) D (k + 32 * j) (L - 32 * j) := by
  induction j with
  | zero => intro s k L h _ _ _; simpa [afterInCompletions] using h
  | succ j ih =>
    intro s k L h hL hk hj
    have hnext := HandleUSBTransactionEndpoint0_IN D hD s k L h hL hk
    have hlt : ¬ L < 32 := by omega
    simp only [hlt, if_false] at hnext
    have e1 : k + 32 * (j + 1) = k + 32 + 32 * j := by omega
    have e2 : L - 32 * (j + 1) = L - 32 - 32 * j := by omega
    rw [e1, e2]
    exact ih _ (k + 32) (L - 32) hnext (by omega) (by omega) (by omega)

/-- C33. Control-read packetisation terminates with a short packet: for a
GetDescriptor response of `n = min(descriptor size, wLength)` bytes, after the
Setup and `j` further IN completions the device has an IN packet armed exactly
for `j <= n / 32`, that is `n / 32 + 1` packets; packet `j` carries the bytes
of the descriptor from offset `32 j`, 32 bytes for `j < n / 32` and `n mod 32`
bytes (fewer than 32, possibly none) for `j = n / 32`; after that last packet
no IN packet is armed and the read cursor is `NULL`, whatever number of
further IN completions is serviced. -/
theorem control_read_packetisation (s : State) (D : List Nat)
    (hdir : s.USTAT_DIR = false) (hpid : s.ep0Out.STAT.PID = 0b1101)
    (hrt : s.setup.bmRequestType = 0x80 ∨ s.setup.bmRequestType = 0x81)
    (hreq : s.setup.bRequest = 6) (hdesc : returnedDescriptor s.setup.wValue = some D)
    (hbuf : (s.mem Object.ep0InBuffer).length = 32) :
    (∀ j, j ≤ min D.length s.setup.wLength / 32 →
      ep0InPacket (afterInCompletions j (HandleUSBTransactionEndpoint0 s)) =
        some ((D.drop (32 * j)).take (min 32 (min D.length s.setup.wLength - 32 * j)))) ∧
    (∀ j, j < min D.length s.setup.wLength / 32 →
      ∃ p, ep0InPacket (afterInCompletions j (HandleUSBTransactionEndpoint0 s)) = some p ∧
        p.length = 32) ∧
    (∃ p, ep0InPacket (afterInCompletions (min D.length s.setup.wLength / 32)
        (HandleUSBTransactionEndpoint0 s)) = some p ∧
      p.length = min D.length s.setup.wLength % 32 ∧ p.length < 32) ∧
    (∀ j, min D.length s.setup.wLength / 32 < j →
      ep0InPacket (afterInCompletions j (HandleUSBTransactionEndpoint0 s)) = none ∧
      (afterInCompletions j (HandleUSBTransactionEndpoint0 s)).gEndpoint0INData = NULL) := by
  obtain ⟨hD, hlen⟩ := descriptor_bytes _ D hdesc
  have harmed := HandleUSBTransactionEndpoint0_GetDescriptor s D hdir hpid hrt hreq hdesc hbuf
  generalize hn : min D.length s.setup.wLength = n at harmed ⊢
  have hnD : n ≤ D.length := by omega
  have hstep : ∀ j, j ≤ n / 32 →
      ControlReadArmed (afterInCompletions j (HandleUSBTransactionEndpoint0 s)) D (32 * j)
        (n - 32 * j) := by
    intro j hj
    have h := afterInCompletions_armed D hD j _ 0 n harmed (by omega) (by omega) (by omega)
    rwa [Nat.zero_add] at h
  have hpkt : ∀ j, j ≤ n / 32 →
      ep0InPacket (afterInCompletions j (HandleUSBTransactionEndpoint0 s)) =
        some ((D.drop (32 * j)).take (min 32 (n - 32 * j))) :=
    fun j hj => ControlReadArmed_packet _ D _ _ (hstep j hj)
  refine ⟨hpkt, ?_, ?_, ?_⟩
  · intro j hj
    refine ⟨_, hpkt j (by omega), ?_⟩
    rw [List.length_take, List.length_drop]
    omega
  · refine ⟨_, hpkt (n / 32) (Nat.le_refl _), ?_, ?_⟩
    · rw [List.length_take, List.length_drop]
      omega
    · rw [List.length_take, List.length_drop]
      omega
  · intro j hj
    obtain ⟨_, _, _, _, _, _, hout, hin⟩ := hstep (n / 32) (Nat.le_refl _)
    have hlt : n - 32 * (n / 32) < 32 := by omega
    simp only [hlt, if_true] at hin
    obtain ⟨i1, i2, i3⟩ := HandleUSBTransactionEndpoint0_IN_idle _ hin hout
    have hj' : j = n / 32 + (1 + (j - n / 32 - 1)) := by omega
    rw [hj', afterInCompletions_add, afterInCompletions_add]
    have hidle := afterInCompletions_idle (j - n / 32 - 1)
      (afterInCompletions 1 (afterInCompletions (n / 32) (HandleUSBTransactionEndpoint0 s)))
      i2 i3 (by simp [afterInCompletions, ep0InPacket, i1])
    exact ⟨hidle.2, hidle.1⟩

/-- C33 for the 48-byte Product string requested with `wLength = 255`: a
packet of 32 bytes, then the last one of 16. -/
theorem control_read_packetisation_witness :
    ((sieCompleteEp0SETUP [0x80, 6, 2, 3, 9, 4, 255, 0] State.initial).setup.bRequest = 6 ∧
      returnedDescriptor
        (sieCompleteEp0SETUP [0x80, 6, 2, 3, 9, 4, 255, 0] State.initial).setup.wValue =
        some gStringDescriptorProduct ∧
      min gStringDescriptorProduct.length
        (sieCompleteEp0SETUP [0x80, 6, 2, 3, 9, 4, 255, 0] State.initial).setup.wLength = 48) ∧
    ∃ p, ep0InPacket (afterInCompletions
        (min gStringDescriptorProduct.length
          (sieCompleteEp0SETUP [0x80, 6, 2, 3, 9, 4, 255, 0] State.initial).setup.wLength / 32)
        (HandleUSBTransactionEndpoint0
          (sieCompleteEp0SETUP [0x80, 6, 2, 3, 9, 4, 255, 0] State.initial))) = some p ∧
      p.length = min gStringDescriptorProduct.length
        (sieCompleteEp0SETUP [0x80, 6, 2, 3, 9, 4, 255, 0] State.initial).setup.wLength % 32 ∧
      p.length < 32 :=
  ⟨⟨by decide, by decide, by decide⟩,
    (control_read_packetisation (sieCompleteEp0SETUP [0x80, 6, 2, 3, 9, 4, 255, 0] State.initial)
      gStringDescriptorProduct rfl (by decide) (Or.inl (by decide)) (by decide) (by decide)
      (by decide)).2.2.1⟩

/-! ## Claim on the invariant of the display state -/

theorem SPIServiceInterrupt_gValue (s : State) (h0 : s.gValue0 < 2 ^ 20)
    (h1 : s.gValue1 < 2 ^ 20) :
    (SPIServiceInterrupt call s).gValue0 < 2 ^ 20 ∧
    (SPIServiceInterrupt call s).gValue1 < 2 ^ 20 := by
  have key : ∀ t : State, t.gValue0 = s.gValue0 → t.gValue1 = s.gValue1 → ∀ cb,
      (call cb t).gValue0 < 2 ^ 20 ∧ (call cb t).gValue1 < 2 ^ 20 := by
    intro t e0 e1 cb
    cases cb with
    | ReadDebouncedKeyA =>
      obtain ⟨g0, g1, _⟩ := ReadDebouncedKeyA_spec t t.gValue0 t.gValue1
        (by rw [e0]; exact h0) (by rw [e1]; exact h1) rfl rfl
      simp only [call]
      rw [g0, g1, e0, e1]
      exact ⟨h1, h0⟩
    | external i =>
      simp only [call, id, e0, e1]
      exact ⟨h0, h1⟩
  unfold SPIServiceInterrupt
  simp only []
  split_ifs <;> first
    | exact ⟨h0, h1⟩
    | (split <;> first
        | (apply key <;> rfl)
        | exact ⟨h0, h1⟩)

theorem DisplayEvent_apply_gValue (s : State) (e : DisplayEvent) (h0 : s.gValue0 < 2 ^ 20)
    (h1 : s.gValue1 < 2 ^ 20) :
    (e.apply s).gValue0 < 2 ^ 20 ∧ (e.apply s).gValue1 < 2 ^ 20 := by
  cases e with
  | outReport data =>
    have hv := HandleEndpoint1OUT_gValue (sieCompleteEp1OUT data s)
    have hlt : ∀ p, (sieCompleteEp1OUT data s).load p < 256 := fun p => Nat.mod_lt _ (by decide)
    have b0 := hlt ⟨Object.ep1OutBuffer, 0⟩
    have b1 := hlt ⟨Object.ep1OutBuffer, 1⟩
    have b2 := hlt ⟨Object.ep1OutBuffer, 2⟩
    have b3 := hlt ⟨Object.ep1OutBuffer, 3⟩
    have b4 := hlt ⟨Object.ep1OutBuffer, 4⟩
    simp only [HandleEndpoint1OUT_values_eq, Prod.mk.injEq] at hv
    have hE : DisplayEvent.apply s (DisplayEvent.outReport data) =
        HandleEndpoint1OUT (sieCompleteEp1OUT data s) := by
      simp [DisplayEvent.apply, HandleUSBTransactionEndpoint1, sieCompleteEp1OUT]
    rw [hE, hv.1, hv.2]
    constructor <;> omega
  | inComplete =>
    have hE : DisplayEvent.apply s DisplayEvent.inComplete =
        HandleEndpoint1IN (sieCompleteEp1IN s) := by
      simp [DisplayEvent.apply, HandleUSBTransactionEndpoint1, sieCompleteEp1IN]
    rw [hE]
    exact ⟨h0, h1⟩
  | keyInterrupt =>
    simp only [DisplayEvent.apply, ControlsServiceInterrupt, (SPIStartExchange_gValue _ _ _ _).1,
      (SPIStartExchange_gValue _ _ _ _).2]
    exact ⟨h0, h1⟩
  | spiByte r =>
    simp only [DisplayEvent.apply, spiByteComplete]
    exact SPIServiceInterrupt_gValue _ h0 h1

theorem runEvents_gValue (es : List DisplayEvent) :
    ∀ s : State, s.gValue0 < 2 ^ 20 → s.gValue1 < 2 ^ 20 →
      (runEvents s es).gValue0 < 2 ^ 20 ∧ (runEvents s es).gValue1 < 2 ^ 20 := by
  induction es with
  | nil => intro s h0 h1; exact ⟨h0, h1⟩
  | cons e es ih =>
    intro s h0 h1
    obtain ⟨g0, g1⟩ := DisplayEvent_apply_gValue s e h0 h1
    exact ih _ g0 g1

/-- C36. Invariant of the display state: from the initial state (both values
0), after any sequence of Endpoint 1 OUT reports with arbitrary bytes,
Endpoint 1 IN completions, key-scan interrupts and SPI byte-complete
interrupts (hence any key-press swaps), both stored values are below `2^20`;
consequently the report `SendValues` builds from the stored values decodes,
with the extraction of `HandleEndpoint1OUT`, to exactly the stored pair, and
the five bytes it leaves in the IN buffer are the little-endian bytes of
`gValue0 + 2^20 gValue1`. -/
theorem display_values_invariant (es : List DisplayEvent) (t : State) :
    (runEvents State.initial es).gValue0 < 2 ^ 20 ∧
    (runEvents State.initial es).gValue1 < 2 ^ 20 ∧
    HandleEndpoint1OUT.values (SendValues.report ⟨0, 0, 0, 0, 0⟩
        (runEvents State.initial es).gValue0 (runEvents State.initial es).gValue1) =
      ((runEvents State.initial es).gValue0, (runEvents State.initial es).gValue1) ∧
    (SendValues (runEvents State.initial es).gValue0 (runEvents State.initial es).gValue1
        t).mem Object.ep1InBuffer =
      [((runEvents State.initial es).gValue0 + 2 ^ 20 * (runEvents State.initial es).gValue1)
          % 256,
       ((runEvents State.initial es).gValue0 + 2 ^ 20 * (runEvents State.initial es).gValue1)
          / 2 ^ 8 % 256,
       ((runEvents State.initial es).gValue0 + 2 ^ 20 * (runEvents State.initial es).gValue1)
          / 2 ^ 16 % 256,
       ((runEvents State.initial es).gValue0 + 2 ^ 20 * (runEvents State.initial es).gValue1)
          / 2 ^ 24 % 256,
       ((runEvents State.initial es).gValue0 + 2 ^ 20 * (runEvents State.initial es).gValue1)
          / 2 ^ 32 % 256] := by
  obtain ⟨g0, g1⟩ := runEvents_gValue es State.initial (by decide) (by decide)
  refine ⟨g0, g1, ?_, (SendValues_spec _ _ t g0 g1).2.2.1⟩
  rw [SendValues_report_bytes _ _ _ g0 g1, HandleEndpoint1OUT_values_eq]
  simp only [Prod.mk.injEq]
  constructor <;> omega

/-! ## Claim on the hand-off order -/

theorem copyTraced_state (n : Nat) :
    ∀ (dest : Ptr) (s : State),
      (ArmEndpoint0IN.copyTraced n dest s).1 = ArmEndpoint0IN.copy n dest s := by
  induction n with
  | zero => intro dest s; rfl
  | succ n ih =>
    intro dest s
    simp only [ArmEndpoint0IN.copyTraced, ArmEndpoint0IN.copy]
    exact ih _ _

theorem copyTraced_writes (n : Nat) :
    ∀ (dest : Ptr) (s : State) (d : BD),
      ∀ w ∈ (ArmEndpoint0IN.copyTraced n dest s).2, w.grants d = false := by
  induction n with
  | zero => intro dest s d w hw; simp [ArmEndpoint0IN.copyTraced] at hw
  | succ n ih =>
    intro dest s d w hw
    simp only [ArmEndpoint0IN.copyTraced, List.mem_cons] at hw
    rcases hw with rfl | hw
    · rfl
    · exact ih _ _ d w hw

theorem EnableEndpoint0_traced (s : State) :
    (EnableEndpoint0.traced s).1 = EnableEndpoint0 s ∧
    HandsOffLast BD.ep0Out (EnableEndpoint0.traced s).2 :=
  ⟨rfl,
    [Write.ADR BD.ep0Out ⟨Object.ep0OutBuffer, 0⟩, Write.CNT BD.ep0Out sizeofEp0Buffer,
      Write.STAT_i BD.ep0Out 0, Write.DTSEN BD.ep0Out true],
    [Write.STAT_i BD.ep0In 0], rfl, by decide, by decide⟩

theorem ArmEndpoint0INStatus_traced (s : State) :
    (ArmEndpoint0INStatus.traced s).1 = ArmEndpoint0INStatus s ∧
    HandsOffLast BD.ep0In (ArmEndpoint0INStatus.traced s).2 :=
  ⟨rfl,
    [Write.STAT_i BD.ep0In 0, Write.ADR BD.ep0In ⟨Object.ep0InBuffer, 0⟩, Write.CNT BD.ep0In 0,
      Write.DTS BD.ep0In true, Write.DTSEN BD.ep0In true],
    [], rfl, by decide, by decide⟩

theorem ArmEndpoint0INStall_traced (s : State) :
    (ArmEndpoint0INStall.traced s).1 = ArmEndpoint0INStall s ∧
    HandsOffLast BD.ep0In (ArmEndpoint0INStall.traced s).2 :=
  ⟨rfl, [Write.STAT_i BD.ep0In 0, Write.BSTALL BD.ep0In true], [], rfl, by decide, by decide⟩

theorem ArmEndpoint1OUT_traced (s : State) :
    (ArmEndpoint1OUT.traced s).1 = ArmEndpoint1OUT s ∧
    HandsOffLast BD.ep1Out (ArmEndpoint1OUT.traced s).2 :=
  ⟨rfl,
    [Write.ADR BD.ep1Out ⟨Object.ep1OutBuffer, 0⟩, Write.CNT BD.ep1Out 5,
      Write.STAT_i BD.ep1Out 0],
    [], rfl, by decide, by decide⟩

theorem ArmEndpoint1IN_traced (s : State) :
    (ArmEndpoint1IN.traced s).1 = ArmEndpoint1IN s ∧
    HandsOffLast BD.ep1In (ArmEndpoint1IN.traced s).2 := by
  refine ⟨rfl,
    [Write.ADR BD.ep1In ⟨Object.ep1InBuffer, 0⟩, Write.CNT BD.ep1In 5,
      Write.STAT_i BD.ep1In 0, Write.DTS BD.ep1In (decide (s.gToggleIN % 2 = 1)),
      Write.DTSEN BD.ep1In true],
    [], ?_, ?_, by decide⟩
  · simp only [ArmEndpoint1IN.traced]
    split_ifs <;> rfl
  · intro w hw
    simp only [List.mem_cons, List.mem_singleton, List.not_mem_nil, or_false] at hw
    rcases hw with rfl | rfl | rfl | rfl | rfl <;> rfl

theorem SendValues_traced (value0 value1 : Nat) (s : State) :
    (SendValues.traced value0 value1 s).1 = SendValues value0 value1 s ∧
    HandsOffLast BD.ep1In (SendValues.traced value0 value1 s).2 := by
  obtain ⟨h1, before, after, h2, h3, h4⟩ := ArmEndpoint1IN_traced
    (s.assign Object.ep1InBuffer
      [(SendValues.report ⟨0, 0, 0, 0, 0⟩ value0 value1).b0,
       (SendValues.report ⟨0, 0, 0, 0, 0⟩ value0 value1).b1,
       (SendValues.report ⟨0, 0, 0, 0, 0⟩ value0 value1).b2,
       (SendValues.report ⟨0, 0, 0, 0, 0⟩ value0 value1).b3,
       (SendValues.report ⟨0, 0, 0, 0, 0⟩ value0 value1).b4])
  refine ⟨h1, ?_⟩
  refine ⟨[Write.buffer ⟨Object.ep1InBuffer, 0⟩
        ((SendValues.report ⟨0, 0, 0, 0, 0⟩ value0 value1).b0 % 256),
      Write.buffer ⟨Object.ep1InBuffer, 1⟩
        ((SendValues.report ⟨0, 0, 0, 0, 0⟩ value0 value1).b1 % 256),
      Write.buffer ⟨Object.ep1InBuffer, 2⟩
        ((SendValues.report ⟨0, 0, 0, 0, 0⟩ value0 value1).b2 % 256),
      Write.buffer ⟨Object.ep1InBuffer, 3⟩
        ((SendValues.report ⟨0, 0, 0, 0, 0⟩ value0 value1).b3 % 256),
      Write.buffer ⟨Object.ep1InBuffer, 4⟩
        ((SendValues.report ⟨0, 0, 0, 0, 0⟩ value0 value1).b4 % 256)] ++ before,
    after, ?_, ?_, h4⟩
  · simp only [SendValues.traced, h2, List.append_assoc]
  · intro w hw
    simp only [List.mem_append, List.mem_cons, List.mem_singleton, List.not_mem_nil,
      or_false] at hw
    rcases hw with (rfl | rfl | rfl | rfl | rfl) | hw
    · rfl
    · rfl
    · rfl
    · rfl
    · rfl
    · exact h3 w hw

theorem ArmEndpoint0OUT_traced (s : State) :
    (ArmEndpoint0OUT.traced s).1 = ArmEndpoint0OUT s ∧
    HandsOffLast BD.ep0Out (ArmEndpoint0OUT.traced s).2 := by
  have hc : ∀ t : State,
      (if t.ep0Out.STAT.UOWN = true then Error t else t).gEndpoint0OUTData =
        t.gEndpoint0OUTData ∧
      (if t.ep0Out.STAT.UOWN = true then Error t else t).gEndpoint0OUTDataL =
        t.gEndpoint0OUTDataL ∧
      (if t.ep0Out.STAT.UOWN = true then Error t else t).gEndpoint0OUTToggle =
        t.gEndpoint0OUTToggle ∧
      (if t.ep0Out.STAT.UOWN = true then Error t else t).gEndpoint0INData =
        t.gEndpoint0INData ∧
      (if t.ep0Out.STAT.UOWN = true then Error t else t).gEndpoint0INDataL =
        t.gEndpoint0INDataL := by
    intro t
    split_ifs <;> exact ⟨rfl, rfl, rfl, rfl, rfl⟩
  by_cases hcond : (s.gEndpoint0OUTData ≠ NULL ∧ s.gEndpoint0OUTDataL > 0 ∧
        s.gEndpoint0OUTToggle = true) ∨
      (s.gEndpoint0INData ≠ NULL ∧ s.gEndpoint0INDataL = 0)
  · refine ⟨?_,
      [Write.ADR BD.ep0Out ⟨Object.ep0OutBuffer, 0⟩, Write.CNT BD.ep0Out sizeofEp0Buffer,
        Write.STAT_i BD.ep0Out 0, Write.DTSEN BD.ep0Out false],
      [], ?_, by decide, by decide⟩
    · simp only [ArmEndpoint0OUT.traced, ArmEndpoint0OUT, (hc s).1, (hc s).2.1, (hc s).2.2.1,
        (hc s).2.2.2.1, (hc s).2.2.2.2, hcond, if_true]
    · simp only [ArmEndpoint0OUT.traced, (hc s).1, (hc s).2.1, (hc s).2.2.1,
        (hc s).2.2.2.1, (hc s).2.2.2.2, hcond, if_true]
      rfl
  · refine ⟨?_,
      [Write.ADR BD.ep0Out ⟨Object.ep0OutBuffer, 0⟩, Write.CNT BD.ep0Out sizeofEp0Buffer,
        Write.STAT_i BD.ep0Out 0, Write.DTS BD.ep0Out false, Write.DTSEN BD.ep0Out true],
      [], ?_, by decide, by decide⟩
    · simp only [ArmEndpoint0OUT.traced, ArmEndpoint0OUT, (hc s).1, (hc s).2.1, (hc s).2.2.1,
        (hc s).2.2.2.1, (hc s).2.2.2.2, hcond, if_false]
    · simp only [ArmEndpoint0OUT.traced, (hc s).1, (hc s).2.1, (hc s).2.2.1,
        (hc s).2.2.2.1, (hc s).2.2.2.2, hcond, if_false]
      rfl

theorem ArmEndpoint0IN_traced (s : State) :
    (ArmEndpoint0IN.traced s).1 = ArmEndpoint0IN s ∧
    HandsOffLast BD.ep0In (ArmEndpoint0IN.traced s).2 := by
  constructor
  · simp only [ArmEndpoint0IN.traced, ArmEndpoint0IN, copyTraced_state]
  · refine ⟨(ArmEndpoint0IN.traced s).2.dropLast, [], ?_, ?_, by decide⟩
    · simp only [ArmEndpoint0IN.traced, List.dropLast_concat]
    · simp only [ArmEndpoint0IN.traced, List.dropLast_concat]
      intro w hw
      simp only [List.mem_append, List.mem_singleton, List.mem_cons, List.not_mem_nil,
        or_false] at hw
      rcases hw with ((((rfl | hw) | rfl) | rfl) | rfl) | rfl
      · rfl
      · exact copyTraced_writes _ _ _ _ w hw
      · rfl
      · rfl
      · rfl
      · rfl

/-- C31. Hand-off order: in every arm operation (`EnableEndpoint0`,
`ArmEndpoint0OUT`, `ArmEndpoint0IN`, `ArmEndpoint0INStatus`,
`ArmEndpoint0INStall`, `ArmEndpoint1OUT`, `ArmEndpoint1IN`, and `SendValues`
with its report bytes), from every state, the sequence of writes contains a
write of the `UOWN` bit alone that sets it to 1; no write before it hands the
descriptor over (the whole-register write clears `UOWN`), so the buffer
contents, address, byte count, `DTS`, `DTSEN` and `BSTALL` are written while
the descriptor is not yet handed over by the operation; and no write after it
touches the descriptor or its buffer. The traced operations compute the same
state as the operations themselves. -/
theorem handoff_order (s : State) (value0 value1 : Nat) :
    ((EnableEndpoint0.traced s).1 = EnableEndpoint0 s ∧
      HandsOffLast BD.ep0Out (EnableEndpoint0.traced s).2) ∧
    ((ArmEndpoint0OUT.traced s).1 = ArmEndpoint0OUT s ∧
      HandsOffLast BD.ep0Out (ArmEndpoint0OUT.traced s).2) ∧
    ((ArmEndpoint0IN.traced s).1 = ArmEndpoint0IN s ∧
      HandsOffLast BD.ep0In (ArmEndpoint0IN.traced s).2) ∧
    ((ArmEndpoint0INStatus.traced s).1 = ArmEndpoint0INStatus s ∧
      HandsOffLast BD.ep0In (ArmEndpoint0INStatus.traced s).2) ∧
    ((ArmEndpoint0INStall.traced s).1 = ArmEndpoint0INStall s ∧
      HandsOffLast BD.ep0In (ArmEndpoint0INStall.traced s).2) ∧
    ((ArmEndpoint1OUT.traced s).1 = ArmEndpoint1OUT s ∧
      HandsOffLast BD.ep1Out (ArmEndpoint1OUT.traced s).2) ∧
    ((ArmEndpoint1IN.traced s).1 = ArmEndpoint1IN s ∧
      HandsOffLast BD.ep1In (ArmEndpoint1IN.traced s).2) ∧
    ((SendValues.traced value0 value1 s).1 = SendValues value0 value1 s ∧
      HandsOffLast BD.ep1In (SendValues.traced value0 value1 s).2) ∧
    (ArmEndpoint0IN.traced
      { State.initial with
        gEndpoint0INData := ⟨Object.gStringDescriptor0, 0⟩
        gEndpoint0INDataL := 4
        gEndpoint0INToggle := true }).2 =
      [Write.CNT BD.ep0In 4,
       Write.buffer ⟨Object.ep0InBuffer, 0⟩ 4, Write.buffer ⟨Object.ep0InBuffer, 1⟩ 3,
       Write.buffer ⟨Object.ep0InBuffer, 2⟩ 0x09, Write.buffer ⟨Object.ep0InBuffer, 3⟩ 0x04,
       Write.ADR BD.ep0In ⟨Object.ep0InBuffer, 0⟩, Write.STAT_i BD.ep0In 0,
       Write.DTS BD.ep0In true, Write.DTSEN BD.ep0In true, Write.UOWN BD.ep0In true] :=
  ⟨EnableEndpoint0_traced s, ArmEndpoint0OUT_traced s, ArmEndpoint0IN_traced s,
    ArmEndpoint0INStatus_traced s, ArmEndpoint0INStall_traced s, ArmEndpoint1OUT_traced s,
    ArmEndpoint1IN_traced s, SendValues_traced value0 value1 s, by decide⟩

end XPlanePanel
